import Mathlib

/-!
Verification of the link/HTML normalization core of `scripts/generate_report.py`.

The Python functions `_percent_encode_url`, `_normalize_href`,
`_rewrite_links_in_html`, `_autolink_plain_urls_and_markdown`,
`_render_html_from_structured` and `_postprocess_payload` are embedded as
executable Lean functions over `List Char`.  The pieces of the Python standard
library that those functions call (`urllib.parse.urlsplit/urlunsplit/quote/unquote`,
`html.escape`, `html.unescape`, `str.strip`, `str.lower`, regular-expression
substitution for the concrete patterns appearing in the source) are modelled
faithfully for the construct actually used, following CPython semantics.
-/

namespace WorkdayAI

/-- Strings are modelled as lists of characters. -/
abbrev Str := List Char

/-! ## Character classes (CPython semantics) -/

/-- Unicode whitespace as recognised by Python `str.strip()` / `str.isspace()`
and by `\s` in `re` (str patterns, no `re.ASCII`). -/
def isPySpace (c : Char) : Bool :=
  c ∈ ([' ', '\t', '\n', '\r', '\x0b', '\x0c',
        '\x1c', '\x1d', '\x1e', '\x1f', '\x85', '\xa0',
        ' ', ' ', ' ', ' ', ' ', ' ', ' ',
        ' ', ' ', ' ', ' ', ' ',
        ' ', ' ', ' ', ' ', '　'] : List Char)

/-- C0 control characters and space: the set `urlsplit` strips from the
front of a URL (WHATWG behaviour adopted by CPython). -/
def isC0OrSpace (c : Char) : Bool :=
  c.toNat ≤ 0x20

def isAsciiUpper (c : Char) : Bool :=
  65 ≤ c.toNat && c.toNat ≤ 90

def isAsciiLowerC (c : Char) : Bool :=
  97 ≤ c.toNat && c.toNat ≤ 122

def isAsciiAlpha (c : Char) : Bool :=
  isAsciiUpper c || isAsciiLowerC c

def isAsciiDigit (c : Char) : Bool :=
  48 ≤ c.toNat && c.toNat ≤ 57

def isAsciiAlnum (c : Char) : Bool :=
  isAsciiAlpha c || isAsciiDigit c

/-- ASCII lower-casing of one character (what `str.lower()` does on the ASCII
range; the inputs we lower-case are only examined for ASCII substrings). -/
def toAsciiLower (c : Char) : Char :=
  if isAsciiUpper c then Char.ofNat (c.toNat + 32) else c

def lowerStr (s : Str) : Str :=
  s.map toAsciiLower

def isHexDigit (c : Char) : Bool :=
  isAsciiDigit c || (97 ≤ c.toNat && c.toNat ≤ 102) || (65 ≤ c.toNat && c.toNat ≤ 70)

def hexVal (c : Char) : Nat :=
  if isAsciiDigit c then c.toNat - 48
  else if 97 ≤ c.toNat && c.toNat ≤ 102 then c.toNat - 97 + 10
  else if 65 ≤ c.toNat && c.toNat ≤ 70 then c.toNat - 65 + 10
  else 0

/-- Upper-case hexadecimal digit for a value `< 16` (as `urllib.parse.quote`
emits). -/
def hexDigitU (n : Nat) : Char :=
  if n < 10 then Char.ofNat (48 + n)
  else Char.ofNat (65 + (n - 10))

/-! ## List/string helpers (Python `str` operations) -/

/-- `a.startsWith b` on character lists. -/
def startsWithL (s pat : Str) : Bool :=
  match pat, s with
  | [], _ => true
  | _ :: _, [] => false
  | p :: ps, c :: cs => c = p && startsWithL cs ps

/-- Case-insensitive (ASCII) prefix test. -/
def startsWithCI (s pat : Str) : Bool :=
  startsWithL (lowerStr s) (lowerStr pat)

/-- Python `pat in s` substring test. -/
def containsSub (s pat : Str) : Bool :=
  match s with
  | [] => startsWithL [] pat
  | _ :: t => startsWithL s pat || containsSub t pat

/-- Python `s.strip()` (both ends, Unicode whitespace). -/
def stripPy (s : Str) : Str :=
  ((s.dropWhile (isPySpace ·)).reverse.dropWhile (isPySpace ·)).reverse

/-- Python `s.strip(chars)` for an explicit character set. -/
def stripChars (set : List Char) (s : Str) : Str :=
  ((s.dropWhile (· ∈ set)).reverse.dropWhile (· ∈ set)).reverse

/-- Python `s.lstrip(chars)` for a predicate. -/
def lstripP (p : Char → Bool) (s : Str) : Str :=
  s.dropWhile p

/-! ## UTF-8 (used by `urllib.parse.quote`/`unquote`) -/

/-- UTF-8 encoding of one code point. -/
def utf8Encode (c : Char) : List Nat :=
  if c.toNat < 0x80 then [c.toNat]
  else if c.toNat < 0x800 then [0xC0 + c.toNat / 0x40, 0x80 + c.toNat % 0x40]
  else if c.toNat < 0x10000 then
    [0xE0 + c.toNat / 0x1000, 0x80 + (c.toNat / 0x40) % 0x40, 0x80 + c.toNat % 0x40]
  else
    [0xF0 + c.toNat / 0x40000, 0x80 + (c.toNat / 0x1000) % 0x40,
     0x80 + (c.toNat / 0x40) % 0x40, 0x80 + c.toNat % 0x40]

/-- A UTF-8 continuation byte. -/
def isCont (b : Nat) : Bool :=
  0x80 ≤ b && b ≤ 0xBF

/-- The U+FFFD replacement character. -/
def replChar : Char := Char.ofNat 0xFFFD

/-- UTF-8 decoding with `errors="replace"`: any maximal subpart of an
ill-formed sequence becomes one U+FFFD, as CPython's decoder does.
(Fuel-driven so that the kernel can evaluate it; every step consumes at
least one byte, so `length + 1` fuel always suffices.) -/
def utf8DecodeAux : Nat → List Nat → Str
  | 0, _ => []
  | _ + 1, [] => []
  | fuel + 1, b0 :: rest =>
    if b0 < 0x80 then Char.ofNat b0 :: utf8DecodeAux fuel rest
    else if 0xC2 ≤ b0 && b0 ≤ 0xDF then
      match rest with
      | b1 :: t =>
        if isCont b1 then Char.ofNat ((b0 - 0xC0) * 0x40 + (b1 - 0x80)) :: utf8DecodeAux fuel t
        else replChar :: utf8DecodeAux fuel rest
      | [] => [replChar]
    else if 0xE0 ≤ b0 && b0 ≤ 0xEF then
      -- second-byte range depends on the lead byte (overlong/surrogate exclusion)
      let lo2 := if b0 = 0xE0 then 0xA0 else 0x80
      let hi2 := if b0 = 0xED then 0x9F else 0xBF
      match rest with
      | b1 :: t1 =>
        if lo2 ≤ b1 && b1 ≤ hi2 then
          match t1 with
          | b2 :: t2 =>
            if isCont b2 then
              Char.ofNat ((b0 - 0xE0) * 0x1000 + (b1 - 0x80) * 0x40 + (b2 - 0x80)) :: utf8DecodeAux fuel t2
            else replChar :: utf8DecodeAux fuel t1
          | [] => [replChar]
        else replChar :: utf8DecodeAux fuel rest
      | [] => [replChar]
    else if 0xF0 ≤ b0 && b0 ≤ 0xF4 then
      let lo2 := if b0 = 0xF0 then 0x90 else 0x80
      let hi2 := if b0 = 0xF4 then 0x8F else 0xBF
      match rest with
      | b1 :: t1 =>
        if lo2 ≤ b1 && b1 ≤ hi2 then
          match t1 with
          | b2 :: t2 =>
            if isCont b2 then
              match t2 with
              | b3 :: t3 =>
                if isCont b3 then
                  Char.ofNat ((b0 - 0xF0) * 0x40000 + (b1 - 0x80) * 0x1000 +
                      (b2 - 0x80) * 0x40 + (b3 - 0x80)) :: utf8DecodeAux fuel t3
                else replChar :: utf8DecodeAux fuel t2
              | [] => [replChar]
            else replChar :: utf8DecodeAux fuel t1
          | [] => [replChar]
        else replChar :: utf8DecodeAux fuel rest
      | [] => [replChar]
    else replChar :: utf8DecodeAux fuel rest

def utf8Decode (l : List Nat) : Str :=
  utf8DecodeAux (l.length + 1) l

/-! ## `urllib.parse.quote` / `urllib.parse.unquote` -/

/-- Bytes that `quote` never escapes (ASCII letters, digits, `_.-~`). -/
def alwaysSafeByte (b : Nat) : Bool :=
  (0x41 ≤ b && b ≤ 0x5A) || (0x61 ≤ b && b ≤ 0x7A) ||
  (0x30 ≤ b && b ≤ 0x39) || b = 0x5F || b = 0x2E || b = 0x2D || b = 0x7E

/-- `urllib.parse.quote(s, safe)`: UTF-8 encode and percent-escape every byte
not in the always-safe set nor in `safe` (upper-case hex). -/
def pyQuote (safe : List Char) (s : Str) : Str :=
  (s.map (fun c =>
    ((utf8Encode c).map (fun b =>
      if alwaysSafeByte b || (decide (b < 0x80) && decide (Char.ofNat b ∈ safe)) then
        [Char.ofNat b]
      else
        ['%', hexDigitU (b / 16), hexDigitU (b % 16)])).flatten)).flatten

/-- Helper for `pyUnquote`: accumulated percent-decoded bytes (in reverse)
are flushed through the UTF-8 replace-decoder. -/
def unqFlush (acc : List Nat) : Str :=
  utf8Decode acc.reverse

/-- `urllib.parse.unquote(s)` (default `encoding="utf-8", errors="replace"`):
`%XX` hex escapes inside ASCII runs are decoded to bytes and each maximal
ASCII run is UTF-8-decoded with replacement; non-ASCII characters pass
through unchanged. -/
def unqAux : Str → List Nat → Str
  | [], acc => unqFlush acc
  | '%' :: a :: b :: t, acc =>
    if isHexDigit a && isHexDigit b then
      unqAux t ((16 * hexVal a + hexVal b) :: acc)
    else
      unqAux (a :: b :: t) (0x25 :: acc)
  | '%' :: t, acc => unqAux t (0x25 :: acc)
  | c :: t, acc =>
    if c.toNat < 0x80 then unqAux t (c.toNat :: acc)
    else unqFlush acc ++ c :: unqAux t []

def pyUnquote (s : Str) : Str :=
  unqAux s []

/-! ## `urllib.parse.urlsplit` / `urlunsplit` -/

structure UrlParts where
  scheme : Str
  netloc : Str
  path : Str
  query : Str
  fragment : Str
deriving DecidableEq, Repr

/-- Characters allowed in a URL scheme after the first. -/
def isSchemeChar (c : Char) : Bool :=
  isAsciiAlnum c || c = '+' || c = '-' || c = '.'

/-- Split at the first occurrence of `c`, or `none`. -/
def splitOnceL (c : Char) : Str → Option (Str × Str)
  | [] => none
  | a :: t =>
    if a = c then some ([], t)
    else match splitOnceL c t with
      | some (x, y) => some (a :: x, y)
      | none => none

/-- Split a list on every occurrence of `c` (Python `str.split(c)`). -/
def splitAllL (c : Char) : Str → List Str
  | [] => [[]]
  | a :: t =>
    if a = c then [] :: splitAllL c t
    else
      match splitAllL c t with
      | h :: r => (a :: h) :: r
      | [] => [[a]]

/-- A decimal IPv4 octet as `ipaddress` accepts it: one to three digits,
value at most 255, no leading zero. -/
def isIPv4Octet (g : Str) : Bool :=
  !g.isEmpty && g.length ≤ 3 && g.all isAsciiDigit &&
    decide (g.foldl (fun a c => a * 10 + hexVal c) 0 ≤ 255) &&
    (g.length = 1 || startsWithL g "0".data = false)

def isIPv4Lit (s : Str) : Bool :=
  match splitAllL '.' s with
  | [a, b, c, d] => isIPv4Octet a && isIPv4Octet b && isIPv4Octet c && isIPv4Octet d
  | _ => false

/-- One IPv6 group: one to four hex digits. -/
def isHexGroup (g : Str) : Bool :=
  !g.isEmpty && g.length ≤ 4 && g.all isHexDigit

/-- `IPv6Address._split_scope_id`: an address may carry a `%zone` suffix;
the zone id after the first `%` must be nonempty and contain no further
`%`.  Returns the part before the `%`, or `none` when the scope id is
invalid. -/
def splitScopeOk (s : Str) : Option Str :=
  match splitOnceL '%' s with
  | none => some s
  | some (addr, scope) =>
    if scope.isEmpty || scope.contains '%' then none else some addr

/-- The shape check of `IPv6Address._ip_int_from_string` on the
colon-separated parts (after the embedded-IPv4 rewrite): at most nine
parts, at most one empty inner part (the `::`), an empty first or last part
only next to a leading or trailing `::`, at least one group skipped when a
`::` is present (exactly eight hextets without one), and every counted part
a one-to-four-digit hextet. -/
def isIPv6Parts (parts : List Str) : Bool :=
  let n := parts.length
  if decide (n > 9) then false
  else
    match (List.range n).filter (fun i =>
        decide (0 < i) && decide (i < n - 1) && (parts.getD i ['.']).isEmpty) with
    | [] => decide (n = 8) && parts.all isHexGroup
    | [i] =>
      let headE := (parts.getD 0 ['.']).isEmpty
      let lastE := (parts.getD (n - 1) ['.']).isEmpty
      let hi := if headE then 0 else i
      let lo := if lastE then 0 else n - i - 1
      (!headE || decide (i = 1)) && (!lastE || decide (i = n - 2)) &&
      decide (hi + lo ≤ 7) &&
      (parts.take hi).all isHexGroup && (parts.drop (n - lo)).all isHexGroup
    | _ => false

/-- `IPv6Address._ip_int_from_string`: split on `:`, require at least three
parts, rewrite a dotted-quad final part (an embedded IPv4 address is only
permitted as the very last part of the whole address) into two hextets,
then check the shape. -/
def isIPv6Body (addr : Str) : Bool :=
  let parts := splitAllL ':' addr
  if decide (parts.length < 3) then false
  else
    match parts.getLast? with
    | none => false
    | some lastp =>
      if lastp.contains '.' then
        isIPv4Lit lastp && isIPv6Parts (parts.dropLast ++ ["0".data, "0".data])
      else isIPv6Parts parts

/-- Textual IPv6 address as `ipaddress.ip_address` accepts it, scope id
included. -/
def isIPv6Lit (s : Str) : Bool :=
  match splitScopeOk s with
  | some addr => isIPv6Body addr
  | none => false

/-- `urllib.parse._check_bracketed_host`: the text between the brackets must
be an RFC 6874 IPvFuture literal (`v` + hex + `.` + nonempty remainder with
no newline) or a valid IPv6 address; anything else (including a bracketed
IPv4 address) raises `ValueError`. -/
def bracketedHostOk (h : Str) : Bool :=
  match h with
  | 'v' :: t =>
    let hx := t.takeWhile isHexDigit
    if hx.isEmpty then false
    else
      (match t.drop hx.length with
       | '.' :: rest => !rest.isEmpty && !rest.contains '\n'
       | _ => false)
  | _ => isIPv6Lit h

/-- First component of a nonempty list is an ASCII letter. -/
def headAlphaB : Str → Bool
  | c0 :: _ => isAsciiAlpha c0
  | [] => false

/-- `urlsplit`'s scheme detection: the text before the first `:` must be
nonempty, start with a letter and consist of scheme characters; the scheme
is lower-cased. -/
def parseScheme (u : Str) : Str × Str :=
  match splitOnceL ':' u with
  | some (pre, post) =>
    if !pre.isEmpty && headAlphaB pre && pre.all isSchemeChar then
      (lowerStr pre, post)
    else ([], u)
  | none => ([], u)

/-- The authority stops at the first `/`, `?` or `#`. -/
def isNetDelim (c : Char) : Bool :=
  c = '/' || c = '?' || c = '#'

/-- The text between the first `[` of the authority and the next `]`
(Python `netloc.partition('[')[2].partition(']')[0]`). -/
def bracketInner (nl : Str) : Str :=
  let afterBr :=
    match splitOnceL '[' nl with
    | some (_, y) => y
    | none => []
  match splitOnceL ']' afterBr with
  | some (x, _) => x
  | none => afterBr

/-- The authority checks of `urlsplit` that can raise `ValueError`:
unmatched brackets, and `_check_bracketed_host` when both are present. -/
def checkNetloc (nl : Str) : Bool :=
  if ('[' ∈ nl) ≠ (']' ∈ nl) then false
  else if '[' ∈ nl ∧ ']' ∈ nl then bracketedHostOk (bracketInner nl)
  else true

/-- Fragment at the first `#`, then query at the first `?` of what precedes
it; returns `(path, query, fragment)`. -/
def splitFragQuery (u : Str) : Str × Str × Str :=
  let pf :=
    match splitOnceL '#' u with
    | some (x, y) => (x, y)
    | none => (u, [])
  match splitOnceL '?' pf.1 with
  | some (x, y) => (x, y, pf.2)
  | none => (pf.1, [], pf.2)

/-- The leading-strip/unsafe-byte-removal preprocessing of `urlsplit`. -/
def urlPrep (url : Str) : Str :=
  (lstripP isC0OrSpace url).filter (fun c => !(c = '\t' || c = '\r' || c = '\n'))

/-- `urlsplit` (CPython): strips leading C0-control/space, removes all
tab/CR/LF, lower-cases a well-formed scheme, takes the authority after `//`
up to the next `/?#`, raises `ValueError` (modelled as `Except.error`) on an
authority containing an unmatched `[` or `]` or an invalid bracketed host,
then splits off the fragment at the first `#` and the query at the first `?`.
(The non-ASCII NFKC netloc check is not modelled; no input in this
development has a non-ASCII authority with compatibility characters.) -/
def urlSchemePart (url : Str) : Str := (parseScheme (urlPrep url)).1

def urlAfterScheme (url : Str) : Str := (parseScheme (urlPrep url)).2

def urlBody (url : Str) : Str := (urlAfterScheme url).drop 2

def urlNetloc (url : Str) : Str :=
  (urlBody url).takeWhile (fun c => !isNetDelim c)

def urlNetRest (url : Str) : Str :=
  (urlBody url).dropWhile (fun c => !isNetDelim c)

def urlsplitE (url : Str) : Except Unit UrlParts :=
  if startsWithL (urlAfterScheme url) "//".data then
    if checkNetloc (urlNetloc url) then
      .ok ⟨urlSchemePart url, urlNetloc url,
        (splitFragQuery (urlNetRest url)).1,
        (splitFragQuery (urlNetRest url)).2.1,
        (splitFragQuery (urlNetRest url)).2.2⟩
    else .error ()
  else
    .ok ⟨urlSchemePart url, [],
      (splitFragQuery (urlAfterScheme url)).1,
      (splitFragQuery (urlAfterScheme url)).2.1,
      (splitFragQuery (urlAfterScheme url)).2.2⟩

/-- The schemes for which `urlunsplit` re-inserts the `//` authority marker
(`urllib.parse.uses_netloc`, sans the empty string, which is made irrelevant
by the `scheme and` truthiness test). -/
def usesNetloc : List Str :=
  ["ftp".data, "http".data, "gopher".data, "nntp".data, "telnet".data,
   "imap".data, "wais".data, "file".data, "mms".data, "https".data,
   "shttp".data, "snews".data, "prospero".data, "rtsp".data, "rtspu".data,
   "rtsps".data, "rsync".data, "svn".data, "svn+ssh".data, "sftp".data,
   "nfs".data, "git".data, "git+ssh".data, "ws".data, "wss".data,
   "itms-services".data]

/-- `urlunsplit` step 1: re-insert the `//` authority marker when there is
a netloc, or when the scheme uses one and the path does not already start
with `//`. -/
def addNetloc (p : UrlParts) : Str :=
  if p.netloc ≠ [] ∨ (p.scheme ≠ [] ∧ p.scheme ∈ usesNetloc ∧ p.path.take 2 ≠ "//".data) then
    '/' :: '/' :: p.netloc ++
      (if p.path ≠ [] ∧ p.path.take 1 ≠ "/".data then '/' :: p.path else p.path)
  else p.path

def addScheme (p : UrlParts) (url : Str) : Str :=
  if p.scheme ≠ [] then p.scheme ++ ':' :: url else url

def addQuery (p : UrlParts) (url : Str) : Str :=
  if p.query ≠ [] then url ++ '?' :: p.query else url

def addFrag (p : UrlParts) (url : Str) : Str :=
  if p.fragment ≠ [] then url ++ '#' :: p.fragment else url

/-- `urlunsplit` (CPython 3.11). -/
def urlunsplit (p : UrlParts) : Str :=
  addFrag p (addQuery p (addScheme p (addNetloc p)))

/-! ## `_percent_encode_url` (scripts/generate_report.py:1038) -/

/-- `safe` set for the path component in `_percent_encode_url`. -/
def pathSafe : List Char :=
  ['/', ':', '@', '-', '.', '_', '~', '!', '$', '&', '\'', '(', ')', '*', '+', ',', ';', '=']

/-- `safe` set for the query component in `_percent_encode_url`. -/
def querySafe : List Char :=
  ['=', '&', ':', '@', '-', '.', '_', '~', '!', '$', '\'', '(', ')', '*', '+', ',', ';']

/-- `safe` set for the fragment component in `_percent_encode_url`. -/
def fragSafe : List Char :=
  [':', '@', '-', '.', '_', '~', '!', '$', '&', '\'', '(', ')', '*', '+', ',', ';', '=']

/-- `_percent_encode_url`: decode-then-encode the path, query and fragment
components; on any `urlsplit` failure return the input unchanged (fail-open). -/
def percentEncodeUrl (url : Str) : Str :=
  match urlsplitE url with
  | .error _ => url
  | .ok p =>
    urlunsplit ⟨p.scheme, p.netloc,
      pyQuote pathSafe (pyUnquote p.path),
      pyQuote querySafe (pyUnquote p.query),
      pyQuote fragSafe (pyUnquote p.fragment)⟩

/-! ## `html.escape` / `html.unescape` -/

/-- `html.escape(s)` with the default `quote=True`. -/
def htmlEscape (s : Str) : Str :=
  (s.map (fun c =>
    if c = '&' then "&amp;".data
    else if c = '<' then "&lt;".data
    else if c = '>' then "&gt;".data
    else if c = '"' then "&quot;".data
    else if c = '\'' then "&#x27;".data
    else [c])).flatten

/-- The complete named character reference table of `html.entities.html5`
(all 2231 entries, including the legacy semicolon-less names), values
written as code points. -/
def namedCharrefs : List (Str × Str) :=
  [("AElig".data, [Char.ofNat 198]),
   ("AElig;".data, [Char.ofNat 198]),
   ("AMP".data, [Char.ofNat 38]),
   ("AMP;".data, [Char.ofNat 38]),
   ("Aacute".data, [Char.ofNat 193]),
   ("Aacute;".data, [Char.ofNat 193]),
   ("Abreve;".data, [Char.ofNat 258]),
   ("Acirc".data, [Char.ofNat 194]),
   ("Acirc;".data, [Char.ofNat 194]),
   ("Acy;".data, [Char.ofNat 1040]),
   ("Afr;".data, [Char.ofNat 120068]),
   ("Agrave".data, [Char.ofNat 192]),
   ("Agrave;".data, [Char.ofNat 192]),
   ("Alpha;".data, [Char.ofNat 913]),
   ("Amacr;".data, [Char.ofNat 256]),
   ("And;".data, [Char.ofNat 10835]),
   ("Aogon;".data, [Char.ofNat 260]),
   ("Aopf;".data, [Char.ofNat 120120]),
   ("ApplyFunction;".data, [Char.ofNat 8289]),
   ("Aring".data, [Char.ofNat 197]),
   ("Aring;".data, [Char.ofNat 197]),
   ("Ascr;".data, [Char.ofNat 119964]),
   ("Assign;".data, [Char.ofNat 8788]),
   ("Atilde".data, [Char.ofNat 195]),
   ("Atilde;".data, [Char.ofNat 195]),
   ("Auml".data, [Char.ofNat 196]),
   ("Auml;".data, [Char.ofNat 196]),
   ("Backslash;".data, [Char.ofNat 8726]),
   ("Barv;".data, [Char.ofNat 10983]),
   ("Barwed;".data, [Char.ofNat 8966]),
   ("Bcy;".data, [Char.ofNat 1041]),
   ("Because;".data, [Char.ofNat 8757]),
   ("Bernoullis;".data, [Char.ofNat 8492]),
   ("Beta;".data, [Char.ofNat 914]),
   ("Bfr;".data, [Char.ofNat 120069]),
   ("Bopf;".data, [Char.ofNat 120121]),
   ("Breve;".data, [Char.ofNat 728]),
   ("Bscr;".data, [Char.ofNat 8492]),
   ("Bumpeq;".data, [Char.ofNat 8782]),
   ("CHcy;".data, [Char.ofNat 1063]),
   ("COPY".data, [Char.ofNat 169]),
   ("COPY;".data, [Char.ofNat 169]),
   ("Cacute;".data, [Char.ofNat 262]),
   ("Cap;".data, [Char.ofNat 8914]),
   ("CapitalDifferentialD;".data, [Char.ofNat 8517]),
   ("Cayleys;".data, [Char.ofNat 8493]),
   ("Ccaron;".data, [Char.ofNat 268]),
   ("Ccedil".data, [Char.ofNat 199]),
   ("Ccedil;".data, [Char.ofNat 199]),
   ("Ccirc;".data, [Char.ofNat 264]),
   ("Cconint;".data, [Char.ofNat 8752]),
   ("Cdot;".data, [Char.ofNat 266]),
   ("Cedilla;".data, [Char.ofNat 184]),
   ("CenterDot;".data, [Char.ofNat 183]),
   ("Cfr;".data, [Char.ofNat 8493]),
   ("Chi;".data, [Char.ofNat 935]),
   ("CircleDot;".data, [Char.ofNat 8857]),
   ("CircleMinus;".data, [Char.ofNat 8854]),
   ("CirclePlus;".data, [Char.ofNat 8853]),
   ("CircleTimes;".data, [Char.ofNat 8855]),
   ("ClockwiseContourIntegral;".data, [Char.ofNat 8754]),
   ("CloseCurlyDoubleQuote;".data, [Char.ofNat 8221]),
   ("CloseCurlyQuote;".data, [Char.ofNat 8217]),
   ("Colon;".data, [Char.ofNat 8759]),
   ("Colone;".data, [Char.ofNat 10868]),
   ("Congruent;".data, [Char.ofNat 8801]),
   ("Conint;".data, [Char.ofNat 8751]),
   ("ContourIntegral;".data, [Char.ofNat 8750]),
   ("Copf;".data, [Char.ofNat 8450]),
   ("Coproduct;".data, [Char.ofNat 8720]),
   ("CounterClockwiseContourIntegral;".data, [Char.ofNat 8755]),
   ("Cross;".data, [Char.ofNat 10799]),
   ("Cscr;".data, [Char.ofNat 119966]),
   ("Cup;".data, [Char.ofNat 8915]),
   ("CupCap;".data, [Char.ofNat 8781]),
   ("DD;".data, [Char.ofNat 8517]),
   ("DDotrahd;".data, [Char.ofNat 10513]),
   ("DJcy;".data, [Char.ofNat 1026]),
   ("DScy;".data, [Char.ofNat 1029]),
   ("DZcy;".data, [Char.ofNat 1039]),
   ("Dagger;".data, [Char.ofNat 8225]),
   ("Darr;".data, [Char.ofNat 8609]),
   ("Dashv;".data, [Char.ofNat 10980]),
   ("Dcaron;".data, [Char.ofNat 270]),
   ("Dcy;".data, [Char.ofNat 1044]),
   ("Del;".data, [Char.ofNat 8711]),
   ("Delta;".data, [Char.ofNat 916]),
   ("Dfr;".data, [Char.ofNat 120071]),
   ("DiacriticalAcute;".data, [Char.ofNat 180]),
   ("DiacriticalDot;".data, [Char.ofNat 729]),
   ("DiacriticalDoubleAcute;".data, [Char.ofNat 733]),
   ("DiacriticalGrave;".data, [Char.ofNat 96]),
   ("DiacriticalTilde;".data, [Char.ofNat 732]),
   ("Diamond;".data, [Char.ofNat 8900]),
   ("DifferentialD;".data, [Char.ofNat 8518]),
   ("Dopf;".data, [Char.ofNat 120123]),
   ("Dot;".data, [Char.ofNat 168]),
   ("DotDot;".data, [Char.ofNat 8412]),
   ("DotEqual;".data, [Char.ofNat 8784]),
   ("DoubleContourIntegral;".data, [Char.ofNat 8751]),
   ("DoubleDot;".data, [Char.ofNat 168]),
   ("DoubleDownArrow;".data, [Char.ofNat 8659]),
   ("DoubleLeftArrow;".data, [Char.ofNat 8656]),
   ("DoubleLeftRightArrow;".data, [Char.ofNat 8660]),
   ("DoubleLeftTee;".data, [Char.ofNat 10980]),
   ("DoubleLongLeftArrow;".data, [Char.ofNat 10232]),
   ("DoubleLongLeftRightArrow;".data, [Char.ofNat 10234]),
   ("DoubleLongRightArrow;".data, [Char.ofNat 10233]),
   ("DoubleRightArrow;".data, [Char.ofNat 8658]),
   ("DoubleRightTee;".data, [Char.ofNat 8872]),
   ("DoubleUpArrow;".data, [Char.ofNat 8657]),
   ("DoubleUpDownArrow;".data, [Char.ofNat 8661]),
   ("DoubleVerticalBar;".data, [Char.ofNat 8741]),
   ("DownArrow;".data, [Char.ofNat 8595]),
   ("DownArrowBar;".data, [Char.ofNat 10515]),
   ("DownArrowUpArrow;".data, [Char.ofNat 8693]),
   ("DownBreve;".data, [Char.ofNat 785]),
   ("DownLeftRightVector;".data, [Char.ofNat 10576]),
   ("DownLeftTeeVector;".data, [Char.ofNat 10590]),
   ("DownLeftVector;".data, [Char.ofNat 8637]),
   ("DownLeftVectorBar;".data, [Char.ofNat 10582]),
   ("DownRightTeeVector;".data, [Char.ofNat 10591]),
   ("DownRightVector;".data, [Char.ofNat 8641]),
   ("DownRightVectorBar;".data, [Char.ofNat 10583]),
   ("DownTee;".data, [Char.ofNat 8868]),
   ("DownTeeArrow;".data, [Char.ofNat 8615]),
   ("Downarrow;".data, [Char.ofNat 8659]),
   ("Dscr;".data, [Char.ofNat 119967]),
   ("Dstrok;".data, [Char.ofNat 272]),
   ("ENG;".data, [Char.ofNat 330]),
   ("ETH".data, [Char.ofNat 208]),
   ("ETH;".data, [Char.ofNat 208]),
   ("Eacute".data, [Char.ofNat 201]),
   ("Eacute;".data, [Char.ofNat 201]),
   ("Ecaron;".data, [Char.ofNat 282]),
   ("Ecirc".data, [Char.ofNat 202]),
   ("Ecirc;".data, [Char.ofNat 202]),
   ("Ecy;".data, [Char.ofNat 1069]),
   ("Edot;".data, [Char.ofNat 278]),
   ("Efr;".data, [Char.ofNat 120072]),
   ("Egrave".data, [Char.ofNat 200]),
   ("Egrave;".data, [Char.ofNat 200]),
   ("Element;".data, [Char.ofNat 8712]),
   ("Emacr;".data, [Char.ofNat 274]),
   ("EmptySmallSquare;".data, [Char.ofNat 9723]),
   ("EmptyVerySmallSquare;".data, [Char.ofNat 9643]),
   ("Eogon;".data, [Char.ofNat 280]),
   ("Eopf;".data, [Char.ofNat 120124]),
   ("Epsilon;".data, [Char.ofNat 917]),
   ("Equal;".data, [Char.ofNat 10869]),
   ("EqualTilde;".data, [Char.ofNat 8770]),
   ("Equilibrium;".data, [Char.ofNat 8652]),
   ("Escr;".data, [Char.ofNat 8496]),
   ("Esim;".data, [Char.ofNat 10867]),
   ("Eta;".data, [Char.ofNat 919]),
   ("Euml".data, [Char.ofNat 203]),
   ("Euml;".data, [Char.ofNat 203]),
   ("Exists;".data, [Char.ofNat 8707]),
   ("ExponentialE;".data, [Char.ofNat 8519]),
   ("Fcy;".data, [Char.ofNat 1060]),
   ("Ffr;".data, [Char.ofNat 120073]),
   ("FilledSmallSquare;".data, [Char.ofNat 9724]),
   ("FilledVerySmallSquare;".data, [Char.ofNat 9642]),
   ("Fopf;".data, [Char.ofNat 120125]),
   ("ForAll;".data, [Char.ofNat 8704]),
   ("Fouriertrf;".data, [Char.ofNat 8497]),
   ("Fscr;".data, [Char.ofNat 8497]),
   ("GJcy;".data, [Char.ofNat 1027]),
   ("GT".data, [Char.ofNat 62]),
   ("GT;".data, [Char.ofNat 62]),
   ("Gamma;".data, [Char.ofNat 915]),
   ("Gammad;".data, [Char.ofNat 988]),
   ("Gbreve;".data, [Char.ofNat 286]),
   ("Gcedil;".data, [Char.ofNat 290]),
   ("Gcirc;".data, [Char.ofNat 284]),
   ("Gcy;".data, [Char.ofNat 1043]),
   ("Gdot;".data, [Char.ofNat 288]),
   ("Gfr;".data, [Char.ofNat 120074]),
   ("Gg;".data, [Char.ofNat 8921]),
   ("Gopf;".data, [Char.ofNat 120126]),
   ("GreaterEqual;".data, [Char.ofNat 8805]),
   ("GreaterEqualLess;".data, [Char.ofNat 8923]),
   ("GreaterFullEqual;".data, [Char.ofNat 8807]),
   ("GreaterGreater;".data, [Char.ofNat 10914]),
   ("GreaterLess;".data, [Char.ofNat 8823]),
   ("GreaterSlantEqual;".data, [Char.ofNat 10878]),
   ("GreaterTilde;".data, [Char.ofNat 8819]),
   ("Gscr;".data, [Char.ofNat 119970]),
   ("Gt;".data, [Char.ofNat 8811]),
   ("HARDcy;".data, [Char.ofNat 1066]),
   ("Hacek;".data, [Char.ofNat 711]),
   ("Hat;".data, [Char.ofNat 94]),
   ("Hcirc;".data, [Char.ofNat 292]),
   ("Hfr;".data, [Char.ofNat 8460]),
   ("HilbertSpace;".data, [Char.ofNat 8459]),
   ("Hopf;".data, [Char.ofNat 8461]),
   ("HorizontalLine;".data, [Char.ofNat 9472]),
   ("Hscr;".data, [Char.ofNat 8459]),
   ("Hstrok;".data, [Char.ofNat 294]),
   ("HumpDownHump;".data, [Char.ofNat 8782]),
   ("HumpEqual;".data, [Char.ofNat 8783]),
   ("IEcy;".data, [Char.ofNat 1045]),
   ("IJlig;".data, [Char.ofNat 306]),
   ("IOcy;".data, [Char.ofNat 1025]),
   ("Iacute".data, [Char.ofNat 205]),
   ("Iacute;".data, [Char.ofNat 205]),
   ("Icirc".data, [Char.ofNat 206]),
   ("Icirc;".data, [Char.ofNat 206]),
   ("Icy;".data, [Char.ofNat 1048]),
   ("Idot;".data, [Char.ofNat 304]),
   ("Ifr;".data, [Char.ofNat 8465]),
   ("Igrave".data, [Char.ofNat 204]),
   ("Igrave;".data, [Char.ofNat 204]),
   ("Im;".data, [Char.ofNat 8465]),
   ("Imacr;".data, [Char.ofNat 298]),
   ("ImaginaryI;".data, [Char.ofNat 8520]),
   ("Implies;".data, [Char.ofNat 8658]),
   ("Int;".data, [Char.ofNat 8748]),
   ("Integral;".data, [Char.ofNat 8747]),
   ("Intersection;".data, [Char.ofNat 8898]),
   ("InvisibleComma;".data, [Char.ofNat 8291]),
   ("InvisibleTimes;".data, [Char.ofNat 8290]),
   ("Iogon;".data, [Char.ofNat 302]),
   ("Iopf;".data, [Char.ofNat 120128]),
   ("Iota;".data, [Char.ofNat 921]),
   ("Iscr;".data, [Char.ofNat 8464]),
   ("Itilde;".data, [Char.ofNat 296]),
   ("Iukcy;".data, [Char.ofNat 1030]),
   ("Iuml".data, [Char.ofNat 207]),
   ("Iuml;".data, [Char.ofNat 207]),
   ("Jcirc;".data, [Char.ofNat 308]),
   ("Jcy;".data, [Char.ofNat 1049]),
   ("Jfr;".data, [Char.ofNat 120077]),
   ("Jopf;".data, [Char.ofNat 120129]),
   ("Jscr;".data, [Char.ofNat 119973]),
   ("Jsercy;".data, [Char.ofNat 1032]),
   ("Jukcy;".data, [Char.ofNat 1028]),
   ("KHcy;".data, [Char.ofNat 1061]),
   ("KJcy;".data, [Char.ofNat 1036]),
   ("Kappa;".data, [Char.ofNat 922]),
   ("Kcedil;".data, [Char.ofNat 310]),
   ("Kcy;".data, [Char.ofNat 1050]),
   ("Kfr;".data, [Char.ofNat 120078]),
   ("Kopf;".data, [Char.ofNat 120130]),
   ("Kscr;".data, [Char.ofNat 119974]),
   ("LJcy;".data, [Char.ofNat 1033]),
   ("LT".data, [Char.ofNat 60]),
   ("LT;".data, [Char.ofNat 60]),
   ("Lacute;".data, [Char.ofNat 313]),
   ("Lambda;".data, [Char.ofNat 923]),
   ("Lang;".data, [Char.ofNat 10218]),
   ("Laplacetrf;".data, [Char.ofNat 8466]),
   ("Larr;".data, [Char.ofNat 8606]),
   ("Lcaron;".data, [Char.ofNat 317]),
   ("Lcedil;".data, [Char.ofNat 315]),
   ("Lcy;".data, [Char.ofNat 1051]),
   ("LeftAngleBracket;".data, [Char.ofNat 10216]),
   ("LeftArrow;".data, [Char.ofNat 8592]),
   ("LeftArrowBar;".data, [Char.ofNat 8676]),
   ("LeftArrowRightArrow;".data, [Char.ofNat 8646]),
   ("LeftCeiling;".data, [Char.ofNat 8968]),
   ("LeftDoubleBracket;".data, [Char.ofNat 10214]),
   ("LeftDownTeeVector;".data, [Char.ofNat 10593]),
   ("LeftDownVector;".data, [Char.ofNat 8643]),
   ("LeftDownVectorBar;".data, [Char.ofNat 10585]),
   ("LeftFloor;".data, [Char.ofNat 8970]),
   ("LeftRightArrow;".data, [Char.ofNat 8596]),
   ("LeftRightVector;".data, [Char.ofNat 10574]),
   ("LeftTee;".data, [Char.ofNat 8867]),
   ("LeftTeeArrow;".data, [Char.ofNat 8612]),
   ("LeftTeeVector;".data, [Char.ofNat 10586]),
   ("LeftTriangle;".data, [Char.ofNat 8882]),
   ("LeftTriangleBar;".data, [Char.ofNat 10703]),
   ("LeftTriangleEqual;".data, [Char.ofNat 8884]),
   ("LeftUpDownVector;".data, [Char.ofNat 10577]),
   ("LeftUpTeeVector;".data, [Char.ofNat 10592]),
   ("LeftUpVector;".data, [Char.ofNat 8639]),
   ("LeftUpVectorBar;".data, [Char.ofNat 10584]),
   ("LeftVector;".data, [Char.ofNat 8636]),
   ("LeftVectorBar;".data, [Char.ofNat 10578]),
   ("Leftarrow;".data, [Char.ofNat 8656]),
   ("Leftrightarrow;".data, [Char.ofNat 8660]),
   ("LessEqualGreater;".data, [Char.ofNat 8922]),
   ("LessFullEqual;".data, [Char.ofNat 8806]),
   ("LessGreater;".data, [Char.ofNat 8822]),
   ("LessLess;".data, [Char.ofNat 10913]),
   ("LessSlantEqual;".data, [Char.ofNat 10877]),
   ("LessTilde;".data, [Char.ofNat 8818]),
   ("Lfr;".data, [Char.ofNat 120079]),
   ("Ll;".data, [Char.ofNat 8920]),
   ("Lleftarrow;".data, [Char.ofNat 8666]),
   ("Lmidot;".data, [Char.ofNat 319]),
   ("LongLeftArrow;".data, [Char.ofNat 10229]),
   ("LongLeftRightArrow;".data, [Char.ofNat 10231]),
   ("LongRightArrow;".data, [Char.ofNat 10230]),
   ("Longleftarrow;".data, [Char.ofNat 10232]),
   ("Longleftrightarrow;".data, [Char.ofNat 10234]),
   ("Longrightarrow;".data, [Char.ofNat 10233]),
   ("Lopf;".data, [Char.ofNat 120131]),
   ("LowerLeftArrow;".data, [Char.ofNat 8601]),
   ("LowerRightArrow;".data, [Char.ofNat 8600]),
   ("Lscr;".data, [Char.ofNat 8466]),
   ("Lsh;".data, [Char.ofNat 8624]),
   ("Lstrok;".data, [Char.ofNat 321]),
   ("Lt;".data, [Char.ofNat 8810]),
   ("Map;".data, [Char.ofNat 10501]),
   ("Mcy;".data, [Char.ofNat 1052]),
   ("MediumSpace;".data, [Char.ofNat 8287]),
   ("Mellintrf;".data, [Char.ofNat 8499]),
   ("Mfr;".data, [Char.ofNat 120080]),
   ("MinusPlus;".data, [Char.ofNat 8723]),
   ("Mopf;".data, [Char.ofNat 120132]),
   ("Mscr;".data, [Char.ofNat 8499]),
   ("Mu;".data, [Char.ofNat 924]),
   ("NJcy;".data, [Char.ofNat 1034]),
   ("Nacute;".data, [Char.ofNat 323]),
   ("Ncaron;".data, [Char.ofNat 327]),
   ("Ncedil;".data, [Char.ofNat 325]),
   ("Ncy;".data, [Char.ofNat 1053]),
   ("NegativeMediumSpace;".data, [Char.ofNat 8203]),
   ("NegativeThickSpace;".data, [Char.ofNat 8203]),
   ("NegativeThinSpace;".data, [Char.ofNat 8203]),
   ("NegativeVeryThinSpace;".data, [Char.ofNat 8203]),
   ("NestedGreaterGreater;".data, [Char.ofNat 8811]),
   ("NestedLessLess;".data, [Char.ofNat 8810]),
   ("NewLine;".data, [Char.ofNat 10]),
   ("Nfr;".data, [Char.ofNat 120081]),
   ("NoBreak;".data, [Char.ofNat 8288]),
   ("NonBreakingSpace;".data, [Char.ofNat 160]),
   ("Nopf;".data, [Char.ofNat 8469]),
   ("Not;".data, [Char.ofNat 10988]),
   ("NotCongruent;".data, [Char.ofNat 8802]),
   ("NotCupCap;".data, [Char.ofNat 8813]),
   ("NotDoubleVerticalBar;".data, [Char.ofNat 8742]),
   ("NotElement;".data, [Char.ofNat 8713]),
   ("NotEqual;".data, [Char.ofNat 8800]),
   ("NotEqualTilde;".data, [Char.ofNat 8770, Char.ofNat 824]),
   ("NotExists;".data, [Char.ofNat 8708]),
   ("NotGreater;".data, [Char.ofNat 8815]),
   ("NotGreaterEqual;".data, [Char.ofNat 8817]),
   ("NotGreaterFullEqual;".data, [Char.ofNat 8807, Char.ofNat 824]),
   ("NotGreaterGreater;".data, [Char.ofNat 8811, Char.ofNat 824]),
   ("NotGreaterLess;".data, [Char.ofNat 8825]),
   ("NotGreaterSlantEqual;".data, [Char.ofNat 10878, Char.ofNat 824]),
   ("NotGreaterTilde;".data, [Char.ofNat 8821]),
   ("NotHumpDownHump;".data, [Char.ofNat 8782, Char.ofNat 824]),
   ("NotHumpEqual;".data, [Char.ofNat 8783, Char.ofNat 824]),
   ("NotLeftTriangle;".data, [Char.ofNat 8938]),
   ("NotLeftTriangleBar;".data, [Char.ofNat 10703, Char.ofNat 824]),
   ("NotLeftTriangleEqual;".data, [Char.ofNat 8940]),
   ("NotLess;".data, [Char.ofNat 8814]),
   ("NotLessEqual;".data, [Char.ofNat 8816]),
   ("NotLessGreater;".data, [Char.ofNat 8824]),
   ("NotLessLess;".data, [Char.ofNat 8810, Char.ofNat 824]),
   ("NotLessSlantEqual;".data, [Char.ofNat 10877, Char.ofNat 824]),
   ("NotLessTilde;".data, [Char.ofNat 8820]),
   ("NotNestedGreaterGreater;".data, [Char.ofNat 10914, Char.ofNat 824]),
   ("NotNestedLessLess;".data, [Char.ofNat 10913, Char.ofNat 824]),
   ("NotPrecedes;".data, [Char.ofNat 8832]),
   ("NotPrecedesEqual;".data, [Char.ofNat 10927, Char.ofNat 824]),
   ("NotPrecedesSlantEqual;".data, [Char.ofNat 8928]),
   ("NotReverseElement;".data, [Char.ofNat 8716]),
   ("NotRightTriangle;".data, [Char.ofNat 8939]),
   ("NotRightTriangleBar;".data, [Char.ofNat 10704, Char.ofNat 824]),
   ("NotRightTriangleEqual;".data, [Char.ofNat 8941]),
   ("NotSquareSubset;".data, [Char.ofNat 8847, Char.ofNat 824]),
   ("NotSquareSubsetEqual;".data, [Char.ofNat 8930]),
   ("NotSquareSuperset;".data, [Char.ofNat 8848, Char.ofNat 824]),
   ("NotSquareSupersetEqual;".data, [Char.ofNat 8931]),
   ("NotSubset;".data, [Char.ofNat 8834, Char.ofNat 8402]),
   ("NotSubsetEqual;".data, [Char.ofNat 8840]),
   ("NotSucceeds;".data, [Char.ofNat 8833]),
   ("NotSucceedsEqual;".data, [Char.ofNat 10928, Char.ofNat 824]),
   ("NotSucceedsSlantEqual;".data, [Char.ofNat 8929]),
   ("NotSucceedsTilde;".data, [Char.ofNat 8831, Char.ofNat 824]),
   ("NotSuperset;".data, [Char.ofNat 8835, Char.ofNat 8402]),
   ("NotSupersetEqual;".data, [Char.ofNat 8841]),
   ("NotTilde;".data, [Char.ofNat 8769]),
   ("NotTildeEqual;".data, [Char.ofNat 8772]),
   ("NotTildeFullEqual;".data, [Char.ofNat 8775]),
   ("NotTildeTilde;".data, [Char.ofNat 8777]),
   ("NotVerticalBar;".data, [Char.ofNat 8740]),
   ("Nscr;".data, [Char.ofNat 119977]),
   ("Ntilde".data, [Char.ofNat 209]),
   ("Ntilde;".data, [Char.ofNat 209]),
   ("Nu;".data, [Char.ofNat 925]),
   ("OElig;".data, [Char.ofNat 338]),
   ("Oacute".data, [Char.ofNat 211]),
   ("Oacute;".data, [Char.ofNat 211]),
   ("Ocirc".data, [Char.ofNat 212]),
   ("Ocirc;".data, [Char.ofNat 212]),
   ("Ocy;".data, [Char.ofNat 1054]),
   ("Odblac;".data, [Char.ofNat 336]),
   ("Ofr;".data, [Char.ofNat 120082]),
   ("Ograve".data, [Char.ofNat 210]),
   ("Ograve;".data, [Char.ofNat 210]),
   ("Omacr;".data, [Char.ofNat 332]),
   ("Omega;".data, [Char.ofNat 937]),
   ("Omicron;".data, [Char.ofNat 927]),
   ("Oopf;".data, [Char.ofNat 120134]),
   ("OpenCurlyDoubleQuote;".data, [Char.ofNat 8220]),
   ("OpenCurlyQuote;".data, [Char.ofNat 8216]),
   ("Or;".data, [Char.ofNat 10836]),
   ("Oscr;".data, [Char.ofNat 119978]),
   ("Oslash".data, [Char.ofNat 216]),
   ("Oslash;".data, [Char.ofNat 216]),
   ("Otilde".data, [Char.ofNat 213]),
   ("Otilde;".data, [Char.ofNat 213]),
   ("Otimes;".data, [Char.ofNat 10807]),
   ("Ouml".data, [Char.ofNat 214]),
   ("Ouml;".data, [Char.ofNat 214]),
   ("OverBar;".data, [Char.ofNat 8254]),
   ("OverBrace;".data, [Char.ofNat 9182]),
   ("OverBracket;".data, [Char.ofNat 9140]),
   ("OverParenthesis;".data, [Char.ofNat 9180]),
   ("PartialD;".data, [Char.ofNat 8706]),
   ("Pcy;".data, [Char.ofNat 1055]),
   ("Pfr;".data, [Char.ofNat 120083]),
   ("Phi;".data, [Char.ofNat 934]),
   ("Pi;".data, [Char.ofNat 928]),
   ("PlusMinus;".data, [Char.ofNat 177]),
   ("Poincareplane;".data, [Char.ofNat 8460]),
   ("Popf;".data, [Char.ofNat 8473]),
   ("Pr;".data, [Char.ofNat 10939]),
   ("Precedes;".data, [Char.ofNat 8826]),
   ("PrecedesEqual;".data, [Char.ofNat 10927]),
   ("PrecedesSlantEqual;".data, [Char.ofNat 8828]),
   ("PrecedesTilde;".data, [Char.ofNat 8830]),
   ("Prime;".data, [Char.ofNat 8243]),
   ("Product;".data, [Char.ofNat 8719]),
   ("Proportion;".data, [Char.ofNat 8759]),
   ("Proportional;".data, [Char.ofNat 8733]),
   ("Pscr;".data, [Char.ofNat 119979]),
   ("Psi;".data, [Char.ofNat 936]),
   ("QUOT".data, [Char.ofNat 34]),
   ("QUOT;".data, [Char.ofNat 34]),
   ("Qfr;".data, [Char.ofNat 120084]),
   ("Qopf;".data, [Char.ofNat 8474]),
   ("Qscr;".data, [Char.ofNat 119980]),
   ("RBarr;".data, [Char.ofNat 10512]),
   ("REG".data, [Char.ofNat 174]),
   ("REG;".data, [Char.ofNat 174]),
   ("Racute;".data, [Char.ofNat 340]),
   ("Rang;".data, [Char.ofNat 10219]),
   ("Rarr;".data, [Char.ofNat 8608]),
   ("Rarrtl;".data, [Char.ofNat 10518]),
   ("Rcaron;".data, [Char.ofNat 344]),
   ("Rcedil;".data, [Char.ofNat 342]),
   ("Rcy;".data, [Char.ofNat 1056]),
   ("Re;".data, [Char.ofNat 8476]),
   ("ReverseElement;".data, [Char.ofNat 8715]),
   ("ReverseEquilibrium;".data, [Char.ofNat 8651]),
   ("ReverseUpEquilibrium;".data, [Char.ofNat 10607]),
   ("Rfr;".data, [Char.ofNat 8476]),
   ("Rho;".data, [Char.ofNat 929]),
   ("RightAngleBracket;".data, [Char.ofNat 10217]),
   ("RightArrow;".data, [Char.ofNat 8594]),
   ("RightArrowBar;".data, [Char.ofNat 8677]),
   ("RightArrowLeftArrow;".data, [Char.ofNat 8644]),
   ("RightCeiling;".data, [Char.ofNat 8969]),
   ("RightDoubleBracket;".data, [Char.ofNat 10215]),
   ("RightDownTeeVector;".data, [Char.ofNat 10589]),
   ("RightDownVector;".data, [Char.ofNat 8642]),
   ("RightDownVectorBar;".data, [Char.ofNat 10581]),
   ("RightFloor;".data, [Char.ofNat 8971]),
   ("RightTee;".data, [Char.ofNat 8866]),
   ("RightTeeArrow;".data, [Char.ofNat 8614]),
   ("RightTeeVector;".data, [Char.ofNat 10587]),
   ("RightTriangle;".data, [Char.ofNat 8883]),
   ("RightTriangleBar;".data, [Char.ofNat 10704]),
   ("RightTriangleEqual;".data, [Char.ofNat 8885]),
   ("RightUpDownVector;".data, [Char.ofNat 10575]),
   ("RightUpTeeVector;".data, [Char.ofNat 10588]),
   ("RightUpVector;".data, [Char.ofNat 8638]),
   ("RightUpVectorBar;".data, [Char.ofNat 10580]),
   ("RightVector;".data, [Char.ofNat 8640]),
   ("RightVectorBar;".data, [Char.ofNat 10579]),
   ("Rightarrow;".data, [Char.ofNat 8658]),
   ("Ropf;".data, [Char.ofNat 8477]),
   ("RoundImplies;".data, [Char.ofNat 10608]),
   ("Rrightarrow;".data, [Char.ofNat 8667]),
   ("Rscr;".data, [Char.ofNat 8475]),
   ("Rsh;".data, [Char.ofNat 8625]),
   ("RuleDelayed;".data, [Char.ofNat 10740]),
   ("SHCHcy;".data, [Char.ofNat 1065]),
   ("SHcy;".data, [Char.ofNat 1064]),
   ("SOFTcy;".data, [Char.ofNat 1068]),
   ("Sacute;".data, [Char.ofNat 346]),
   ("Sc;".data, [Char.ofNat 10940]),
   ("Scaron;".data, [Char.ofNat 352]),
   ("Scedil;".data, [Char.ofNat 350]),
   ("Scirc;".data, [Char.ofNat 348]),
   ("Scy;".data, [Char.ofNat 1057]),
   ("Sfr;".data, [Char.ofNat 120086]),
   ("ShortDownArrow;".data, [Char.ofNat 8595]),
   ("ShortLeftArrow;".data, [Char.ofNat 8592]),
   ("ShortRightArrow;".data, [Char.ofNat 8594]),
   ("ShortUpArrow;".data, [Char.ofNat 8593]),
   ("Sigma;".data, [Char.ofNat 931]),
   ("SmallCircle;".data, [Char.ofNat 8728]),
   ("Sopf;".data, [Char.ofNat 120138]),
   ("Sqrt;".data, [Char.ofNat 8730]),
   ("Square;".data, [Char.ofNat 9633]),
   ("SquareIntersection;".data, [Char.ofNat 8851]),
   ("SquareSubset;".data, [Char.ofNat 8847]),
   ("SquareSubsetEqual;".data, [Char.ofNat 8849]),
   ("SquareSuperset;".data, [Char.ofNat 8848]),
   ("SquareSupersetEqual;".data, [Char.ofNat 8850]),
   ("SquareUnion;".data, [Char.ofNat 8852]),
   ("Sscr;".data, [Char.ofNat 119982]),
   ("Star;".data, [Char.ofNat 8902]),
   ("Sub;".data, [Char.ofNat 8912]),
   ("Subset;".data, [Char.ofNat 8912]),
   ("SubsetEqual;".data, [Char.ofNat 8838]),
   ("Succeeds;".data, [Char.ofNat 8827]),
   ("SucceedsEqual;".data, [Char.ofNat 10928]),
   ("SucceedsSlantEqual;".data, [Char.ofNat 8829]),
   ("SucceedsTilde;".data, [Char.ofNat 8831]),
   ("SuchThat;".data, [Char.ofNat 8715]),
   ("Sum;".data, [Char.ofNat 8721]),
   ("Sup;".data, [Char.ofNat 8913]),
   ("Superset;".data, [Char.ofNat 8835]),
   ("SupersetEqual;".data, [Char.ofNat 8839]),
   ("Supset;".data, [Char.ofNat 8913]),
   ("THORN".data, [Char.ofNat 222]),
   ("THORN;".data, [Char.ofNat 222]),
   ("TRADE;".data, [Char.ofNat 8482]),
   ("TSHcy;".data, [Char.ofNat 1035]),
   ("TScy;".data, [Char.ofNat 1062]),
   ("Tab;".data, [Char.ofNat 9]),
   ("Tau;".data, [Char.ofNat 932]),
   ("Tcaron;".data, [Char.ofNat 356]),
   ("Tcedil;".data, [Char.ofNat 354]),
   ("Tcy;".data, [Char.ofNat 1058]),
   ("Tfr;".data, [Char.ofNat 120087]),
   ("Therefore;".data, [Char.ofNat 8756]),
   ("Theta;".data, [Char.ofNat 920]),
   ("ThickSpace;".data, [Char.ofNat 8287, Char.ofNat 8202]),
   ("ThinSpace;".data, [Char.ofNat 8201]),
   ("Tilde;".data, [Char.ofNat 8764]),
   ("TildeEqual;".data, [Char.ofNat 8771]),
   ("TildeFullEqual;".data, [Char.ofNat 8773]),
   ("TildeTilde;".data, [Char.ofNat 8776]),
   ("Topf;".data, [Char.ofNat 120139]),
   ("TripleDot;".data, [Char.ofNat 8411]),
   ("Tscr;".data, [Char.ofNat 119983]),
   ("Tstrok;".data, [Char.ofNat 358]),
   ("Uacute".data, [Char.ofNat 218]),
   ("Uacute;".data, [Char.ofNat 218]),
   ("Uarr;".data, [Char.ofNat 8607]),
   ("Uarrocir;".data, [Char.ofNat 10569]),
   ("Ubrcy;".data, [Char.ofNat 1038]),
   ("Ubreve;".data, [Char.ofNat 364]),
   ("Ucirc".data, [Char.ofNat 219]),
   ("Ucirc;".data, [Char.ofNat 219]),
   ("Ucy;".data, [Char.ofNat 1059]),
   ("Udblac;".data, [Char.ofNat 368]),
   ("Ufr;".data, [Char.ofNat 120088]),
   ("Ugrave".data, [Char.ofNat 217]),
   ("Ugrave;".data, [Char.ofNat 217]),
   ("Umacr;".data, [Char.ofNat 362]),
   ("UnderBar;".data, [Char.ofNat 95]),
   ("UnderBrace;".data, [Char.ofNat 9183]),
   ("UnderBracket;".data, [Char.ofNat 9141]),
   ("UnderParenthesis;".data, [Char.ofNat 9181]),
   ("Union;".data, [Char.ofNat 8899]),
   ("UnionPlus;".data, [Char.ofNat 8846]),
   ("Uogon;".data, [Char.ofNat 370]),
   ("Uopf;".data, [Char.ofNat 120140]),
   ("UpArrow;".data, [Char.ofNat 8593]),
   ("UpArrowBar;".data, [Char.ofNat 10514]),
   ("UpArrowDownArrow;".data, [Char.ofNat 8645]),
   ("UpDownArrow;".data, [Char.ofNat 8597]),
   ("UpEquilibrium;".data, [Char.ofNat 10606]),
   ("UpTee;".data, [Char.ofNat 8869]),
   ("UpTeeArrow;".data, [Char.ofNat 8613]),
   ("Uparrow;".data, [Char.ofNat 8657]),
   ("Updownarrow;".data, [Char.ofNat 8661]),
   ("UpperLeftArrow;".data, [Char.ofNat 8598]),
   ("UpperRightArrow;".data, [Char.ofNat 8599]),
   ("Upsi;".data, [Char.ofNat 978]),
   ("Upsilon;".data, [Char.ofNat 933]),
   ("Uring;".data, [Char.ofNat 366]),
   ("Uscr;".data, [Char.ofNat 119984]),
   ("Utilde;".data, [Char.ofNat 360]),
   ("Uuml".data, [Char.ofNat 220]),
   ("Uuml;".data, [Char.ofNat 220]),
   ("VDash;".data, [Char.ofNat 8875]),
   ("Vbar;".data, [Char.ofNat 10987]),
   ("Vcy;".data, [Char.ofNat 1042]),
   ("Vdash;".data, [Char.ofNat 8873]),
   ("Vdashl;".data, [Char.ofNat 10982]),
   ("Vee;".data, [Char.ofNat 8897]),
   ("Verbar;".data, [Char.ofNat 8214]),
   ("Vert;".data, [Char.ofNat 8214]),
   ("VerticalBar;".data, [Char.ofNat 8739]),
   ("VerticalLine;".data, [Char.ofNat 124]),
   ("VerticalSeparator;".data, [Char.ofNat 10072]),
   ("VerticalTilde;".data, [Char.ofNat 8768]),
   ("VeryThinSpace;".data, [Char.ofNat 8202]),
   ("Vfr;".data, [Char.ofNat 120089]),
   ("Vopf;".data, [Char.ofNat 120141]),
   ("Vscr;".data, [Char.ofNat 119985]),
   ("Vvdash;".data, [Char.ofNat 8874]),
   ("Wcirc;".data, [Char.ofNat 372]),
   ("Wedge;".data, [Char.ofNat 8896]),
   ("Wfr;".data, [Char.ofNat 120090]),
   ("Wopf;".data, [Char.ofNat 120142]),
   ("Wscr;".data, [Char.ofNat 119986]),
   ("Xfr;".data, [Char.ofNat 120091]),
   ("Xi;".data, [Char.ofNat 926]),
   ("Xopf;".data, [Char.ofNat 120143]),
   ("Xscr;".data, [Char.ofNat 119987]),
   ("YAcy;".data, [Char.ofNat 1071]),
   ("YIcy;".data, [Char.ofNat 1031]),
   ("YUcy;".data, [Char.ofNat 1070]),
   ("Yacute".data, [Char.ofNat 221]),
   ("Yacute;".data, [Char.ofNat 221]),
   ("Ycirc;".data, [Char.ofNat 374]),
   ("Ycy;".data, [Char.ofNat 1067]),
   ("Yfr;".data, [Char.ofNat 120092]),
   ("Yopf;".data, [Char.ofNat 120144]),
   ("Yscr;".data, [Char.ofNat 119988]),
   ("Yuml;".data, [Char.ofNat 376]),
   ("ZHcy;".data, [Char.ofNat 1046]),
   ("Zacute;".data, [Char.ofNat 377]),
   ("Zcaron;".data, [Char.ofNat 381]),
   ("Zcy;".data, [Char.ofNat 1047]),
   ("Zdot;".data, [Char.ofNat 379]),
   ("ZeroWidthSpace;".data, [Char.ofNat 8203]),
   ("Zeta;".data, [Char.ofNat 918]),
   ("Zfr;".data, [Char.ofNat 8488]),
   ("Zopf;".data, [Char.ofNat 8484]),
   ("Zscr;".data, [Char.ofNat 119989]),
   ("aacute".data, [Char.ofNat 225]),
   ("aacute;".data, [Char.ofNat 225]),
   ("abreve;".data, [Char.ofNat 259]),
   ("ac;".data, [Char.ofNat 8766]),
   ("acE;".data, [Char.ofNat 8766, Char.ofNat 819]),
   ("acd;".data, [Char.ofNat 8767]),
   ("acirc".data, [Char.ofNat 226]),
   ("acirc;".data, [Char.ofNat 226]),
   ("acute".data, [Char.ofNat 180]),
   ("acute;".data, [Char.ofNat 180]),
   ("acy;".data, [Char.ofNat 1072]),
   ("aelig".data, [Char.ofNat 230]),
   ("aelig;".data, [Char.ofNat 230]),
   ("af;".data, [Char.ofNat 8289]),
   ("afr;".data, [Char.ofNat 120094]),
   ("agrave".data, [Char.ofNat 224]),
   ("agrave;".data, [Char.ofNat 224]),
   ("alefsym;".data, [Char.ofNat 8501]),
   ("aleph;".data, [Char.ofNat 8501]),
   ("alpha;".data, [Char.ofNat 945]),
   ("amacr;".data, [Char.ofNat 257]),
   ("amalg;".data, [Char.ofNat 10815]),
   ("amp".data, [Char.ofNat 38]),
   ("amp;".data, [Char.ofNat 38]),
   ("and;".data, [Char.ofNat 8743]),
   ("andand;".data, [Char.ofNat 10837]),
   ("andd;".data, [Char.ofNat 10844]),
   ("andslope;".data, [Char.ofNat 10840]),
   ("andv;".data, [Char.ofNat 10842]),
   ("ang;".data, [Char.ofNat 8736]),
   ("ange;".data, [Char.ofNat 10660]),
   ("angle;".data, [Char.ofNat 8736]),
   ("angmsd;".data, [Char.ofNat 8737]),
   ("angmsdaa;".data, [Char.ofNat 10664]),
   ("angmsdab;".data, [Char.ofNat 10665]),
   ("angmsdac;".data, [Char.ofNat 10666]),
   ("angmsdad;".data, [Char.ofNat 10667]),
   ("angmsdae;".data, [Char.ofNat 10668]),
   ("angmsdaf;".data, [Char.ofNat 10669]),
   ("angmsdag;".data, [Char.ofNat 10670]),
   ("angmsdah;".data, [Char.ofNat 10671]),
   ("angrt;".data, [Char.ofNat 8735]),
   ("angrtvb;".data, [Char.ofNat 8894]),
   ("angrtvbd;".data, [Char.ofNat 10653]),
   ("angsph;".data, [Char.ofNat 8738]),
   ("angst;".data, [Char.ofNat 197]),
   ("angzarr;".data, [Char.ofNat 9084]),
   ("aogon;".data, [Char.ofNat 261]),
   ("aopf;".data, [Char.ofNat 120146]),
   ("ap;".data, [Char.ofNat 8776]),
   ("apE;".data, [Char.ofNat 10864]),
   ("apacir;".data, [Char.ofNat 10863]),
   ("ape;".data, [Char.ofNat 8778]),
   ("apid;".data, [Char.ofNat 8779]),
   ("apos;".data, [Char.ofNat 39]),
   ("approx;".data, [Char.ofNat 8776]),
   ("approxeq;".data, [Char.ofNat 8778]),
   ("aring".data, [Char.ofNat 229]),
   ("aring;".data, [Char.ofNat 229]),
   ("ascr;".data, [Char.ofNat 119990]),
   ("ast;".data, [Char.ofNat 42]),
   ("asymp;".data, [Char.ofNat 8776]),
   ("asympeq;".data, [Char.ofNat 8781]),
   ("atilde".data, [Char.ofNat 227]),
   ("atilde;".data, [Char.ofNat 227]),
   ("auml".data, [Char.ofNat 228]),
   ("auml;".data, [Char.ofNat 228]),
   ("awconint;".data, [Char.ofNat 8755]),
   ("awint;".data, [Char.ofNat 10769]),
   ("bNot;".data, [Char.ofNat 10989]),
   ("backcong;".data, [Char.ofNat 8780]),
   ("backepsilon;".data, [Char.ofNat 1014]),
   ("backprime;".data, [Char.ofNat 8245]),
   ("backsim;".data, [Char.ofNat 8765]),
   ("backsimeq;".data, [Char.ofNat 8909]),
   ("barvee;".data, [Char.ofNat 8893]),
   ("barwed;".data, [Char.ofNat 8965]),
   ("barwedge;".data, [Char.ofNat 8965]),
   ("bbrk;".data, [Char.ofNat 9141]),
   ("bbrktbrk;".data, [Char.ofNat 9142]),
   ("bcong;".data, [Char.ofNat 8780]),
   ("bcy;".data, [Char.ofNat 1073]),
   ("bdquo;".data, [Char.ofNat 8222]),
   ("becaus;".data, [Char.ofNat 8757]),
   ("because;".data, [Char.ofNat 8757]),
   ("bemptyv;".data, [Char.ofNat 10672]),
   ("bepsi;".data, [Char.ofNat 1014]),
   ("bernou;".data, [Char.ofNat 8492]),
   ("beta;".data, [Char.ofNat 946]),
   ("beth;".data, [Char.ofNat 8502]),
   ("between;".data, [Char.ofNat 8812]),
   ("bfr;".data, [Char.ofNat 120095]),
   ("bigcap;".data, [Char.ofNat 8898]),
   ("bigcirc;".data, [Char.ofNat 9711]),
   ("bigcup;".data, [Char.ofNat 8899]),
   ("bigodot;".data, [Char.ofNat 10752]),
   ("bigoplus;".data, [Char.ofNat 10753]),
   ("bigotimes;".data, [Char.ofNat 10754]),
   ("bigsqcup;".data, [Char.ofNat 10758]),
   ("bigstar;".data, [Char.ofNat 9733]),
   ("bigtriangledown;".data, [Char.ofNat 9661]),
   ("bigtriangleup;".data, [Char.ofNat 9651]),
   ("biguplus;".data, [Char.ofNat 10756]),
   ("bigvee;".data, [Char.ofNat 8897]),
   ("bigwedge;".data, [Char.ofNat 8896]),
   ("bkarow;".data, [Char.ofNat 10509]),
   ("blacklozenge;".data, [Char.ofNat 10731]),
   ("blacksquare;".data, [Char.ofNat 9642]),
   ("blacktriangle;".data, [Char.ofNat 9652]),
   ("blacktriangledown;".data, [Char.ofNat 9662]),
   ("blacktriangleleft;".data, [Char.ofNat 9666]),
   ("blacktriangleright;".data, [Char.ofNat 9656]),
   ("blank;".data, [Char.ofNat 9251]),
   ("blk12;".data, [Char.ofNat 9618]),
   ("blk14;".data, [Char.ofNat 9617]),
   ("blk34;".data, [Char.ofNat 9619]),
   ("block;".data, [Char.ofNat 9608]),
   ("bne;".data, [Char.ofNat 61, Char.ofNat 8421]),
   ("bnequiv;".data, [Char.ofNat 8801, Char.ofNat 8421]),
   ("bnot;".data, [Char.ofNat 8976]),
   ("bopf;".data, [Char.ofNat 120147]),
   ("bot;".data, [Char.ofNat 8869]),
   ("bottom;".data, [Char.ofNat 8869]),
   ("bowtie;".data, [Char.ofNat 8904]),
   ("boxDL;".data, [Char.ofNat 9559]),
   ("boxDR;".data, [Char.ofNat 9556]),
   ("boxDl;".data, [Char.ofNat 9558]),
   ("boxDr;".data, [Char.ofNat 9555]),
   ("boxH;".data, [Char.ofNat 9552]),
   ("boxHD;".data, [Char.ofNat 9574]),
   ("boxHU;".data, [Char.ofNat 9577]),
   ("boxHd;".data, [Char.ofNat 9572]),
   ("boxHu;".data, [Char.ofNat 9575]),
   ("boxUL;".data, [Char.ofNat 9565]),
   ("boxUR;".data, [Char.ofNat 9562]),
   ("boxUl;".data, [Char.ofNat 9564]),
   ("boxUr;".data, [Char.ofNat 9561]),
   ("boxV;".data, [Char.ofNat 9553]),
   ("boxVH;".data, [Char.ofNat 9580]),
   ("boxVL;".data, [Char.ofNat 9571]),
   ("boxVR;".data, [Char.ofNat 9568]),
   ("boxVh;".data, [Char.ofNat 9579]),
   ("boxVl;".data, [Char.ofNat 9570]),
   ("boxVr;".data, [Char.ofNat 9567]),
   ("boxbox;".data, [Char.ofNat 10697]),
   ("boxdL;".data, [Char.ofNat 9557]),
   ("boxdR;".data, [Char.ofNat 9554]),
   ("boxdl;".data, [Char.ofNat 9488]),
   ("boxdr;".data, [Char.ofNat 9484]),
   ("boxh;".data, [Char.ofNat 9472]),
   ("boxhD;".data, [Char.ofNat 9573]),
   ("boxhU;".data, [Char.ofNat 9576]),
   ("boxhd;".data, [Char.ofNat 9516]),
   ("boxhu;".data, [Char.ofNat 9524]),
   ("boxminus;".data, [Char.ofNat 8863]),
   ("boxplus;".data, [Char.ofNat 8862]),
   ("boxtimes;".data, [Char.ofNat 8864]),
   ("boxuL;".data, [Char.ofNat 9563]),
   ("boxuR;".data, [Char.ofNat 9560]),
   ("boxul;".data, [Char.ofNat 9496]),
   ("boxur;".data, [Char.ofNat 9492]),
   ("boxv;".data, [Char.ofNat 9474]),
   ("boxvH;".data, [Char.ofNat 9578]),
   ("boxvL;".data, [Char.ofNat 9569]),
   ("boxvR;".data, [Char.ofNat 9566]),
   ("boxvh;".data, [Char.ofNat 9532]),
   ("boxvl;".data, [Char.ofNat 9508]),
   ("boxvr;".data, [Char.ofNat 9500]),
   ("bprime;".data, [Char.ofNat 8245]),
   ("breve;".data, [Char.ofNat 728]),
   ("brvbar".data, [Char.ofNat 166]),
   ("brvbar;".data, [Char.ofNat 166]),
   ("bscr;".data, [Char.ofNat 119991]),
   ("bsemi;".data, [Char.ofNat 8271]),
   ("bsim;".data, [Char.ofNat 8765]),
   ("bsime;".data, [Char.ofNat 8909]),
   ("bsol;".data, [Char.ofNat 92]),
   ("bsolb;".data, [Char.ofNat 10693]),
   ("bsolhsub;".data, [Char.ofNat 10184]),
   ("bull;".data, [Char.ofNat 8226]),
   ("bullet;".data, [Char.ofNat 8226]),
   ("bump;".data, [Char.ofNat 8782]),
   ("bumpE;".data, [Char.ofNat 10926]),
   ("bumpe;".data, [Char.ofNat 8783]),
   ("bumpeq;".data, [Char.ofNat 8783]),
   ("cacute;".data, [Char.ofNat 263]),
   ("cap;".data, [Char.ofNat 8745]),
   ("capand;".data, [Char.ofNat 10820]),
   ("capbrcup;".data, [Char.ofNat 10825]),
   ("capcap;".data, [Char.ofNat 10827]),
   ("capcup;".data, [Char.ofNat 10823]),
   ("capdot;".data, [Char.ofNat 10816]),
   ("caps;".data, [Char.ofNat 8745, Char.ofNat 65024]),
   ("caret;".data, [Char.ofNat 8257]),
   ("caron;".data, [Char.ofNat 711]),
   ("ccaps;".data, [Char.ofNat 10829]),
   ("ccaron;".data, [Char.ofNat 269]),
   ("ccedil".data, [Char.ofNat 231]),
   ("ccedil;".data, [Char.ofNat 231]),
   ("ccirc;".data, [Char.ofNat 265]),
   ("ccups;".data, [Char.ofNat 10828]),
   ("ccupssm;".data, [Char.ofNat 10832]),
   ("cdot;".data, [Char.ofNat 267]),
   ("cedil".data, [Char.ofNat 184]),
   ("cedil;".data, [Char.ofNat 184]),
   ("cemptyv;".data, [Char.ofNat 10674]),
   ("cent".data, [Char.ofNat 162]),
   ("cent;".data, [Char.ofNat 162]),
   ("centerdot;".data, [Char.ofNat 183]),
   ("cfr;".data, [Char.ofNat 120096]),
   ("chcy;".data, [Char.ofNat 1095]),
   ("check;".data, [Char.ofNat 10003]),
   ("checkmark;".data, [Char.ofNat 10003]),
   ("chi;".data, [Char.ofNat 967]),
   ("cir;".data, [Char.ofNat 9675]),
   ("cirE;".data, [Char.ofNat 10691]),
   ("circ;".data, [Char.ofNat 710]),
   ("circeq;".data, [Char.ofNat 8791]),
   ("circlearrowleft;".data, [Char.ofNat 8634]),
   ("circlearrowright;".data, [Char.ofNat 8635]),
   ("circledR;".data, [Char.ofNat 174]),
   ("circledS;".data, [Char.ofNat 9416]),
   ("circledast;".data, [Char.ofNat 8859]),
   ("circledcirc;".data, [Char.ofNat 8858]),
   ("circleddash;".data, [Char.ofNat 8861]),
   ("cire;".data, [Char.ofNat 8791]),
   ("cirfnint;".data, [Char.ofNat 10768]),
   ("cirmid;".data, [Char.ofNat 10991]),
   ("cirscir;".data, [Char.ofNat 10690]),
   ("clubs;".data, [Char.ofNat 9827]),
   ("clubsuit;".data, [Char.ofNat 9827]),
   ("colon;".data, [Char.ofNat 58]),
   ("colone;".data, [Char.ofNat 8788]),
   ("coloneq;".data, [Char.ofNat 8788]),
   ("comma;".data, [Char.ofNat 44]),
   ("commat;".data, [Char.ofNat 64]),
   ("comp;".data, [Char.ofNat 8705]),
   ("compfn;".data, [Char.ofNat 8728]),
   ("complement;".data, [Char.ofNat 8705]),
   ("complexes;".data, [Char.ofNat 8450]),
   ("cong;".data, [Char.ofNat 8773]),
   ("congdot;".data, [Char.ofNat 10861]),
   ("conint;".data, [Char.ofNat 8750]),
   ("copf;".data, [Char.ofNat 120148]),
   ("coprod;".data, [Char.ofNat 8720]),
   ("copy".data, [Char.ofNat 169]),
   ("copy;".data, [Char.ofNat 169]),
   ("copysr;".data, [Char.ofNat 8471]),
   ("crarr;".data, [Char.ofNat 8629]),
   ("cross;".data, [Char.ofNat 10007]),
   ("cscr;".data, [Char.ofNat 119992]),
   ("csub;".data, [Char.ofNat 10959]),
   ("csube;".data, [Char.ofNat 10961]),
   ("csup;".data, [Char.ofNat 10960]),
   ("csupe;".data, [Char.ofNat 10962]),
   ("ctdot;".data, [Char.ofNat 8943]),
   ("cudarrl;".data, [Char.ofNat 10552]),
   ("cudarrr;".data, [Char.ofNat 10549]),
   ("cuepr;".data, [Char.ofNat 8926]),
   ("cuesc;".data, [Char.ofNat 8927]),
   ("cularr;".data, [Char.ofNat 8630]),
   ("cularrp;".data, [Char.ofNat 10557]),
   ("cup;".data, [Char.ofNat 8746]),
   ("cupbrcap;".data, [Char.ofNat 10824]),
   ("cupcap;".data, [Char.ofNat 10822]),
   ("cupcup;".data, [Char.ofNat 10826]),
   ("cupdot;".data, [Char.ofNat 8845]),
   ("cupor;".data, [Char.ofNat 10821]),
   ("cups;".data, [Char.ofNat 8746, Char.ofNat 65024]),
   ("curarr;".data, [Char.ofNat 8631]),
   ("curarrm;".data, [Char.ofNat 10556]),
   ("curlyeqprec;".data, [Char.ofNat 8926]),
   ("curlyeqsucc;".data, [Char.ofNat 8927]),
   ("curlyvee;".data, [Char.ofNat 8910]),
   ("curlywedge;".data, [Char.ofNat 8911]),
   ("curren".data, [Char.ofNat 164]),
   ("curren;".data, [Char.ofNat 164]),
   ("curvearrowleft;".data, [Char.ofNat 8630]),
   ("curvearrowright;".data, [Char.ofNat 8631]),
   ("cuvee;".data, [Char.ofNat 8910]),
   ("cuwed;".data, [Char.ofNat 8911]),
   ("cwconint;".data, [Char.ofNat 8754]),
   ("cwint;".data, [Char.ofNat 8753]),
   ("cylcty;".data, [Char.ofNat 9005]),
   ("dArr;".data, [Char.ofNat 8659]),
   ("dHar;".data, [Char.ofNat 10597]),
   ("dagger;".data, [Char.ofNat 8224]),
   ("daleth;".data, [Char.ofNat 8504]),
   ("darr;".data, [Char.ofNat 8595]),
   ("dash;".data, [Char.ofNat 8208]),
   ("dashv;".data, [Char.ofNat 8867]),
   ("dbkarow;".data, [Char.ofNat 10511]),
   ("dblac;".data, [Char.ofNat 733]),
   ("dcaron;".data, [Char.ofNat 271]),
   ("dcy;".data, [Char.ofNat 1076]),
   ("dd;".data, [Char.ofNat 8518]),
   ("ddagger;".data, [Char.ofNat 8225]),
   ("ddarr;".data, [Char.ofNat 8650]),
   ("ddotseq;".data, [Char.ofNat 10871]),
   ("deg".data, [Char.ofNat 176]),
   ("deg;".data, [Char.ofNat 176]),
   ("delta;".data, [Char.ofNat 948]),
   ("demptyv;".data, [Char.ofNat 10673]),
   ("dfisht;".data, [Char.ofNat 10623]),
   ("dfr;".data, [Char.ofNat 120097]),
   ("dharl;".data, [Char.ofNat 8643]),
   ("dharr;".data, [Char.ofNat 8642]),
   ("diam;".data, [Char.ofNat 8900]),
   ("diamond;".data, [Char.ofNat 8900]),
   ("diamondsuit;".data, [Char.ofNat 9830]),
   ("diams;".data, [Char.ofNat 9830]),
   ("die;".data, [Char.ofNat 168]),
   ("digamma;".data, [Char.ofNat 989]),
   ("disin;".data, [Char.ofNat 8946]),
   ("div;".data, [Char.ofNat 247]),
   ("divide".data, [Char.ofNat 247]),
   ("divide;".data, [Char.ofNat 247]),
   ("divideontimes;".data, [Char.ofNat 8903]),
   ("divonx;".data, [Char.ofNat 8903]),
   ("djcy;".data, [Char.ofNat 1106]),
   ("dlcorn;".data, [Char.ofNat 8990]),
   ("dlcrop;".data, [Char.ofNat 8973]),
   ("dollar;".data, [Char.ofNat 36]),
   ("dopf;".data, [Char.ofNat 120149]),
   ("dot;".data, [Char.ofNat 729]),
   ("doteq;".data, [Char.ofNat 8784]),
   ("doteqdot;".data, [Char.ofNat 8785]),
   ("dotminus;".data, [Char.ofNat 8760]),
   ("dotplus;".data, [Char.ofNat 8724]),
   ("dotsquare;".data, [Char.ofNat 8865]),
   ("doublebarwedge;".data, [Char.ofNat 8966]),
   ("downarrow;".data, [Char.ofNat 8595]),
   ("downdownarrows;".data, [Char.ofNat 8650]),
   ("downharpoonleft;".data, [Char.ofNat 8643]),
   ("downharpoonright;".data, [Char.ofNat 8642]),
   ("drbkarow;".data, [Char.ofNat 10512]),
   ("drcorn;".data, [Char.ofNat 8991]),
   ("drcrop;".data, [Char.ofNat 8972]),
   ("dscr;".data, [Char.ofNat 119993]),
   ("dscy;".data, [Char.ofNat 1109]),
   ("dsol;".data, [Char.ofNat 10742]),
   ("dstrok;".data, [Char.ofNat 273]),
   ("dtdot;".data, [Char.ofNat 8945]),
   ("dtri;".data, [Char.ofNat 9663]),
   ("dtrif;".data, [Char.ofNat 9662]),
   ("duarr;".data, [Char.ofNat 8693]),
   ("duhar;".data, [Char.ofNat 10607]),
   ("dwangle;".data, [Char.ofNat 10662]),
   ("dzcy;".data, [Char.ofNat 1119]),
   ("dzigrarr;".data, [Char.ofNat 10239]),
   ("eDDot;".data, [Char.ofNat 10871]),
   ("eDot;".data, [Char.ofNat 8785]),
   ("eacute".data, [Char.ofNat 233]),
   ("eacute;".data, [Char.ofNat 233]),
   ("easter;".data, [Char.ofNat 10862]),
   ("ecaron;".data, [Char.ofNat 283]),
   ("ecir;".data, [Char.ofNat 8790]),
   ("ecirc".data, [Char.ofNat 234]),
   ("ecirc;".data, [Char.ofNat 234]),
   ("ecolon;".data, [Char.ofNat 8789]),
   ("ecy;".data, [Char.ofNat 1101]),
   ("edot;".data, [Char.ofNat 279]),
   ("ee;".data, [Char.ofNat 8519]),
   ("efDot;".data, [Char.ofNat 8786]),
   ("efr;".data, [Char.ofNat 120098]),
   ("eg;".data, [Char.ofNat 10906]),
   ("egrave".data, [Char.ofNat 232]),
   ("egrave;".data, [Char.ofNat 232]),
   ("egs;".data, [Char.ofNat 10902]),
   ("egsdot;".data, [Char.ofNat 10904]),
   ("el;".data, [Char.ofNat 10905]),
   ("elinters;".data, [Char.ofNat 9191]),
   ("ell;".data, [Char.ofNat 8467]),
   ("els;".data, [Char.ofNat 10901]),
   ("elsdot;".data, [Char.ofNat 10903]),
   ("emacr;".data, [Char.ofNat 275]),
   ("empty;".data, [Char.ofNat 8709]),
   ("emptyset;".data, [Char.ofNat 8709]),
   ("emptyv;".data, [Char.ofNat 8709]),
   ("emsp13;".data, [Char.ofNat 8196]),
   ("emsp14;".data, [Char.ofNat 8197]),
   ("emsp;".data, [Char.ofNat 8195]),
   ("eng;".data, [Char.ofNat 331]),
   ("ensp;".data, [Char.ofNat 8194]),
   ("eogon;".data, [Char.ofNat 281]),
   ("eopf;".data, [Char.ofNat 120150]),
   ("epar;".data, [Char.ofNat 8917]),
   ("eparsl;".data, [Char.ofNat 10723]),
   ("eplus;".data, [Char.ofNat 10865]),
   ("epsi;".data, [Char.ofNat 949]),
   ("epsilon;".data, [Char.ofNat 949]),
   ("epsiv;".data, [Char.ofNat 1013]),
   ("eqcirc;".data, [Char.ofNat 8790]),
   ("eqcolon;".data, [Char.ofNat 8789]),
   ("eqsim;".data, [Char.ofNat 8770]),
   ("eqslantgtr;".data, [Char.ofNat 10902]),
   ("eqslantless;".data, [Char.ofNat 10901]),
   ("equals;".data, [Char.ofNat 61]),
   ("equest;".data, [Char.ofNat 8799]),
   ("equiv;".data, [Char.ofNat 8801]),
   ("equivDD;".data, [Char.ofNat 10872]),
   ("eqvparsl;".data, [Char.ofNat 10725]),
   ("erDot;".data, [Char.ofNat 8787]),
   ("erarr;".data, [Char.ofNat 10609]),
   ("escr;".data, [Char.ofNat 8495]),
   ("esdot;".data, [Char.ofNat 8784]),
   ("esim;".data, [Char.ofNat 8770]),
   ("eta;".data, [Char.ofNat 951]),
   ("eth".data, [Char.ofNat 240]),
   ("eth;".data, [Char.ofNat 240]),
   ("euml".data, [Char.ofNat 235]),
   ("euml;".data, [Char.ofNat 235]),
   ("euro;".data, [Char.ofNat 8364]),
   ("excl;".data, [Char.ofNat 33]),
   ("exist;".data, [Char.ofNat 8707]),
   ("expectation;".data, [Char.ofNat 8496]),
   ("exponentiale;".data, [Char.ofNat 8519]),
   ("fallingdotseq;".data, [Char.ofNat 8786]),
   ("fcy;".data, [Char.ofNat 1092]),
   ("female;".data, [Char.ofNat 9792]),
   ("ffilig;".data, [Char.ofNat 64259]),
   ("fflig;".data, [Char.ofNat 64256]),
   ("ffllig;".data, [Char.ofNat 64260]),
   ("ffr;".data, [Char.ofNat 120099]),
   ("filig;".data, [Char.ofNat 64257]),
   ("fjlig;".data, [Char.ofNat 102, Char.ofNat 106]),
   ("flat;".data, [Char.ofNat 9837]),
   ("fllig;".data, [Char.ofNat 64258]),
   ("fltns;".data, [Char.ofNat 9649]),
   ("fnof;".data, [Char.ofNat 402]),
   ("fopf;".data, [Char.ofNat 120151]),
   ("forall;".data, [Char.ofNat 8704]),
   ("fork;".data, [Char.ofNat 8916]),
   ("forkv;".data, [Char.ofNat 10969]),
   ("fpartint;".data, [Char.ofNat 10765]),
   ("frac12".data, [Char.ofNat 189]),
   ("frac12;".data, [Char.ofNat 189]),
   ("frac13;".data, [Char.ofNat 8531]),
   ("frac14".data, [Char.ofNat 188]),
   ("frac14;".data, [Char.ofNat 188]),
   ("frac15;".data, [Char.ofNat 8533]),
   ("frac16;".data, [Char.ofNat 8537]),
   ("frac18;".data, [Char.ofNat 8539]),
   ("frac23;".data, [Char.ofNat 8532]),
   ("frac25;".data, [Char.ofNat 8534]),
   ("frac34".data, [Char.ofNat 190]),
   ("frac34;".data, [Char.ofNat 190]),
   ("frac35;".data, [Char.ofNat 8535]),
   ("frac38;".data, [Char.ofNat 8540]),
   ("frac45;".data, [Char.ofNat 8536]),
   ("frac56;".data, [Char.ofNat 8538]),
   ("frac58;".data, [Char.ofNat 8541]),
   ("frac78;".data, [Char.ofNat 8542]),
   ("frasl;".data, [Char.ofNat 8260]),
   ("frown;".data, [Char.ofNat 8994]),
   ("fscr;".data, [Char.ofNat 119995]),
   ("gE;".data, [Char.ofNat 8807]),
   ("gEl;".data, [Char.ofNat 10892]),
   ("gacute;".data, [Char.ofNat 501]),
   ("gamma;".data, [Char.ofNat 947]),
   ("gammad;".data, [Char.ofNat 989]),
   ("gap;".data, [Char.ofNat 10886]),
   ("gbreve;".data, [Char.ofNat 287]),
   ("gcirc;".data, [Char.ofNat 285]),
   ("gcy;".data, [Char.ofNat 1075]),
   ("gdot;".data, [Char.ofNat 289]),
   ("ge;".data, [Char.ofNat 8805]),
   ("gel;".data, [Char.ofNat 8923]),
   ("geq;".data, [Char.ofNat 8805]),
   ("geqq;".data, [Char.ofNat 8807]),
   ("geqslant;".data, [Char.ofNat 10878]),
   ("ges;".data, [Char.ofNat 10878]),
   ("gescc;".data, [Char.ofNat 10921]),
   ("gesdot;".data, [Char.ofNat 10880]),
   ("gesdoto;".data, [Char.ofNat 10882]),
   ("gesdotol;".data, [Char.ofNat 10884]),
   ("gesl;".data, [Char.ofNat 8923, Char.ofNat 65024]),
   ("gesles;".data, [Char.ofNat 10900]),
   ("gfr;".data, [Char.ofNat 120100]),
   ("gg;".data, [Char.ofNat 8811]),
   ("ggg;".data, [Char.ofNat 8921]),
   ("gimel;".data, [Char.ofNat 8503]),
   ("gjcy;".data, [Char.ofNat 1107]),
   ("gl;".data, [Char.ofNat 8823]),
   ("glE;".data, [Char.ofNat 10898]),
   ("gla;".data, [Char.ofNat 10917]),
   ("glj;".data, [Char.ofNat 10916]),
   ("gnE;".data, [Char.ofNat 8809]),
   ("gnap;".data, [Char.ofNat 10890]),
   ("gnapprox;".data, [Char.ofNat 10890]),
   ("gne;".data, [Char.ofNat 10888]),
   ("gneq;".data, [Char.ofNat 10888]),
   ("gneqq;".data, [Char.ofNat 8809]),
   ("gnsim;".data, [Char.ofNat 8935]),
   ("gopf;".data, [Char.ofNat 120152]),
   ("grave;".data, [Char.ofNat 96]),
   ("gscr;".data, [Char.ofNat 8458]),
   ("gsim;".data, [Char.ofNat 8819]),
   ("gsime;".data, [Char.ofNat 10894]),
   ("gsiml;".data, [Char.ofNat 10896]),
   ("gt".data, [Char.ofNat 62]),
   ("gt;".data, [Char.ofNat 62]),
   ("gtcc;".data, [Char.ofNat 10919]),
   ("gtcir;".data, [Char.ofNat 10874]),
   ("gtdot;".data, [Char.ofNat 8919]),
   ("gtlPar;".data, [Char.ofNat 10645]),
   ("gtquest;".data, [Char.ofNat 10876]),
   ("gtrapprox;".data, [Char.ofNat 10886]),
   ("gtrarr;".data, [Char.ofNat 10616]),
   ("gtrdot;".data, [Char.ofNat 8919]),
   ("gtreqless;".data, [Char.ofNat 8923]),
   ("gtreqqless;".data, [Char.ofNat 10892]),
   ("gtrless;".data, [Char.ofNat 8823]),
   ("gtrsim;".data, [Char.ofNat 8819]),
   ("gvertneqq;".data, [Char.ofNat 8809, Char.ofNat 65024]),
   ("gvnE;".data, [Char.ofNat 8809, Char.ofNat 65024]),
   ("hArr;".data, [Char.ofNat 8660]),
   ("hairsp;".data, [Char.ofNat 8202]),
   ("half;".data, [Char.ofNat 189]),
   ("hamilt;".data, [Char.ofNat 8459]),
   ("hardcy;".data, [Char.ofNat 1098]),
   ("harr;".data, [Char.ofNat 8596]),
   ("harrcir;".data, [Char.ofNat 10568]),
   ("harrw;".data, [Char.ofNat 8621]),
   ("hbar;".data, [Char.ofNat 8463]),
   ("hcirc;".data, [Char.ofNat 293]),
   ("hearts;".data, [Char.ofNat 9829]),
   ("heartsuit;".data, [Char.ofNat 9829]),
   ("hellip;".data, [Char.ofNat 8230]),
   ("hercon;".data, [Char.ofNat 8889]),
   ("hfr;".data, [Char.ofNat 120101]),
   ("hksearow;".data, [Char.ofNat 10533]),
   ("hkswarow;".data, [Char.ofNat 10534]),
   ("hoarr;".data, [Char.ofNat 8703]),
   ("homtht;".data, [Char.ofNat 8763]),
   ("hookleftarrow;".data, [Char.ofNat 8617]),
   ("hookrightarrow;".data, [Char.ofNat 8618]),
   ("hopf;".data, [Char.ofNat 120153]),
   ("horbar;".data, [Char.ofNat 8213]),
   ("hscr;".data, [Char.ofNat 119997]),
   ("hslash;".data, [Char.ofNat 8463]),
   ("hstrok;".data, [Char.ofNat 295]),
   ("hybull;".data, [Char.ofNat 8259]),
   ("hyphen;".data, [Char.ofNat 8208]),
   ("iacute".data, [Char.ofNat 237]),
   ("iacute;".data, [Char.ofNat 237]),
   ("ic;".data, [Char.ofNat 8291]),
   ("icirc".data, [Char.ofNat 238]),
   ("icirc;".data, [Char.ofNat 238]),
   ("icy;".data, [Char.ofNat 1080]),
   ("iecy;".data, [Char.ofNat 1077]),
   ("iexcl".data, [Char.ofNat 161]),
   ("iexcl;".data, [Char.ofNat 161]),
   ("iff;".data, [Char.ofNat 8660]),
   ("ifr;".data, [Char.ofNat 120102]),
   ("igrave".data, [Char.ofNat 236]),
   ("igrave;".data, [Char.ofNat 236]),
   ("ii;".data, [Char.ofNat 8520]),
   ("iiiint;".data, [Char.ofNat 10764]),
   ("iiint;".data, [Char.ofNat 8749]),
   ("iinfin;".data, [Char.ofNat 10716]),
   ("iiota;".data, [Char.ofNat 8489]),
   ("ijlig;".data, [Char.ofNat 307]),
   ("imacr;".data, [Char.ofNat 299]),
   ("image;".data, [Char.ofNat 8465]),
   ("imagline;".data, [Char.ofNat 8464]),
   ("imagpart;".data, [Char.ofNat 8465]),
   ("imath;".data, [Char.ofNat 305]),
   ("imof;".data, [Char.ofNat 8887]),
   ("imped;".data, [Char.ofNat 437]),
   ("in;".data, [Char.ofNat 8712]),
   ("incare;".data, [Char.ofNat 8453]),
   ("infin;".data, [Char.ofNat 8734]),
   ("infintie;".data, [Char.ofNat 10717]),
   ("inodot;".data, [Char.ofNat 305]),
   ("int;".data, [Char.ofNat 8747]),
   ("intcal;".data, [Char.ofNat 8890]),
   ("integers;".data, [Char.ofNat 8484]),
   ("intercal;".data, [Char.ofNat 8890]),
   ("intlarhk;".data, [Char.ofNat 10775]),
   ("intprod;".data, [Char.ofNat 10812]),
   ("iocy;".data, [Char.ofNat 1105]),
   ("iogon;".data, [Char.ofNat 303]),
   ("iopf;".data, [Char.ofNat 120154]),
   ("iota;".data, [Char.ofNat 953]),
   ("iprod;".data, [Char.ofNat 10812]),
   ("iquest".data, [Char.ofNat 191]),
   ("iquest;".data, [Char.ofNat 191]),
   ("iscr;".data, [Char.ofNat 119998]),
   ("isin;".data, [Char.ofNat 8712]),
   ("isinE;".data, [Char.ofNat 8953]),
   ("isindot;".data, [Char.ofNat 8949]),
   ("isins;".data, [Char.ofNat 8948]),
   ("isinsv;".data, [Char.ofNat 8947]),
   ("isinv;".data, [Char.ofNat 8712]),
   ("it;".data, [Char.ofNat 8290]),
   ("itilde;".data, [Char.ofNat 297]),
   ("iukcy;".data, [Char.ofNat 1110]),
   ("iuml".data, [Char.ofNat 239]),
   ("iuml;".data, [Char.ofNat 239]),
   ("jcirc;".data, [Char.ofNat 309]),
   ("jcy;".data, [Char.ofNat 1081]),
   ("jfr;".data, [Char.ofNat 120103]),
   ("jmath;".data, [Char.ofNat 567]),
   ("jopf;".data, [Char.ofNat 120155]),
   ("jscr;".data, [Char.ofNat 119999]),
   ("jsercy;".data, [Char.ofNat 1112]),
   ("jukcy;".data, [Char.ofNat 1108]),
   ("kappa;".data, [Char.ofNat 954]),
   ("kappav;".data, [Char.ofNat 1008]),
   ("kcedil;".data, [Char.ofNat 311]),
   ("kcy;".data, [Char.ofNat 1082]),
   ("kfr;".data, [Char.ofNat 120104]),
   ("kgreen;".data, [Char.ofNat 312]),
   ("khcy;".data, [Char.ofNat 1093]),
   ("kjcy;".data, [Char.ofNat 1116]),
   ("kopf;".data, [Char.ofNat 120156]),
   ("kscr;".data, [Char.ofNat 120000]),
   ("lAarr;".data, [Char.ofNat 8666]),
   ("lArr;".data, [Char.ofNat 8656]),
   ("lAtail;".data, [Char.ofNat 10523]),
   ("lBarr;".data, [Char.ofNat 10510]),
   ("lE;".data, [Char.ofNat 8806]),
   ("lEg;".data, [Char.ofNat 10891]),
   ("lHar;".data, [Char.ofNat 10594]),
   ("lacute;".data, [Char.ofNat 314]),
   ("laemptyv;".data, [Char.ofNat 10676]),
   ("lagran;".data, [Char.ofNat 8466]),
   ("lambda;".data, [Char.ofNat 955]),
   ("lang;".data, [Char.ofNat 10216]),
   ("langd;".data, [Char.ofNat 10641]),
   ("langle;".data, [Char.ofNat 10216]),
   ("lap;".data, [Char.ofNat 10885]),
   ("laquo".data, [Char.ofNat 171]),
   ("laquo;".data, [Char.ofNat 171]),
   ("larr;".data, [Char.ofNat 8592]),
   ("larrb;".data, [Char.ofNat 8676]),
   ("larrbfs;".data, [Char.ofNat 10527]),
   ("larrfs;".data, [Char.ofNat 10525]),
   ("larrhk;".data, [Char.ofNat 8617]),
   ("larrlp;".data, [Char.ofNat 8619]),
   ("larrpl;".data, [Char.ofNat 10553]),
   ("larrsim;".data, [Char.ofNat 10611]),
   ("larrtl;".data, [Char.ofNat 8610]),
   ("lat;".data, [Char.ofNat 10923]),
   ("latail;".data, [Char.ofNat 10521]),
   ("late;".data, [Char.ofNat 10925]),
   ("lates;".data, [Char.ofNat 10925, Char.ofNat 65024]),
   ("lbarr;".data, [Char.ofNat 10508]),
   ("lbbrk;".data, [Char.ofNat 10098]),
   ("lbrace;".data, [Char.ofNat 123]),
   ("lbrack;".data, [Char.ofNat 91]),
   ("lbrke;".data, [Char.ofNat 10635]),
   ("lbrksld;".data, [Char.ofNat 10639]),
   ("lbrkslu;".data, [Char.ofNat 10637]),
   ("lcaron;".data, [Char.ofNat 318]),
   ("lcedil;".data, [Char.ofNat 316]),
   ("lceil;".data, [Char.ofNat 8968]),
   ("lcub;".data, [Char.ofNat 123]),
   ("lcy;".data, [Char.ofNat 1083]),
   ("ldca;".data, [Char.ofNat 10550]),
   ("ldquo;".data, [Char.ofNat 8220]),
   ("ldquor;".data, [Char.ofNat 8222]),
   ("ldrdhar;".data, [Char.ofNat 10599]),
   ("ldrushar;".data, [Char.ofNat 10571]),
   ("ldsh;".data, [Char.ofNat 8626]),
   ("le;".data, [Char.ofNat 8804]),
   ("leftarrow;".data, [Char.ofNat 8592]),
   ("leftarrowtail;".data, [Char.ofNat 8610]),
   ("leftharpoondown;".data, [Char.ofNat 8637]),
   ("leftharpoonup;".data, [Char.ofNat 8636]),
   ("leftleftarrows;".data, [Char.ofNat 8647]),
   ("leftrightarrow;".data, [Char.ofNat 8596]),
   ("leftrightarrows;".data, [Char.ofNat 8646]),
   ("leftrightharpoons;".data, [Char.ofNat 8651]),
   ("leftrightsquigarrow;".data, [Char.ofNat 8621]),
   ("leftthreetimes;".data, [Char.ofNat 8907]),
   ("leg;".data, [Char.ofNat 8922]),
   ("leq;".data, [Char.ofNat 8804]),
   ("leqq;".data, [Char.ofNat 8806]),
   ("leqslant;".data, [Char.ofNat 10877]),
   ("les;".data, [Char.ofNat 10877]),
   ("lescc;".data, [Char.ofNat 10920]),
   ("lesdot;".data, [Char.ofNat 10879]),
   ("lesdoto;".data, [Char.ofNat 10881]),
   ("lesdotor;".data, [Char.ofNat 10883]),
   ("lesg;".data, [Char.ofNat 8922, Char.ofNat 65024]),
   ("lesges;".data, [Char.ofNat 10899]),
   ("lessapprox;".data, [Char.ofNat 10885]),
   ("lessdot;".data, [Char.ofNat 8918]),
   ("lesseqgtr;".data, [Char.ofNat 8922]),
   ("lesseqqgtr;".data, [Char.ofNat 10891]),
   ("lessgtr;".data, [Char.ofNat 8822]),
   ("lesssim;".data, [Char.ofNat 8818]),
   ("lfisht;".data, [Char.ofNat 10620]),
   ("lfloor;".data, [Char.ofNat 8970]),
   ("lfr;".data, [Char.ofNat 120105]),
   ("lg;".data, [Char.ofNat 8822]),
   ("lgE;".data, [Char.ofNat 10897]),
   ("lhard;".data, [Char.ofNat 8637]),
   ("lharu;".data, [Char.ofNat 8636]),
   ("lharul;".data, [Char.ofNat 10602]),
   ("lhblk;".data, [Char.ofNat 9604]),
   ("ljcy;".data, [Char.ofNat 1113]),
   ("ll;".data, [Char.ofNat 8810]),
   ("llarr;".data, [Char.ofNat 8647]),
   ("llcorner;".data, [Char.ofNat 8990]),
   ("llhard;".data, [Char.ofNat 10603]),
   ("lltri;".data, [Char.ofNat 9722]),
   ("lmidot;".data, [Char.ofNat 320]),
   ("lmoust;".data, [Char.ofNat 9136]),
   ("lmoustache;".data, [Char.ofNat 9136]),
   ("lnE;".data, [Char.ofNat 8808]),
   ("lnap;".data, [Char.ofNat 10889]),
   ("lnapprox;".data, [Char.ofNat 10889]),
   ("lne;".data, [Char.ofNat 10887]),
   ("lneq;".data, [Char.ofNat 10887]),
   ("lneqq;".data, [Char.ofNat 8808]),
   ("lnsim;".data, [Char.ofNat 8934]),
   ("loang;".data, [Char.ofNat 10220]),
   ("loarr;".data, [Char.ofNat 8701]),
   ("lobrk;".data, [Char.ofNat 10214]),
   ("longleftarrow;".data, [Char.ofNat 10229]),
   ("longleftrightarrow;".data, [Char.ofNat 10231]),
   ("longmapsto;".data, [Char.ofNat 10236]),
   ("longrightarrow;".data, [Char.ofNat 10230]),
   ("looparrowleft;".data, [Char.ofNat 8619]),
   ("looparrowright;".data, [Char.ofNat 8620]),
   ("lopar;".data, [Char.ofNat 10629]),
   ("lopf;".data, [Char.ofNat 120157]),
   ("loplus;".data, [Char.ofNat 10797]),
   ("lotimes;".data, [Char.ofNat 10804]),
   ("lowast;".data, [Char.ofNat 8727]),
   ("lowbar;".data, [Char.ofNat 95]),
   ("loz;".data, [Char.ofNat 9674]),
   ("lozenge;".data, [Char.ofNat 9674]),
   ("lozf;".data, [Char.ofNat 10731]),
   ("lpar;".data, [Char.ofNat 40]),
   ("lparlt;".data, [Char.ofNat 10643]),
   ("lrarr;".data, [Char.ofNat 8646]),
   ("lrcorner;".data, [Char.ofNat 8991]),
   ("lrhar;".data, [Char.ofNat 8651]),
   ("lrhard;".data, [Char.ofNat 10605]),
   ("lrm;".data, [Char.ofNat 8206]),
   ("lrtri;".data, [Char.ofNat 8895]),
   ("lsaquo;".data, [Char.ofNat 8249]),
   ("lscr;".data, [Char.ofNat 120001]),
   ("lsh;".data, [Char.ofNat 8624]),
   ("lsim;".data, [Char.ofNat 8818]),
   ("lsime;".data, [Char.ofNat 10893]),
   ("lsimg;".data, [Char.ofNat 10895]),
   ("lsqb;".data, [Char.ofNat 91]),
   ("lsquo;".data, [Char.ofNat 8216]),
   ("lsquor;".data, [Char.ofNat 8218]),
   ("lstrok;".data, [Char.ofNat 322]),
   ("lt".data, [Char.ofNat 60]),
   ("lt;".data, [Char.ofNat 60]),
   ("ltcc;".data, [Char.ofNat 10918]),
   ("ltcir;".data, [Char.ofNat 10873]),
   ("ltdot;".data, [Char.ofNat 8918]),
   ("lthree;".data, [Char.ofNat 8907]),
   ("ltimes;".data, [Char.ofNat 8905]),
   ("ltlarr;".data, [Char.ofNat 10614]),
   ("ltquest;".data, [Char.ofNat 10875]),
   ("ltrPar;".data, [Char.ofNat 10646]),
   ("ltri;".data, [Char.ofNat 9667]),
   ("ltrie;".data, [Char.ofNat 8884]),
   ("ltrif;".data, [Char.ofNat 9666]),
   ("lurdshar;".data, [Char.ofNat 10570]),
   ("luruhar;".data, [Char.ofNat 10598]),
   ("lvertneqq;".data, [Char.ofNat 8808, Char.ofNat 65024]),
   ("lvnE;".data, [Char.ofNat 8808, Char.ofNat 65024]),
   ("mDDot;".data, [Char.ofNat 8762]),
   ("macr".data, [Char.ofNat 175]),
   ("macr;".data, [Char.ofNat 175]),
   ("male;".data, [Char.ofNat 9794]),
   ("malt;".data, [Char.ofNat 10016]),
   ("maltese;".data, [Char.ofNat 10016]),
   ("map;".data, [Char.ofNat 8614]),
   ("mapsto;".data, [Char.ofNat 8614]),
   ("mapstodown;".data, [Char.ofNat 8615]),
   ("mapstoleft;".data, [Char.ofNat 8612]),
   ("mapstoup;".data, [Char.ofNat 8613]),
   ("marker;".data, [Char.ofNat 9646]),
   ("mcomma;".data, [Char.ofNat 10793]),
   ("mcy;".data, [Char.ofNat 1084]),
   ("mdash;".data, [Char.ofNat 8212]),
   ("measuredangle;".data, [Char.ofNat 8737]),
   ("mfr;".data, [Char.ofNat 120106]),
   ("mho;".data, [Char.ofNat 8487]),
   ("micro".data, [Char.ofNat 181]),
   ("micro;".data, [Char.ofNat 181]),
   ("mid;".data, [Char.ofNat 8739]),
   ("midast;".data, [Char.ofNat 42]),
   ("midcir;".data, [Char.ofNat 10992]),
   ("middot".data, [Char.ofNat 183]),
   ("middot;".data, [Char.ofNat 183]),
   ("minus;".data, [Char.ofNat 8722]),
   ("minusb;".data, [Char.ofNat 8863]),
   ("minusd;".data, [Char.ofNat 8760]),
   ("minusdu;".data, [Char.ofNat 10794]),
   ("mlcp;".data, [Char.ofNat 10971]),
   ("mldr;".data, [Char.ofNat 8230]),
   ("mnplus;".data, [Char.ofNat 8723]),
   ("models;".data, [Char.ofNat 8871]),
   ("mopf;".data, [Char.ofNat 120158]),
   ("mp;".data, [Char.ofNat 8723]),
   ("mscr;".data, [Char.ofNat 120002]),
   ("mstpos;".data, [Char.ofNat 8766]),
   ("mu;".data, [Char.ofNat 956]),
   ("multimap;".data, [Char.ofNat 8888]),
   ("mumap;".data, [Char.ofNat 8888]),
   ("nGg;".data, [Char.ofNat 8921, Char.ofNat 824]),
   ("nGt;".data, [Char.ofNat 8811, Char.ofNat 8402]),
   ("nGtv;".data, [Char.ofNat 8811, Char.ofNat 824]),
   ("nLeftarrow;".data, [Char.ofNat 8653]),
   ("nLeftrightarrow;".data, [Char.ofNat 8654]),
   ("nLl;".data, [Char.ofNat 8920, Char.ofNat 824]),
   ("nLt;".data, [Char.ofNat 8810, Char.ofNat 8402]),
   ("nLtv;".data, [Char.ofNat 8810, Char.ofNat 824]),
   ("nRightarrow;".data, [Char.ofNat 8655]),
   ("nVDash;".data, [Char.ofNat 8879]),
   ("nVdash;".data, [Char.ofNat 8878]),
   ("nabla;".data, [Char.ofNat 8711]),
   ("nacute;".data, [Char.ofNat 324]),
   ("nang;".data, [Char.ofNat 8736, Char.ofNat 8402]),
   ("nap;".data, [Char.ofNat 8777]),
   ("napE;".data, [Char.ofNat 10864, Char.ofNat 824]),
   ("napid;".data, [Char.ofNat 8779, Char.ofNat 824]),
   ("napos;".data, [Char.ofNat 329]),
   ("napprox;".data, [Char.ofNat 8777]),
   ("natur;".data, [Char.ofNat 9838]),
   ("natural;".data, [Char.ofNat 9838]),
   ("naturals;".data, [Char.ofNat 8469]),
   ("nbsp".data, [Char.ofNat 160]),
   ("nbsp;".data, [Char.ofNat 160]),
   ("nbump;".data, [Char.ofNat 8782, Char.ofNat 824]),
   ("nbumpe;".data, [Char.ofNat 8783, Char.ofNat 824]),
   ("ncap;".data, [Char.ofNat 10819]),
   ("ncaron;".data, [Char.ofNat 328]),
   ("ncedil;".data, [Char.ofNat 326]),
   ("ncong;".data, [Char.ofNat 8775]),
   ("ncongdot;".data, [Char.ofNat 10861, Char.ofNat 824]),
   ("ncup;".data, [Char.ofNat 10818]),
   ("ncy;".data, [Char.ofNat 1085]),
   ("ndash;".data, [Char.ofNat 8211]),
   ("ne;".data, [Char.ofNat 8800]),
   ("neArr;".data, [Char.ofNat 8663]),
   ("nearhk;".data, [Char.ofNat 10532]),
   ("nearr;".data, [Char.ofNat 8599]),
   ("nearrow;".data, [Char.ofNat 8599]),
   ("nedot;".data, [Char.ofNat 8784, Char.ofNat 824]),
   ("nequiv;".data, [Char.ofNat 8802]),
   ("nesear;".data, [Char.ofNat 10536]),
   ("nesim;".data, [Char.ofNat 8770, Char.ofNat 824]),
   ("nexist;".data, [Char.ofNat 8708]),
   ("nexists;".data, [Char.ofNat 8708]),
   ("nfr;".data, [Char.ofNat 120107]),
   ("ngE;".data, [Char.ofNat 8807, Char.ofNat 824]),
   ("nge;".data, [Char.ofNat 8817]),
   ("ngeq;".data, [Char.ofNat 8817]),
   ("ngeqq;".data, [Char.ofNat 8807, Char.ofNat 824]),
   ("ngeqslant;".data, [Char.ofNat 10878, Char.ofNat 824]),
   ("nges;".data, [Char.ofNat 10878, Char.ofNat 824]),
   ("ngsim;".data, [Char.ofNat 8821]),
   ("ngt;".data, [Char.ofNat 8815]),
   ("ngtr;".data, [Char.ofNat 8815]),
   ("nhArr;".data, [Char.ofNat 8654]),
   ("nharr;".data, [Char.ofNat 8622]),
   ("nhpar;".data, [Char.ofNat 10994]),
   ("ni;".data, [Char.ofNat 8715]),
   ("nis;".data, [Char.ofNat 8956]),
   ("nisd;".data, [Char.ofNat 8954]),
   ("niv;".data, [Char.ofNat 8715]),
   ("njcy;".data, [Char.ofNat 1114]),
   ("nlArr;".data, [Char.ofNat 8653]),
   ("nlE;".data, [Char.ofNat 8806, Char.ofNat 824]),
   ("nlarr;".data, [Char.ofNat 8602]),
   ("nldr;".data, [Char.ofNat 8229]),
   ("nle;".data, [Char.ofNat 8816]),
   ("nleftarrow;".data, [Char.ofNat 8602]),
   ("nleftrightarrow;".data, [Char.ofNat 8622]),
   ("nleq;".data, [Char.ofNat 8816]),
   ("nleqq;".data, [Char.ofNat 8806, Char.ofNat 824]),
   ("nleqslant;".data, [Char.ofNat 10877, Char.ofNat 824]),
   ("nles;".data, [Char.ofNat 10877, Char.ofNat 824]),
   ("nless;".data, [Char.ofNat 8814]),
   ("nlsim;".data, [Char.ofNat 8820]),
   ("nlt;".data, [Char.ofNat 8814]),
   ("nltri;".data, [Char.ofNat 8938]),
   ("nltrie;".data, [Char.ofNat 8940]),
   ("nmid;".data, [Char.ofNat 8740]),
   ("nopf;".data, [Char.ofNat 120159]),
   ("not".data, [Char.ofNat 172]),
   ("not;".data, [Char.ofNat 172]),
   ("notin;".data, [Char.ofNat 8713]),
   ("notinE;".data, [Char.ofNat 8953, Char.ofNat 824]),
   ("notindot;".data, [Char.ofNat 8949, Char.ofNat 824]),
   ("notinva;".data, [Char.ofNat 8713]),
   ("notinvb;".data, [Char.ofNat 8951]),
   ("notinvc;".data, [Char.ofNat 8950]),
   ("notni;".data, [Char.ofNat 8716]),
   ("notniva;".data, [Char.ofNat 8716]),
   ("notnivb;".data, [Char.ofNat 8958]),
   ("notnivc;".data, [Char.ofNat 8957]),
   ("npar;".data, [Char.ofNat 8742]),
   ("nparallel;".data, [Char.ofNat 8742]),
   ("nparsl;".data, [Char.ofNat 11005, Char.ofNat 8421]),
   ("npart;".data, [Char.ofNat 8706, Char.ofNat 824]),
   ("npolint;".data, [Char.ofNat 10772]),
   ("npr;".data, [Char.ofNat 8832]),
   ("nprcue;".data, [Char.ofNat 8928]),
   ("npre;".data, [Char.ofNat 10927, Char.ofNat 824]),
   ("nprec;".data, [Char.ofNat 8832]),
   ("npreceq;".data, [Char.ofNat 10927, Char.ofNat 824]),
   ("nrArr;".data, [Char.ofNat 8655]),
   ("nrarr;".data, [Char.ofNat 8603]),
   ("nrarrc;".data, [Char.ofNat 10547, Char.ofNat 824]),
   ("nrarrw;".data, [Char.ofNat 8605, Char.ofNat 824]),
   ("nrightarrow;".data, [Char.ofNat 8603]),
   ("nrtri;".data, [Char.ofNat 8939]),
   ("nrtrie;".data, [Char.ofNat 8941]),
   ("nsc;".data, [Char.ofNat 8833]),
   ("nsccue;".data, [Char.ofNat 8929]),
   ("nsce;".data, [Char.ofNat 10928, Char.ofNat 824]),
   ("nscr;".data, [Char.ofNat 120003]),
   ("nshortmid;".data, [Char.ofNat 8740]),
   ("nshortparallel;".data, [Char.ofNat 8742]),
   ("nsim;".data, [Char.ofNat 8769]),
   ("nsime;".data, [Char.ofNat 8772]),
   ("nsimeq;".data, [Char.ofNat 8772]),
   ("nsmid;".data, [Char.ofNat 8740]),
   ("nspar;".data, [Char.ofNat 8742]),
   ("nsqsube;".data, [Char.ofNat 8930]),
   ("nsqsupe;".data, [Char.ofNat 8931]),
   ("nsub;".data, [Char.ofNat 8836]),
   ("nsubE;".data, [Char.ofNat 10949, Char.ofNat 824]),
   ("nsube;".data, [Char.ofNat 8840]),
   ("nsubset;".data, [Char.ofNat 8834, Char.ofNat 8402]),
   ("nsubseteq;".data, [Char.ofNat 8840]),
   ("nsubseteqq;".data, [Char.ofNat 10949, Char.ofNat 824]),
   ("nsucc;".data, [Char.ofNat 8833]),
   ("nsucceq;".data, [Char.ofNat 10928, Char.ofNat 824]),
   ("nsup;".data, [Char.ofNat 8837]),
   ("nsupE;".data, [Char.ofNat 10950, Char.ofNat 824]),
   ("nsupe;".data, [Char.ofNat 8841]),
   ("nsupset;".data, [Char.ofNat 8835, Char.ofNat 8402]),
   ("nsupseteq;".data, [Char.ofNat 8841]),
   ("nsupseteqq;".data, [Char.ofNat 10950, Char.ofNat 824]),
   ("ntgl;".data, [Char.ofNat 8825]),
   ("ntilde".data, [Char.ofNat 241]),
   ("ntilde;".data, [Char.ofNat 241]),
   ("ntlg;".data, [Char.ofNat 8824]),
   ("ntriangleleft;".data, [Char.ofNat 8938]),
   ("ntrianglelefteq;".data, [Char.ofNat 8940]),
   ("ntriangleright;".data, [Char.ofNat 8939]),
   ("ntrianglerighteq;".data, [Char.ofNat 8941]),
   ("nu;".data, [Char.ofNat 957]),
   ("num;".data, [Char.ofNat 35]),
   ("numero;".data, [Char.ofNat 8470]),
   ("numsp;".data, [Char.ofNat 8199]),
   ("nvDash;".data, [Char.ofNat 8877]),
   ("nvHarr;".data, [Char.ofNat 10500]),
   ("nvap;".data, [Char.ofNat 8781, Char.ofNat 8402]),
   ("nvdash;".data, [Char.ofNat 8876]),
   ("nvge;".data, [Char.ofNat 8805, Char.ofNat 8402]),
   ("nvgt;".data, [Char.ofNat 62, Char.ofNat 8402]),
   ("nvinfin;".data, [Char.ofNat 10718]),
   ("nvlArr;".data, [Char.ofNat 10498]),
   ("nvle;".data, [Char.ofNat 8804, Char.ofNat 8402]),
   ("nvlt;".data, [Char.ofNat 60, Char.ofNat 8402]),
   ("nvltrie;".data, [Char.ofNat 8884, Char.ofNat 8402]),
   ("nvrArr;".data, [Char.ofNat 10499]),
   ("nvrtrie;".data, [Char.ofNat 8885, Char.ofNat 8402]),
   ("nvsim;".data, [Char.ofNat 8764, Char.ofNat 8402]),
   ("nwArr;".data, [Char.ofNat 8662]),
   ("nwarhk;".data, [Char.ofNat 10531]),
   ("nwarr;".data, [Char.ofNat 8598]),
   ("nwarrow;".data, [Char.ofNat 8598]),
   ("nwnear;".data, [Char.ofNat 10535]),
   ("oS;".data, [Char.ofNat 9416]),
   ("oacute".data, [Char.ofNat 243]),
   ("oacute;".data, [Char.ofNat 243]),
   ("oast;".data, [Char.ofNat 8859]),
   ("ocir;".data, [Char.ofNat 8858]),
   ("ocirc".data, [Char.ofNat 244]),
   ("ocirc;".data, [Char.ofNat 244]),
   ("ocy;".data, [Char.ofNat 1086]),
   ("odash;".data, [Char.ofNat 8861]),
   ("odblac;".data, [Char.ofNat 337]),
   ("odiv;".data, [Char.ofNat 10808]),
   ("odot;".data, [Char.ofNat 8857]),
   ("odsold;".data, [Char.ofNat 10684]),
   ("oelig;".data, [Char.ofNat 339]),
   ("ofcir;".data, [Char.ofNat 10687]),
   ("ofr;".data, [Char.ofNat 120108]),
   ("ogon;".data, [Char.ofNat 731]),
   ("ograve".data, [Char.ofNat 242]),
   ("ograve;".data, [Char.ofNat 242]),
   ("ogt;".data, [Char.ofNat 10689]),
   ("ohbar;".data, [Char.ofNat 10677]),
   ("ohm;".data, [Char.ofNat 937]),
   ("oint;".data, [Char.ofNat 8750]),
   ("olarr;".data, [Char.ofNat 8634]),
   ("olcir;".data, [Char.ofNat 10686]),
   ("olcross;".data, [Char.ofNat 10683]),
   ("oline;".data, [Char.ofNat 8254]),
   ("olt;".data, [Char.ofNat 10688]),
   ("omacr;".data, [Char.ofNat 333]),
   ("omega;".data, [Char.ofNat 969]),
   ("omicron;".data, [Char.ofNat 959]),
   ("omid;".data, [Char.ofNat 10678]),
   ("ominus;".data, [Char.ofNat 8854]),
   ("oopf;".data, [Char.ofNat 120160]),
   ("opar;".data, [Char.ofNat 10679]),
   ("operp;".data, [Char.ofNat 10681]),
   ("oplus;".data, [Char.ofNat 8853]),
   ("or;".data, [Char.ofNat 8744]),
   ("orarr;".data, [Char.ofNat 8635]),
   ("ord;".data, [Char.ofNat 10845]),
   ("order;".data, [Char.ofNat 8500]),
   ("orderof;".data, [Char.ofNat 8500]),
   ("ordf".data, [Char.ofNat 170]),
   ("ordf;".data, [Char.ofNat 170]),
   ("ordm".data, [Char.ofNat 186]),
   ("ordm;".data, [Char.ofNat 186]),
   ("origof;".data, [Char.ofNat 8886]),
   ("oror;".data, [Char.ofNat 10838]),
   ("orslope;".data, [Char.ofNat 10839]),
   ("orv;".data, [Char.ofNat 10843]),
   ("oscr;".data, [Char.ofNat 8500]),
   ("oslash".data, [Char.ofNat 248]),
   ("oslash;".data, [Char.ofNat 248]),
   ("osol;".data, [Char.ofNat 8856]),
   ("otilde".data, [Char.ofNat 245]),
   ("otilde;".data, [Char.ofNat 245]),
   ("otimes;".data, [Char.ofNat 8855]),
   ("otimesas;".data, [Char.ofNat 10806]),
   ("ouml".data, [Char.ofNat 246]),
   ("ouml;".data, [Char.ofNat 246]),
   ("ovbar;".data, [Char.ofNat 9021]),
   ("par;".data, [Char.ofNat 8741]),
   ("para".data, [Char.ofNat 182]),
   ("para;".data, [Char.ofNat 182]),
   ("parallel;".data, [Char.ofNat 8741]),
   ("parsim;".data, [Char.ofNat 10995]),
   ("parsl;".data, [Char.ofNat 11005]),
   ("part;".data, [Char.ofNat 8706]),
   ("pcy;".data, [Char.ofNat 1087]),
   ("percnt;".data, [Char.ofNat 37]),
   ("period;".data, [Char.ofNat 46]),
   ("permil;".data, [Char.ofNat 8240]),
   ("perp;".data, [Char.ofNat 8869]),
   ("pertenk;".data, [Char.ofNat 8241]),
   ("pfr;".data, [Char.ofNat 120109]),
   ("phi;".data, [Char.ofNat 966]),
   ("phiv;".data, [Char.ofNat 981]),
   ("phmmat;".data, [Char.ofNat 8499]),
   ("phone;".data, [Char.ofNat 9742]),
   ("pi;".data, [Char.ofNat 960]),
   ("pitchfork;".data, [Char.ofNat 8916]),
   ("piv;".data, [Char.ofNat 982]),
   ("planck;".data, [Char.ofNat 8463]),
   ("planckh;".data, [Char.ofNat 8462]),
   ("plankv;".data, [Char.ofNat 8463]),
   ("plus;".data, [Char.ofNat 43]),
   ("plusacir;".data, [Char.ofNat 10787]),
   ("plusb;".data, [Char.ofNat 8862]),
   ("pluscir;".data, [Char.ofNat 10786]),
   ("plusdo;".data, [Char.ofNat 8724]),
   ("plusdu;".data, [Char.ofNat 10789]),
   ("pluse;".data, [Char.ofNat 10866]),
   ("plusmn".data, [Char.ofNat 177]),
   ("plusmn;".data, [Char.ofNat 177]),
   ("plussim;".data, [Char.ofNat 10790]),
   ("plustwo;".data, [Char.ofNat 10791]),
   ("pm;".data, [Char.ofNat 177]),
   ("pointint;".data, [Char.ofNat 10773]),
   ("popf;".data, [Char.ofNat 120161]),
   ("pound".data, [Char.ofNat 163]),
   ("pound;".data, [Char.ofNat 163]),
   ("pr;".data, [Char.ofNat 8826]),
   ("prE;".data, [Char.ofNat 10931]),
   ("prap;".data, [Char.ofNat 10935]),
   ("prcue;".data, [Char.ofNat 8828]),
   ("pre;".data, [Char.ofNat 10927]),
   ("prec;".data, [Char.ofNat 8826]),
   ("precapprox;".data, [Char.ofNat 10935]),
   ("preccurlyeq;".data, [Char.ofNat 8828]),
   ("preceq;".data, [Char.ofNat 10927]),
   ("precnapprox;".data, [Char.ofNat 10937]),
   ("precneqq;".data, [Char.ofNat 10933]),
   ("precnsim;".data, [Char.ofNat 8936]),
   ("precsim;".data, [Char.ofNat 8830]),
   ("prime;".data, [Char.ofNat 8242]),
   ("primes;".data, [Char.ofNat 8473]),
   ("prnE;".data, [Char.ofNat 10933]),
   ("prnap;".data, [Char.ofNat 10937]),
   ("prnsim;".data, [Char.ofNat 8936]),
   ("prod;".data, [Char.ofNat 8719]),
   ("profalar;".data, [Char.ofNat 9006]),
   ("profline;".data, [Char.ofNat 8978]),
   ("profsurf;".data, [Char.ofNat 8979]),
   ("prop;".data, [Char.ofNat 8733]),
   ("propto;".data, [Char.ofNat 8733]),
   ("prsim;".data, [Char.ofNat 8830]),
   ("prurel;".data, [Char.ofNat 8880]),
   ("pscr;".data, [Char.ofNat 120005]),
   ("psi;".data, [Char.ofNat 968]),
   ("puncsp;".data, [Char.ofNat 8200]),
   ("qfr;".data, [Char.ofNat 120110]),
   ("qint;".data, [Char.ofNat 10764]),
   ("qopf;".data, [Char.ofNat 120162]),
   ("qprime;".data, [Char.ofNat 8279]),
   ("qscr;".data, [Char.ofNat 120006]),
   ("quaternions;".data, [Char.ofNat 8461]),
   ("quatint;".data, [Char.ofNat 10774]),
   ("quest;".data, [Char.ofNat 63]),
   ("questeq;".data, [Char.ofNat 8799]),
   ("quot".data, [Char.ofNat 34]),
   ("quot;".data, [Char.ofNat 34]),
   ("rAarr;".data, [Char.ofNat 8667]),
   ("rArr;".data, [Char.ofNat 8658]),
   ("rAtail;".data, [Char.ofNat 10524]),
   ("rBarr;".data, [Char.ofNat 10511]),
   ("rHar;".data, [Char.ofNat 10596]),
   ("race;".data, [Char.ofNat 8765, Char.ofNat 817]),
   ("racute;".data, [Char.ofNat 341]),
   ("radic;".data, [Char.ofNat 8730]),
   ("raemptyv;".data, [Char.ofNat 10675]),
   ("rang;".data, [Char.ofNat 10217]),
   ("rangd;".data, [Char.ofNat 10642]),
   ("range;".data, [Char.ofNat 10661]),
   ("rangle;".data, [Char.ofNat 10217]),
   ("raquo".data, [Char.ofNat 187]),
   ("raquo;".data, [Char.ofNat 187]),
   ("rarr;".data, [Char.ofNat 8594]),
   ("rarrap;".data, [Char.ofNat 10613]),
   ("rarrb;".data, [Char.ofNat 8677]),
   ("rarrbfs;".data, [Char.ofNat 10528]),
   ("rarrc;".data, [Char.ofNat 10547]),
   ("rarrfs;".data, [Char.ofNat 10526]),
   ("rarrhk;".data, [Char.ofNat 8618]),
   ("rarrlp;".data, [Char.ofNat 8620]),
   ("rarrpl;".data, [Char.ofNat 10565]),
   ("rarrsim;".data, [Char.ofNat 10612]),
   ("rarrtl;".data, [Char.ofNat 8611]),
   ("rarrw;".data, [Char.ofNat 8605]),
   ("ratail;".data, [Char.ofNat 10522]),
   ("ratio;".data, [Char.ofNat 8758]),
   ("rationals;".data, [Char.ofNat 8474]),
   ("rbarr;".data, [Char.ofNat 10509]),
   ("rbbrk;".data, [Char.ofNat 10099]),
   ("rbrace;".data, [Char.ofNat 125]),
   ("rbrack;".data, [Char.ofNat 93]),
   ("rbrke;".data, [Char.ofNat 10636]),
   ("rbrksld;".data, [Char.ofNat 10638]),
   ("rbrkslu;".data, [Char.ofNat 10640]),
   ("rcaron;".data, [Char.ofNat 345]),
   ("rcedil;".data, [Char.ofNat 343]),
   ("rceil;".data, [Char.ofNat 8969]),
   ("rcub;".data, [Char.ofNat 125]),
   ("rcy;".data, [Char.ofNat 1088]),
   ("rdca;".data, [Char.ofNat 10551]),
   ("rdldhar;".data, [Char.ofNat 10601]),
   ("rdquo;".data, [Char.ofNat 8221]),
   ("rdquor;".data, [Char.ofNat 8221]),
   ("rdsh;".data, [Char.ofNat 8627]),
   ("real;".data, [Char.ofNat 8476]),
   ("realine;".data, [Char.ofNat 8475]),
   ("realpart;".data, [Char.ofNat 8476]),
   ("reals;".data, [Char.ofNat 8477]),
   ("rect;".data, [Char.ofNat 9645]),
   ("reg".data, [Char.ofNat 174]),
   ("reg;".data, [Char.ofNat 174]),
   ("rfisht;".data, [Char.ofNat 10621]),
   ("rfloor;".data, [Char.ofNat 8971]),
   ("rfr;".data, [Char.ofNat 120111]),
   ("rhard;".data, [Char.ofNat 8641]),
   ("rharu;".data, [Char.ofNat 8640]),
   ("rharul;".data, [Char.ofNat 10604]),
   ("rho;".data, [Char.ofNat 961]),
   ("rhov;".data, [Char.ofNat 1009]),
   ("rightarrow;".data, [Char.ofNat 8594]),
   ("rightarrowtail;".data, [Char.ofNat 8611]),
   ("rightharpoondown;".data, [Char.ofNat 8641]),
   ("rightharpoonup;".data, [Char.ofNat 8640]),
   ("rightleftarrows;".data, [Char.ofNat 8644]),
   ("rightleftharpoons;".data, [Char.ofNat 8652]),
   ("rightrightarrows;".data, [Char.ofNat 8649]),
   ("rightsquigarrow;".data, [Char.ofNat 8605]),
   ("rightthreetimes;".data, [Char.ofNat 8908]),
   ("ring;".data, [Char.ofNat 730]),
   ("risingdotseq;".data, [Char.ofNat 8787]),
   ("rlarr;".data, [Char.ofNat 8644]),
   ("rlhar;".data, [Char.ofNat 8652]),
   ("rlm;".data, [Char.ofNat 8207]),
   ("rmoust;".data, [Char.ofNat 9137]),
   ("rmoustache;".data, [Char.ofNat 9137]),
   ("rnmid;".data, [Char.ofNat 10990]),
   ("roang;".data, [Char.ofNat 10221]),
   ("roarr;".data, [Char.ofNat 8702]),
   ("robrk;".data, [Char.ofNat 10215]),
   ("ropar;".data, [Char.ofNat 10630]),
   ("ropf;".data, [Char.ofNat 120163]),
   ("roplus;".data, [Char.ofNat 10798]),
   ("rotimes;".data, [Char.ofNat 10805]),
   ("rpar;".data, [Char.ofNat 41]),
   ("rpargt;".data, [Char.ofNat 10644]),
   ("rppolint;".data, [Char.ofNat 10770]),
   ("rrarr;".data, [Char.ofNat 8649]),
   ("rsaquo;".data, [Char.ofNat 8250]),
   ("rscr;".data, [Char.ofNat 120007]),
   ("rsh;".data, [Char.ofNat 8625]),
   ("rsqb;".data, [Char.ofNat 93]),
   ("rsquo;".data, [Char.ofNat 8217]),
   ("rsquor;".data, [Char.ofNat 8217]),
   ("rthree;".data, [Char.ofNat 8908]),
   ("rtimes;".data, [Char.ofNat 8906]),
   ("rtri;".data, [Char.ofNat 9657]),
   ("rtrie;".data, [Char.ofNat 8885]),
   ("rtrif;".data, [Char.ofNat 9656]),
   ("rtriltri;".data, [Char.ofNat 10702]),
   ("ruluhar;".data, [Char.ofNat 10600]),
   ("rx;".data, [Char.ofNat 8478]),
   ("sacute;".data, [Char.ofNat 347]),
   ("sbquo;".data, [Char.ofNat 8218]),
   ("sc;".data, [Char.ofNat 8827]),
   ("scE;".data, [Char.ofNat 10932]),
   ("scap;".data, [Char.ofNat 10936]),
   ("scaron;".data, [Char.ofNat 353]),
   ("sccue;".data, [Char.ofNat 8829]),
   ("sce;".data, [Char.ofNat 10928]),
   ("scedil;".data, [Char.ofNat 351]),
   ("scirc;".data, [Char.ofNat 349]),
   ("scnE;".data, [Char.ofNat 10934]),
   ("scnap;".data, [Char.ofNat 10938]),
   ("scnsim;".data, [Char.ofNat 8937]),
   ("scpolint;".data, [Char.ofNat 10771]),
   ("scsim;".data, [Char.ofNat 8831]),
   ("scy;".data, [Char.ofNat 1089]),
   ("sdot;".data, [Char.ofNat 8901]),
   ("sdotb;".data, [Char.ofNat 8865]),
   ("sdote;".data, [Char.ofNat 10854]),
   ("seArr;".data, [Char.ofNat 8664]),
   ("searhk;".data, [Char.ofNat 10533]),
   ("searr;".data, [Char.ofNat 8600]),
   ("searrow;".data, [Char.ofNat 8600]),
   ("sect".data, [Char.ofNat 167]),
   ("sect;".data, [Char.ofNat 167]),
   ("semi;".data, [Char.ofNat 59]),
   ("seswar;".data, [Char.ofNat 10537]),
   ("setminus;".data, [Char.ofNat 8726]),
   ("setmn;".data, [Char.ofNat 8726]),
   ("sext;".data, [Char.ofNat 10038]),
   ("sfr;".data, [Char.ofNat 120112]),
   ("sfrown;".data, [Char.ofNat 8994]),
   ("sharp;".data, [Char.ofNat 9839]),
   ("shchcy;".data, [Char.ofNat 1097]),
   ("shcy;".data, [Char.ofNat 1096]),
   ("shortmid;".data, [Char.ofNat 8739]),
   ("shortparallel;".data, [Char.ofNat 8741]),
   ("shy".data, [Char.ofNat 173]),
   ("shy;".data, [Char.ofNat 173]),
   ("sigma;".data, [Char.ofNat 963]),
   ("sigmaf;".data, [Char.ofNat 962]),
   ("sigmav;".data, [Char.ofNat 962]),
   ("sim;".data, [Char.ofNat 8764]),
   ("simdot;".data, [Char.ofNat 10858]),
   ("sime;".data, [Char.ofNat 8771]),
   ("simeq;".data, [Char.ofNat 8771]),
   ("simg;".data, [Char.ofNat 10910]),
   ("simgE;".data, [Char.ofNat 10912]),
   ("siml;".data, [Char.ofNat 10909]),
   ("simlE;".data, [Char.ofNat 10911]),
   ("simne;".data, [Char.ofNat 8774]),
   ("simplus;".data, [Char.ofNat 10788]),
   ("simrarr;".data, [Char.ofNat 10610]),
   ("slarr;".data, [Char.ofNat 8592]),
   ("smallsetminus;".data, [Char.ofNat 8726]),
   ("smashp;".data, [Char.ofNat 10803]),
   ("smeparsl;".data, [Char.ofNat 10724]),
   ("smid;".data, [Char.ofNat 8739]),
   ("smile;".data, [Char.ofNat 8995]),
   ("smt;".data, [Char.ofNat 10922]),
   ("smte;".data, [Char.ofNat 10924]),
   ("smtes;".data, [Char.ofNat 10924, Char.ofNat 65024]),
   ("softcy;".data, [Char.ofNat 1100]),
   ("sol;".data, [Char.ofNat 47]),
   ("solb;".data, [Char.ofNat 10692]),
   ("solbar;".data, [Char.ofNat 9023]),
   ("sopf;".data, [Char.ofNat 120164]),
   ("spades;".data, [Char.ofNat 9824]),
   ("spadesuit;".data, [Char.ofNat 9824]),
   ("spar;".data, [Char.ofNat 8741]),
   ("sqcap;".data, [Char.ofNat 8851]),
   ("sqcaps;".data, [Char.ofNat 8851, Char.ofNat 65024]),
   ("sqcup;".data, [Char.ofNat 8852]),
   ("sqcups;".data, [Char.ofNat 8852, Char.ofNat 65024]),
   ("sqsub;".data, [Char.ofNat 8847]),
   ("sqsube;".data, [Char.ofNat 8849]),
   ("sqsubset;".data, [Char.ofNat 8847]),
   ("sqsubseteq;".data, [Char.ofNat 8849]),
   ("sqsup;".data, [Char.ofNat 8848]),
   ("sqsupe;".data, [Char.ofNat 8850]),
   ("sqsupset;".data, [Char.ofNat 8848]),
   ("sqsupseteq;".data, [Char.ofNat 8850]),
   ("squ;".data, [Char.ofNat 9633]),
   ("square;".data, [Char.ofNat 9633]),
   ("squarf;".data, [Char.ofNat 9642]),
   ("squf;".data, [Char.ofNat 9642]),
   ("srarr;".data, [Char.ofNat 8594]),
   ("sscr;".data, [Char.ofNat 120008]),
   ("ssetmn;".data, [Char.ofNat 8726]),
   ("ssmile;".data, [Char.ofNat 8995]),
   ("sstarf;".data, [Char.ofNat 8902]),
   ("star;".data, [Char.ofNat 9734]),
   ("starf;".data, [Char.ofNat 9733]),
   ("straightepsilon;".data, [Char.ofNat 1013]),
   ("straightphi;".data, [Char.ofNat 981]),
   ("strns;".data, [Char.ofNat 175]),
   ("sub;".data, [Char.ofNat 8834]),
   ("subE;".data, [Char.ofNat 10949]),
   ("subdot;".data, [Char.ofNat 10941]),
   ("sube;".data, [Char.ofNat 8838]),
   ("subedot;".data, [Char.ofNat 10947]),
   ("submult;".data, [Char.ofNat 10945]),
   ("subnE;".data, [Char.ofNat 10955]),
   ("subne;".data, [Char.ofNat 8842]),
   ("subplus;".data, [Char.ofNat 10943]),
   ("subrarr;".data, [Char.ofNat 10617]),
   ("subset;".data, [Char.ofNat 8834]),
   ("subseteq;".data, [Char.ofNat 8838]),
   ("subseteqq;".data, [Char.ofNat 10949]),
   ("subsetneq;".data, [Char.ofNat 8842]),
   ("subsetneqq;".data, [Char.ofNat 10955]),
   ("subsim;".data, [Char.ofNat 10951]),
   ("subsub;".data, [Char.ofNat 10965]),
   ("subsup;".data, [Char.ofNat 10963]),
   ("succ;".data, [Char.ofNat 8827]),
   ("succapprox;".data, [Char.ofNat 10936]),
   ("succcurlyeq;".data, [Char.ofNat 8829]),
   ("succeq;".data, [Char.ofNat 10928]),
   ("succnapprox;".data, [Char.ofNat 10938]),
   ("succneqq;".data, [Char.ofNat 10934]),
   ("succnsim;".data, [Char.ofNat 8937]),
   ("succsim;".data, [Char.ofNat 8831]),
   ("sum;".data, [Char.ofNat 8721]),
   ("sung;".data, [Char.ofNat 9834]),
   ("sup1".data, [Char.ofNat 185]),
   ("sup1;".data, [Char.ofNat 185]),
   ("sup2".data, [Char.ofNat 178]),
   ("sup2;".data, [Char.ofNat 178]),
   ("sup3".data, [Char.ofNat 179]),
   ("sup3;".data, [Char.ofNat 179]),
   ("sup;".data, [Char.ofNat 8835]),
   ("supE;".data, [Char.ofNat 10950]),
   ("supdot;".data, [Char.ofNat 10942]),
   ("supdsub;".data, [Char.ofNat 10968]),
   ("supe;".data, [Char.ofNat 8839]),
   ("supedot;".data, [Char.ofNat 10948]),
   ("suphsol;".data, [Char.ofNat 10185]),
   ("suphsub;".data, [Char.ofNat 10967]),
   ("suplarr;".data, [Char.ofNat 10619]),
   ("supmult;".data, [Char.ofNat 10946]),
   ("supnE;".data, [Char.ofNat 10956]),
   ("supne;".data, [Char.ofNat 8843]),
   ("supplus;".data, [Char.ofNat 10944]),
   ("supset;".data, [Char.ofNat 8835]),
   ("supseteq;".data, [Char.ofNat 8839]),
   ("supseteqq;".data, [Char.ofNat 10950]),
   ("supsetneq;".data, [Char.ofNat 8843]),
   ("supsetneqq;".data, [Char.ofNat 10956]),
   ("supsim;".data, [Char.ofNat 10952]),
   ("supsub;".data, [Char.ofNat 10964]),
   ("supsup;".data, [Char.ofNat 10966]),
   ("swArr;".data, [Char.ofNat 8665]),
   ("swarhk;".data, [Char.ofNat 10534]),
   ("swarr;".data, [Char.ofNat 8601]),
   ("swarrow;".data, [Char.ofNat 8601]),
   ("swnwar;".data, [Char.ofNat 10538]),
   ("szlig".data, [Char.ofNat 223]),
   ("szlig;".data, [Char.ofNat 223]),
   ("target;".data, [Char.ofNat 8982]),
   ("tau;".data, [Char.ofNat 964]),
   ("tbrk;".data, [Char.ofNat 9140]),
   ("tcaron;".data, [Char.ofNat 357]),
   ("tcedil;".data, [Char.ofNat 355]),
   ("tcy;".data, [Char.ofNat 1090]),
   ("tdot;".data, [Char.ofNat 8411]),
   ("telrec;".data, [Char.ofNat 8981]),
   ("tfr;".data, [Char.ofNat 120113]),
   ("there4;".data, [Char.ofNat 8756]),
   ("therefore;".data, [Char.ofNat 8756]),
   ("theta;".data, [Char.ofNat 952]),
   ("thetasym;".data, [Char.ofNat 977]),
   ("thetav;".data, [Char.ofNat 977]),
   ("thickapprox;".data, [Char.ofNat 8776]),
   ("thicksim;".data, [Char.ofNat 8764]),
   ("thinsp;".data, [Char.ofNat 8201]),
   ("thkap;".data, [Char.ofNat 8776]),
   ("thksim;".data, [Char.ofNat 8764]),
   ("thorn".data, [Char.ofNat 254]),
   ("thorn;".data, [Char.ofNat 254]),
   ("tilde;".data, [Char.ofNat 732]),
   ("times".data, [Char.ofNat 215]),
   ("times;".data, [Char.ofNat 215]),
   ("timesb;".data, [Char.ofNat 8864]),
   ("timesbar;".data, [Char.ofNat 10801]),
   ("timesd;".data, [Char.ofNat 10800]),
   ("tint;".data, [Char.ofNat 8749]),
   ("toea;".data, [Char.ofNat 10536]),
   ("top;".data, [Char.ofNat 8868]),
   ("topbot;".data, [Char.ofNat 9014]),
   ("topcir;".data, [Char.ofNat 10993]),
   ("topf;".data, [Char.ofNat 120165]),
   ("topfork;".data, [Char.ofNat 10970]),
   ("tosa;".data, [Char.ofNat 10537]),
   ("tprime;".data, [Char.ofNat 8244]),
   ("trade;".data, [Char.ofNat 8482]),
   ("triangle;".data, [Char.ofNat 9653]),
   ("triangledown;".data, [Char.ofNat 9663]),
   ("triangleleft;".data, [Char.ofNat 9667]),
   ("trianglelefteq;".data, [Char.ofNat 8884]),
   ("triangleq;".data, [Char.ofNat 8796]),
   ("triangleright;".data, [Char.ofNat 9657]),
   ("trianglerighteq;".data, [Char.ofNat 8885]),
   ("tridot;".data, [Char.ofNat 9708]),
   ("trie;".data, [Char.ofNat 8796]),
   ("triminus;".data, [Char.ofNat 10810]),
   ("triplus;".data, [Char.ofNat 10809]),
   ("trisb;".data, [Char.ofNat 10701]),
   ("tritime;".data, [Char.ofNat 10811]),
   ("trpezium;".data, [Char.ofNat 9186]),
   ("tscr;".data, [Char.ofNat 120009]),
   ("tscy;".data, [Char.ofNat 1094]),
   ("tshcy;".data, [Char.ofNat 1115]),
   ("tstrok;".data, [Char.ofNat 359]),
   ("twixt;".data, [Char.ofNat 8812]),
   ("twoheadleftarrow;".data, [Char.ofNat 8606]),
   ("twoheadrightarrow;".data, [Char.ofNat 8608]),
   ("uArr;".data, [Char.ofNat 8657]),
   ("uHar;".data, [Char.ofNat 10595]),
   ("uacute".data, [Char.ofNat 250]),
   ("uacute;".data, [Char.ofNat 250]),
   ("uarr;".data, [Char.ofNat 8593]),
   ("ubrcy;".data, [Char.ofNat 1118]),
   ("ubreve;".data, [Char.ofNat 365]),
   ("ucirc".data, [Char.ofNat 251]),
   ("ucirc;".data, [Char.ofNat 251]),
   ("ucy;".data, [Char.ofNat 1091]),
   ("udarr;".data, [Char.ofNat 8645]),
   ("udblac;".data, [Char.ofNat 369]),
   ("udhar;".data, [Char.ofNat 10606]),
   ("ufisht;".data, [Char.ofNat 10622]),
   ("ufr;".data, [Char.ofNat 120114]),
   ("ugrave".data, [Char.ofNat 249]),
   ("ugrave;".data, [Char.ofNat 249]),
   ("uharl;".data, [Char.ofNat 8639]),
   ("uharr;".data, [Char.ofNat 8638]),
   ("uhblk;".data, [Char.ofNat 9600]),
   ("ulcorn;".data, [Char.ofNat 8988]),
   ("ulcorner;".data, [Char.ofNat 8988]),
   ("ulcrop;".data, [Char.ofNat 8975]),
   ("ultri;".data, [Char.ofNat 9720]),
   ("umacr;".data, [Char.ofNat 363]),
   ("uml".data, [Char.ofNat 168]),
   ("uml;".data, [Char.ofNat 168]),
   ("uogon;".data, [Char.ofNat 371]),
   ("uopf;".data, [Char.ofNat 120166]),
   ("uparrow;".data, [Char.ofNat 8593]),
   ("updownarrow;".data, [Char.ofNat 8597]),
   ("upharpoonleft;".data, [Char.ofNat 8639]),
   ("upharpoonright;".data, [Char.ofNat 8638]),
   ("uplus;".data, [Char.ofNat 8846]),
   ("upsi;".data, [Char.ofNat 965]),
   ("upsih;".data, [Char.ofNat 978]),
   ("upsilon;".data, [Char.ofNat 965]),
   ("upuparrows;".data, [Char.ofNat 8648]),
   ("urcorn;".data, [Char.ofNat 8989]),
   ("urcorner;".data, [Char.ofNat 8989]),
   ("urcrop;".data, [Char.ofNat 8974]),
   ("uring;".data, [Char.ofNat 367]),
   ("urtri;".data, [Char.ofNat 9721]),
   ("uscr;".data, [Char.ofNat 120010]),
   ("utdot;".data, [Char.ofNat 8944]),
   ("utilde;".data, [Char.ofNat 361]),
   ("utri;".data, [Char.ofNat 9653]),
   ("utrif;".data, [Char.ofNat 9652]),
   ("uuarr;".data, [Char.ofNat 8648]),
   ("uuml".data, [Char.ofNat 252]),
   ("uuml;".data, [Char.ofNat 252]),
   ("uwangle;".data, [Char.ofNat 10663]),
   ("vArr;".data, [Char.ofNat 8661]),
   ("vBar;".data, [Char.ofNat 10984]),
   ("vBarv;".data, [Char.ofNat 10985]),
   ("vDash;".data, [Char.ofNat 8872]),
   ("vangrt;".data, [Char.ofNat 10652]),
   ("varepsilon;".data, [Char.ofNat 1013]),
   ("varkappa;".data, [Char.ofNat 1008]),
   ("varnothing;".data, [Char.ofNat 8709]),
   ("varphi;".data, [Char.ofNat 981]),
   ("varpi;".data, [Char.ofNat 982]),
   ("varpropto;".data, [Char.ofNat 8733]),
   ("varr;".data, [Char.ofNat 8597]),
   ("varrho;".data, [Char.ofNat 1009]),
   ("varsigma;".data, [Char.ofNat 962]),
   ("varsubsetneq;".data, [Char.ofNat 8842, Char.ofNat 65024]),
   ("varsubsetneqq;".data, [Char.ofNat 10955, Char.ofNat 65024]),
   ("varsupsetneq;".data, [Char.ofNat 8843, Char.ofNat 65024]),
   ("varsupsetneqq;".data, [Char.ofNat 10956, Char.ofNat 65024]),
   ("vartheta;".data, [Char.ofNat 977]),
   ("vartriangleleft;".data, [Char.ofNat 8882]),
   ("vartriangleright;".data, [Char.ofNat 8883]),
   ("vcy;".data, [Char.ofNat 1074]),
   ("vdash;".data, [Char.ofNat 8866]),
   ("vee;".data, [Char.ofNat 8744]),
   ("veebar;".data, [Char.ofNat 8891]),
   ("veeeq;".data, [Char.ofNat 8794]),
   ("vellip;".data, [Char.ofNat 8942]),
   ("verbar;".data, [Char.ofNat 124]),
   ("vert;".data, [Char.ofNat 124]),
   ("vfr;".data, [Char.ofNat 120115]),
   ("vltri;".data, [Char.ofNat 8882]),
   ("vnsub;".data, [Char.ofNat 8834, Char.ofNat 8402]),
   ("vnsup;".data, [Char.ofNat 8835, Char.ofNat 8402]),
   ("vopf;".data, [Char.ofNat 120167]),
   ("vprop;".data, [Char.ofNat 8733]),
   ("vrtri;".data, [Char.ofNat 8883]),
   ("vscr;".data, [Char.ofNat 120011]),
   ("vsubnE;".data, [Char.ofNat 10955, Char.ofNat 65024]),
   ("vsubne;".data, [Char.ofNat 8842, Char.ofNat 65024]),
   ("vsupnE;".data, [Char.ofNat 10956, Char.ofNat 65024]),
   ("vsupne;".data, [Char.ofNat 8843, Char.ofNat 65024]),
   ("vzigzag;".data, [Char.ofNat 10650]),
   ("wcirc;".data, [Char.ofNat 373]),
   ("wedbar;".data, [Char.ofNat 10847]),
   ("wedge;".data, [Char.ofNat 8743]),
   ("wedgeq;".data, [Char.ofNat 8793]),
   ("weierp;".data, [Char.ofNat 8472]),
   ("wfr;".data, [Char.ofNat 120116]),
   ("wopf;".data, [Char.ofNat 120168]),
   ("wp;".data, [Char.ofNat 8472]),
   ("wr;".data, [Char.ofNat 8768]),
   ("wreath;".data, [Char.ofNat 8768]),
   ("wscr;".data, [Char.ofNat 120012]),
   ("xcap;".data, [Char.ofNat 8898]),
   ("xcirc;".data, [Char.ofNat 9711]),
   ("xcup;".data, [Char.ofNat 8899]),
   ("xdtri;".data, [Char.ofNat 9661]),
   ("xfr;".data, [Char.ofNat 120117]),
   ("xhArr;".data, [Char.ofNat 10234]),
   ("xharr;".data, [Char.ofNat 10231]),
   ("xi;".data, [Char.ofNat 958]),
   ("xlArr;".data, [Char.ofNat 10232]),
   ("xlarr;".data, [Char.ofNat 10229]),
   ("xmap;".data, [Char.ofNat 10236]),
   ("xnis;".data, [Char.ofNat 8955]),
   ("xodot;".data, [Char.ofNat 10752]),
   ("xopf;".data, [Char.ofNat 120169]),
   ("xoplus;".data, [Char.ofNat 10753]),
   ("xotime;".data, [Char.ofNat 10754]),
   ("xrArr;".data, [Char.ofNat 10233]),
   ("xrarr;".data, [Char.ofNat 10230]),
   ("xscr;".data, [Char.ofNat 120013]),
   ("xsqcup;".data, [Char.ofNat 10758]),
   ("xuplus;".data, [Char.ofNat 10756]),
   ("xutri;".data, [Char.ofNat 9651]),
   ("xvee;".data, [Char.ofNat 8897]),
   ("xwedge;".data, [Char.ofNat 8896]),
   ("yacute".data, [Char.ofNat 253]),
   ("yacute;".data, [Char.ofNat 253]),
   ("yacy;".data, [Char.ofNat 1103]),
   ("ycirc;".data, [Char.ofNat 375]),
   ("ycy;".data, [Char.ofNat 1099]),
   ("yen".data, [Char.ofNat 165]),
   ("yen;".data, [Char.ofNat 165]),
   ("yfr;".data, [Char.ofNat 120118]),
   ("yicy;".data, [Char.ofNat 1111]),
   ("yopf;".data, [Char.ofNat 120170]),
   ("yscr;".data, [Char.ofNat 120014]),
   ("yucy;".data, [Char.ofNat 1102]),
   ("yuml".data, [Char.ofNat 255]),
   ("yuml;".data, [Char.ofNat 255]),
   ("zacute;".data, [Char.ofNat 378]),
   ("zcaron;".data, [Char.ofNat 382]),
   ("zcy;".data, [Char.ofNat 1079]),
   ("zdot;".data, [Char.ofNat 380]),
   ("zeetrf;".data, [Char.ofNat 8488]),
   ("zeta;".data, [Char.ofNat 950]),
   ("zfr;".data, [Char.ofNat 120119]),
   ("zhcy;".data, [Char.ofNat 1078]),
   ("zigrarr;".data, [Char.ofNat 8669]),
   ("zopf;".data, [Char.ofNat 120171]),
   ("zscr;".data, [Char.ofNat 120015]),
   ("zwj;".data, [Char.ofNat 8205]),
   ("zwnj;".data, [Char.ofNat 8204])]

/-- `html._invalid_charrefs`: numeric references remapped to Windows-1252
(and NUL to U+FFFD, 0x0D to CR). -/
def invalidCharrefs : List (Nat × Str) :=
  [(0, [Char.ofNat 65533]),
   (13, [Char.ofNat 13]),
   (128, [Char.ofNat 8364]),
   (129, [Char.ofNat 129]),
   (130, [Char.ofNat 8218]),
   (131, [Char.ofNat 402]),
   (132, [Char.ofNat 8222]),
   (133, [Char.ofNat 8230]),
   (134, [Char.ofNat 8224]),
   (135, [Char.ofNat 8225]),
   (136, [Char.ofNat 710]),
   (137, [Char.ofNat 8240]),
   (138, [Char.ofNat 352]),
   (139, [Char.ofNat 8249]),
   (140, [Char.ofNat 338]),
   (141, [Char.ofNat 141]),
   (142, [Char.ofNat 381]),
   (143, [Char.ofNat 143]),
   (144, [Char.ofNat 144]),
   (145, [Char.ofNat 8216]),
   (146, [Char.ofNat 8217]),
   (147, [Char.ofNat 8220]),
   (148, [Char.ofNat 8221]),
   (149, [Char.ofNat 8226]),
   (150, [Char.ofNat 8211]),
   (151, [Char.ofNat 8212]),
   (152, [Char.ofNat 732]),
   (153, [Char.ofNat 8482]),
   (154, [Char.ofNat 353]),
   (155, [Char.ofNat 8250]),
   (156, [Char.ofNat 339]),
   (157, [Char.ofNat 157]),
   (158, [Char.ofNat 382]),
   (159, [Char.ofNat 376])]

/-- `html._invalid_codepoints` (written as the ranges the set enumerates:
C0 controls other than HT/LF/FF/CR, DEL and the C1 range, the
`U+FDD0`–`U+FDEF` noncharacters, and the two trailing noncharacters of each
plane). -/
def isInvalidCodepoint (n : Nat) : Bool :=
  (decide (1 ≤ n) && decide (n ≤ 8)) || decide (n = 0xb) ||
  (decide (0xe ≤ n) && decide (n ≤ 0x1f)) ||
  (decide (0x7f ≤ n) && decide (n ≤ 0x9f)) ||
  (decide (0xfdd0 ≤ n) && decide (n ≤ 0xfdef)) ||
  decide (n % 0x10000 = 0xfffe) || decide (n % 0x10000 = 0xffff)

/-- Numeric character reference, per `html._replace_charref`: the
`_invalid_charrefs` remapping first, then surrogates and out-of-range code
points to U+FFFD, `_invalid_codepoints` to the empty string, otherwise the
code point itself. -/
def charrefStr (n : Nat) : Str :=
  match invalidCharrefs.find? (fun pr => pr.1 == n) with
  | some pr => pr.2
  | none =>
    if (decide (0xD800 ≤ n) && decide (n ≤ 0xDFFF)) || decide (n > 0x10FFFF) then
      [replChar]
    else if isInvalidCodepoint n then []
    else [Char.ofNat n]

/-- The longest table name that prefixes `t`.  the named branch of `html._replace_charref`
named branch (exact candidate lookup, else longest matching name) reduces
to this: the regex candidate is the maximal run of name characters plus an
optional `;`, every table name that prefixes `t` also prefixes that
candidate, and the exact-match case is just the longest such prefix. -/
def namedLookup (t : Str) : Option (Str × Str) :=
  namedCharrefs.foldl
    (fun best pr =>
      if startsWithL t pr.1 then
        match best with
        | some b => if decide (b.1.length < pr.1.length) then some pr else best
        | none => some pr
      else best)
    none

/-- Try to parse one character reference right after a `&`; returns the
replacement and the remaining input. -/
def parseCharref (t : Str) : Option (Str × Str) :=
  match t with
  | '#' :: rest =>
    (match rest with
     | x :: rest2 =>
       if x = 'x' ∨ x = 'X' then
         let ds := rest2.takeWhile isHexDigit
         if ds.isEmpty then none
         else
           let rest3 := rest2.drop ds.length
           let rest4 := if startsWithL rest3 ";".data then rest3.tail else rest3
           some (charrefStr (ds.foldl (fun a c => a * 16 + hexVal c) 0), rest4)
       else
         let ds := rest.takeWhile isAsciiDigit
         if ds.isEmpty then none
         else
           let rest3 := rest.drop ds.length
           let rest4 := if startsWithL rest3 ";".data then rest3.tail else rest3
           some (charrefStr (ds.foldl (fun a c => a * 10 + hexVal c) 0), rest4)
     | [] => none)
  | _ =>
    match namedLookup t with
    | some pr => some (pr.2, t.drop pr.1.length)
    | none => none

/-- `html.unescape(s)` (fuel-driven scanner; each step consumes at least one
character, so `length + 1` fuel always suffices). -/
def htmlUnescapeAux : Nat → Str → Str
  | 0, l => l
  | _ + 1, [] => []
  | fuel + 1, c :: t =>
    if c = '&' then
      match parseCharref t with
      | some (rep, rest) => rep ++ htmlUnescapeAux fuel rest
      | none => '&' :: htmlUnescapeAux fuel t
    else c :: htmlUnescapeAux fuel t

def htmlUnescape (s : Str) : Str :=
  htmlUnescapeAux (s.length + 1) s

/-! ## `_normalize_href` (scripts/generate_report.py:1078) -/

/-- The smart quotes/backtick set stripped from both ends:
`s.strip('“”‘’"`' + '`')` in the source. -/
def smartQuoteSet : List Char :=
  ['“', '”', '‘', '’', '"', '`']

/-- Trailing prose punctuation removed by the `while` loop. -/
def trailPunctSet : List Char :=
  [',', '.', ')', ';', ']', '»', '"', '’', '”']

def dropTrailPunct (s : Str) : Str :=
  (s.reverse.dropWhile (· ∈ trailPunctSet)).reverse

/-- Steps 1–3 of `_normalize_href`: `html.unescape(raw.strip())`, strip
surrounding smart quotes/backticks, drop trailing prose punctuation. -/
def hrefClean (raw : Str) : Str :=
  dropTrailPunct (stripChars smartQuoteSet (htmlUnescape (stripPy raw)))

/-- Character class `[A-Za-z0-9.-]` of the bare-domain pattern. -/
def isDomChar (c : Char) : Bool :=
  isAsciiAlnum c || c = '.' || c = '-'

/-- `re.match(r"^[A-Za-z0-9.-]+\.[A-Za-z]{2,}(/.*)?$", s)`: the `$` may sit
before one final newline; `.` never matches a newline. -/
def bareDomainMatch (s : Str) : Bool :=
  let t := match s.getLast? with
    | some '\n' => s.dropLast
    | _ => s
  (List.range t.length).any fun i =>
    let a := t.take i
    let rest := t.drop i
    decide (1 ≤ i) && a.all isDomChar &&
      (match rest with
       | '.' :: r =>
         let b := r.takeWhile isAsciiAlpha
         let cpart := r.drop b.length
         decide (2 ≤ b.length) &&
           (cpart.isEmpty || (startsWithL cpart "/".data && !cpart.contains '\n'))
       | _ => false)

/-- `re.match(r"^[a-zA-Z][a-zA-Z0-9+.-]*:", s)`. -/
def schemeLikeMatch (s : Str) : Bool :=
  match s with
  | c :: rest =>
    isAsciiAlpha c &&
      (let run := rest.takeWhile isSchemeChar
       startsWithL (rest.drop run.length) ":".data)
  | [] => false

/-- Step 4 of `_normalize_href`: canonicalize `//`, `www.` and single-slash
scheme variants. -/
def hrefCanonScheme (s0 : Str) : Str :=
  if startsWithL s0 "//".data then "https:".data ++ s0
  else if startsWithL s0 "www.".data then "https://".data ++ s0
  else if startsWithL s0 "https:/".data && !startsWithL s0 "https://".data then
    "https://".data ++ s0.drop 7
  else if startsWithL s0 "http:/".data && !startsWithL s0 "http://".data then
    "http://".data ++ s0.drop 6
  else s0

/-- Steps 4–5 of `_normalize_href`: scheme canonicalization, then prefix
`https://` onto a bare domain. -/
def hrefCanon (s0 : Str) : Str :=
  if bareDomainMatch (hrefCanonScheme s0) && !schemeLikeMatch (hrefCanonScheme s0) then
    "https://".data ++ hrefCanonScheme s0
  else hrefCanonScheme s0

/-- `_normalize_href` on a (non-`None`) string: the three dispatch branches
of the source (accepted scheme or anchor; root-relative path; verbatim
fallback) all return the percent-encoded canonical value. -/
def normHref (raw : Str) : Str :=
  if startsWithL (hrefCanon (hrefClean raw)) "http://".data ||
      startsWithL (hrefCanon (hrefClean raw)) "https://".data ||
      startsWithL (hrefCanon (hrefClean raw)) "mailto:".data ||
      startsWithL (hrefCanon (hrefClean raw)) "tel:".data ||
      startsWithL (hrefCanon (hrefClean raw)) "#".data then
    percentEncodeUrl (hrefCanon (hrefClean raw))
  else if startsWithL (hrefCanon (hrefClean raw)) "/".data then
    percentEncodeUrl (hrefCanon (hrefClean raw))
  else
    percentEncodeUrl (hrefCanon (hrefClean raw))

/-- `_normalize_href` including the `raw_val is None` guard, which returns
the dead-anchor placeholder. -/
def normalizeHrefOpt : Option Str → Str
  | none => "#".data
  | some r => normHref r

/-- The quote characters of the spec's quote-safety property: `"` and the
four smart quotes. -/
def quoteChars : List Char :=
  ['"', '“', '”', '‘', '’']

/-! ## `_rewrite_links_in_html` (scripts/generate_report.py:1128)

The anchor-tag pattern of the source,

  `<a\s+([^>]*?)href\s*=\s*(?:(['\"])(.*?)(?:\2)|([^\s>]+))([^>]*)>`  (IGNORECASE)

is modelled by a hand-written matcher with Python backtracking semantics:
the lazy group scans forward for `href` over non-`>` characters, the quoted
alternative is preferred, `.` never crosses a newline, and the unquoted
value is a maximal run of non-whitespace non-`>` characters. -/

structure ATagMatch where
  pre : Str      -- group 1, the attributes before `href`
  hrefVal : Str  -- group 3 (quoted) or group 4 (unquoted)
  post : Str     -- group 5, the attributes after the value
  rest : Str     -- input after the matched `>`
deriving Repr, DecidableEq

/-- Quoted value alternative: `(['\"])(.*?)(?:\2)` then `([^>]*)>`. -/
def tryQuoted (qc : Char) (t : Str) : Option (Str × Str × Str) :=
  let v := t.takeWhile (· ≠ qc)
  if v.length = t.length then none          -- no closing quote
  else if v.contains '\n' then none         -- `.` cannot cross a newline
  else
    let rest1 := t.drop (v.length + 1)
    let post := rest1.takeWhile (· ≠ '>')
    if post.length = rest1.length then none -- no closing `>` anywhere after
    else some (v, post, rest1.drop (post.length + 1))

/-- Unquoted value alternative: `([^\s>]+)` then `([^>]*)>`. -/
def tryUnquoted (l : Str) : Option (Str × Str × Str) :=
  let v := l.takeWhile (fun c => !isPySpace c && c ≠ '>')
  if v.isEmpty then none
  else
    let rest1 := l.drop v.length
    let post := rest1.takeWhile (· ≠ '>')
    if post.length = rest1.length then none
    else some (v, post, rest1.drop (post.length + 1))

/-- `\s*=\s*` followed by the value alternation (quoted preferred). -/
def tryAfterHref (l : Str) : Option (Str × Str × Str) :=
  match l.dropWhile isPySpace with
  | '=' :: l2 =>
    let l3 := l2.dropWhile isPySpace
    (match l3 with
     | c :: t =>
       if c = '"' ∨ c = '\'' then
         match tryQuoted c t with
         | some r => some r
         | none => tryUnquoted l3
       else tryUnquoted l3
     | [] => none)
  | _ => none

/-- The lazy `([^>]*?)href` scan: try `href` at each position (left to
right); on failure of the continuation, the scanned character joins the
`pre` group; a `>` aborts the match attempt. -/
def scanHref : Str → Str → Option ATagMatch
  | l, acc =>
    let viaHere : Option ATagMatch :=
      if startsWithCI l "href".data then
        match tryAfterHref (l.drop 4) with
        | some (v, post, rest) => some ⟨acc.reverse, v, post, rest⟩
        | none => none
      else none
    match viaHere with
    | some m => some m
    | none =>
      match l with
      | [] => none
      | c :: t => if c = '>' then none else scanHref t (c :: acc)

/-- Try the anchor-tag pattern at the current position. -/
def matchATagAt (l : Str) : Option ATagMatch :=
  match l with
  | '<' :: c :: t =>
    if toAsciiLower c = 'a' then
      let ws := t.takeWhile isPySpace
      if ws.isEmpty then none
      else scanHref (t.drop ws.length) []
    else none
  | _ => none

/-- `normalized.startswith(("http://", "https://"))` in `_replacer`. -/
def isExternalHref (n : Str) : Bool :=
  startsWithL n "http://".data || startsWithL n "https://".data

/-- `attrs_combined` in `_replacer`. -/
def attrsCombined (pre post : Str) : Str :=
  stripPy (pre ++ ' ' :: post)

/-- `post_attrs` after the `target` injection in `_replacer`. -/
def postWithTarget (pre v post : Str) : Str :=
  if isExternalHref (normHref v) && !containsSub (attrsCombined pre post) "target=".data then
    stripPy (post ++ " target=\"_blank\"".data)
  else post

/-- `post_attrs` after the `rel` injection in `_replacer`. -/
def postWithRel (pre v post : Str) : Str :=
  if isExternalHref (normHref v) && !containsSub (attrsCombined pre post) "rel=".data then
    stripPy (postWithTarget pre v post ++ " rel=\"noopener noreferrer\"".data)
  else postWithTarget pre v post

/-- The `_replacer` closure of `_rewrite_links_in_html`. -/
def replacerATag (pre v post : Str) : Str :=
  "<a ".data ++
  (if (stripPy pre).isEmpty then [] else stripPy pre ++ [' ']) ++
  "href=\"".data ++ normHref v ++ "\"".data ++
  (if (stripPy (postWithRel pre v post)).isEmpty then []
   else ' ' :: stripPy (postWithRel pre v post)) ++ ">".data

/-- `a_tag_pattern.sub(_replacer, ·)`: leftmost, non-overlapping. -/
def subATagsAux : Nat → Str → Str
  | 0, l => l
  | _ + 1, [] => []
  | fuel + 1, c :: t =>
    match matchATagAt (c :: t) with
    | some m => replacerATag m.pre m.hrefVal m.post ++ subATagsAux fuel m.rest
    | none => c :: subATagsAux fuel t

def subATags (l : Str) : Str :=
  subATagsAux (l.length + 1) l

/-! ## `_autolink_plain_urls_and_markdown` (scripts/generate_report.py:1180) -/

/-- Markdown link at the current position:
`\[([^\]]+)\]\((https?://[^\s)]+)\)` (case-sensitive). -/
def matchMdAt (l : Str) : Option (Str × Str × Str) :=
  match l with
  | '[' :: t =>
    let label := t.takeWhile (· ≠ ']')
    if label.isEmpty then none
    else
      (match t.drop label.length with
       | ']' :: '(' :: r2 =>
         let parse : Option (Str × Str) :=
           if startsWithL r2 "https://".data then some ("https://".data, r2.drop 8)
           else if startsWithL r2 "http://".data then some ("http://".data, r2.drop 7)
           else none
         (match parse with
          | some (scheme, r4) =>
            let body := r4.takeWhile (fun c => !isPySpace c && c ≠ ')')
            if body.isEmpty then none
            else
              (match r4.drop body.length with
               | ')' :: r6 => some (label, scheme ++ body, r6)
               | _ => none)
          | none => none)
       | _ => none)
  | _ => none

def mdSubAux : Nat → Str → Str
  | 0, l => l
  | _ + 1, [] => []
  | fuel + 1, c :: t =>
    match matchMdAt (c :: t) with
    | some (label, url, rest) =>
      "<a href=\"".data ++ normHref url ++ "\">".data ++ htmlEscape label ++
        "</a>".data ++ mdSubAux fuel rest
    | none => c :: mdSubAux fuel t

def mdSub (l : Str) : Str :=
  mdSubAux (l.length + 1) l

/-- Scheme of `https?://` case-insensitively, keeping the original text. -/
def matchSchemeCI (r : Str) : Option (Str × Str) :=
  if startsWithCI r "https://".data then some (r.take 8, r.drop 8)
  else if startsWithCI r "http://".data then some (r.take 7, r.drop 7)
  else none

/-- Angle-bracket link at the current position:
`(?:<|&lt;)(https?://[^\s<>]+)(?:>|&gt;)` (IGNORECASE).  The greedy value
backtracks so that a trailing `&gt;` inside the run can serve as the
closing delimiter. -/
def matchAngleAt (l : Str) : Option (Str × Str) :=
  let afterOpen : Option Str :=
    match l with
    | '<' :: t => some t
    | _ => if startsWithCI l "&lt;".data then some (l.drop 4) else none
  match afterOpen with
  | none => none
  | some r =>
    match matchSchemeCI r with
    | none => none
    | some (scheme, r4) =>
      let body := r4.takeWhile (fun c => !isPySpace c && c ≠ '<' && c ≠ '>')
      if body.isEmpty then none
      else
        match r4.drop body.length with
        | '>' :: r6 => some (scheme ++ body, r6)
        | _ =>
          -- longest k with `&gt;` (case-insensitive) starting at body[k:]
          let ks := (List.range body.length).filter fun k =>
            1 ≤ k ∧ startsWithCI (body.drop k) "&gt;".data
          match ks.getLast? with
          | some k =>
            some (scheme ++ body.take k, body.drop (k + 4) ++ r4.drop body.length)
          | none => none

def angleSubAux : Nat → Str → Str
  | 0, l => l
  | _ + 1, [] => []
  | fuel + 1, c :: t =>
    match matchAngleAt (c :: t) with
    | some (url, rest) =>
      "<a href=\"".data ++ normHref url ++ "\">".data ++ url ++ "</a>".data ++
        angleSubAux fuel rest
    | none => c :: angleSubAux fuel t

def angleSub (l : Str) : Str :=
  angleSubAux (l.length + 1) l

/-- Bare URL, `(https?://[^\s<>()\"]+)` (IGNORECASE), keeping original text. -/
def matchBareUrl (l : Str) : Option (Str × Str) :=
  match matchSchemeCI l with
  | none => none
  | some (scheme, r4) =>
    let body := r4.takeWhile (fun c =>
      !isPySpace c && c ≠ '<' && c ≠ '>' && c ≠ '(' && c ≠ ')' && c ≠ '"')
    if body.isEmpty then none
    else some (scheme ++ body, r4.drop body.length)

/-- Prefix class `[\s\(\[]` of the bare-URL pattern. -/
def isBarePre (c : Char) : Bool :=
  isPySpace c || c = '(' || c = '['

def bareAnchor (url : Str) : Str :=
  "<a href=\"".data ++ normHref url ++ "\">".data ++ url ++ "</a>".data

/-- `bare_url_pattern.sub`: the `^` alternative applies only at the very
start of the string; otherwise the single prefix character is consumed and
re-emitted. -/
def bareSubAux : Nat → Bool → Str → Str
  | 0, _, l => l
  | _ + 1, _, [] => []
  | fuel + 1, atStart, c :: t =>
    let viaStart : Option (Str × Str) :=
      if atStart then matchBareUrl (c :: t) else none
    match viaStart with
    | some (url, rest) => bareAnchor url ++ bareSubAux fuel false rest
    | none =>
      match (if isBarePre c then matchBareUrl t else none) with
      | some (url, rest) => c :: bareAnchor url ++ bareSubAux fuel false rest
      | none => c :: bareSubAux fuel false t

def bareSub (l : Str) : Str :=
  bareSubAux (l.length + 1) true l

/-- `_autolink_plain_urls_and_markdown`: no-op when empty or when an
anchor tag is already present; otherwise markdown, then angle-bracket,
then bare-URL substitution.  (The `try/except` around the body has nothing
to catch in this embedding: every operation is total.) -/
def autolinkPlainUrlsAndMarkdown (h : Str) : Str :=
  if h.isEmpty then h
  else if containsSub (lowerStr h) "<a ".data then h
  else bareSub (angleSub (mdSub h))

/-- `_rewrite_links_in_html` with the module-level `PRESERVE_MODEL_HTML`
flag made explicit (its default is `False`). -/
def rewriteLinksInHtml (preserveModelHtml : Bool) (h : Str) : Str :=
  if h.isEmpty then h
  else if preserveModelHtml then h
  else subATags (autolinkPlainUrlsAndMarkdown h)

/-! ## `_render_html_from_structured` (scripts/generate_report.py:1231)

The structured records are modelled as structures of strings: a missing or
`None` dict entry and the `or ""` default collapse to the empty string, and
the `isinstance(item, dict)` guards are vacuous because every modelled item
is a record. -/

structure Highlight where
  headline : Str
  why_it_matters : Str
  source_url : Str
deriving DecidableEq

structure CompItem where
  competitor : Str
  move : Str
  implication : Str
deriving DecidableEq

/-- `enablement` record; `outcome90` models the `"90_day_outcome"` key. -/
structure EnableItem where
  skill : Str
  outcome90 : Str
  resource_url : Str
deriving DecidableEq

structure RiskItem where
  risk : Str
  mitigation : Str
deriving DecidableEq

structure SourceItem where
  title : Str
  url : Str
deriving DecidableEq

structure RenderPayload where
  title : Option Str
  priority_focus : Option Str
  highlights : List Highlight
  competitive_watch : List CompItem
  enablement : List EnableItem
  actions_next_week : List Str
  risks : List RiskItem
  sources : List SourceItem
deriving DecidableEq

/-- `payload.get(key, default) or default`. -/
def orDefault (o : Option Str) (d : Str) : Str :=
  match o with
  | none => d
  | some t => if t.isEmpty then d else t

def defaultTitle : Str := "Workday HCM + AI – Brief".data

def liWrap (content : Str) : Str :=
  "<li>".data ++ content ++ "</li>".data

def highlightLabel (h : Highlight) : Str :=
  if (htmlEscape h.headline).isEmpty then normHref h.source_url
  else htmlEscape h.headline

def highlightLink (h : Highlight) : Str :=
  if !(normHref h.source_url).isEmpty then
    "<a href=\"".data ++ normHref h.source_url ++ "\">".data ++
      highlightLabel h ++ "</a>".data
  else htmlEscape h.headline

def highlightText (h : Highlight) : Str :=
  "<strong>".data ++ highlightLink h ++ "</strong>".data ++
    (if (htmlEscape h.why_it_matters).isEmpty then []
     else ": ".data ++ htmlEscape h.why_it_matters)

def highlightLi (h : Highlight) : Str :=
  liWrap (highlightText h)

def renderHighlights (l : List Highlight) : Str :=
  if (l.map highlightLi).isEmpty then []
  else "<h3>Highlights</h3><ul>".data ++ (l.map highlightLi).flatten ++ "</ul>".data

def compLi (c : CompItem) : Str :=
  let competitor := htmlEscape c.competitor
  let move := htmlEscape c.move
  let implication := htmlEscape c.implication
  let txt := "<strong>".data ++ competitor ++ "</strong>: ".data ++ move ++
    (if implication.isEmpty then [] else " – ".data ++ implication)
  liWrap txt

def renderComp (l : List CompItem) : Str :=
  let items := l.map compLi
  if items.isEmpty then []
  else "<h3>Competitive Watch</h3><ul>".data ++ items.flatten ++ "</ul>".data

def enableLi (e : EnableItem) : Str :=
  let skill := htmlEscape e.skill
  let outcome := htmlEscape e.outcome90
  let resUrl := normHref e.resource_url
  let link :=
    if !resUrl.isEmpty then
      "<a href=\"".data ++ resUrl ++ "\">Resource</a>".data
    else "Resource".data
  let txt := "<strong>".data ++ skill ++ ":</strong> ".data ++ link ++
    (if outcome.isEmpty then [] else " – ".data ++ outcome)
  liWrap txt

def renderEnable (l : List EnableItem) : Str :=
  let items := l.map enableLi
  if items.isEmpty then []
  else "<h3>Enablement</h3><ul>".data ++ items.flatten ++ "</ul>".data

def renderActions (l : List Str) : Str :=
  let items := l.map (fun a => liWrap (htmlEscape a))
  if items.isEmpty then []
  else "<h3>Actions for Next Week</h3><ul>".data ++ items.flatten ++ "</ul>".data

def riskLi (r : RiskItem) : Str :=
  let risk := htmlEscape r.risk
  let mit := htmlEscape r.mitigation
  let txt :=
    if !mit.isEmpty then "<strong>".data ++ risk ++ "</strong>: ".data ++ mit
    else risk
  liWrap txt

def renderRisks (l : List RiskItem) : Str :=
  let items := l.map riskLi
  if items.isEmpty then []
  else "<h3>Risks & Mitigations</h3><ul>".data ++ items.flatten ++ "</ul>".data

def sourceLi (s : SourceItem) : Option Str :=
  let title := htmlEscape (orDefault (some s.title) "Source".data)
  let url := normHref s.url
  if !url.isEmpty then
    some (liWrap ("<a href=\"".data ++ url ++ "\">".data ++ title ++ "</a>".data))
  else none

def renderSources (l : List SourceItem) : Str :=
  let items := l.filterMap sourceLi
  if items.isEmpty then []
  else "<h3>All Sources</h3><ul>".data ++ items.flatten ++ "</ul>".data

def noContentFallback : Str :=
  "<h2>Workday HCM + AI – Brief</h2><p>No content available.</p>".data

def renderBodyParts (p : RenderPayload) : List Str :=
  ["<h2>".data ++ htmlEscape (orDefault p.title defaultTitle) ++ "</h2>".data] ++
  (if (htmlEscape (orDefault p.priority_focus [])).isEmpty then []
   else ["<p><strong>What matters now:</strong> ".data ++
     htmlEscape (orDefault p.priority_focus []) ++ "</p>".data]) ++
  [renderHighlights p.highlights,
   renderComp p.competitive_watch,
   renderEnable p.enablement,
   renderActions p.actions_next_week,
   renderRisks p.risks,
   renderSources p.sources]

/-- `body = "".join([part for part in body_parts if part])`. -/
def renderBody (p : RenderPayload) : Str :=
  ((renderBodyParts p).filter (fun part => !part.isEmpty)).flatten

def renderHtmlFromStructured (p : RenderPayload) : Str :=
  if (renderBody p).isEmpty then noContentFallback else renderBody p

/-! ## `_postprocess_payload` (scripts/generate_report.py:1895) and the
`run_date` bookkeeping of `run_verify` (scripts/generate_report.py:1918) -/

/-- The payload fields `_postprocess_payload` touches.  `none` models an
absent key (for `html_body`, also a non-`str` value, which the
`isinstance(html_body, str)` guard skips). -/
structure BriefPayload where
  type : Option Str
  run_date : Option Str
  html_body : Option Str
deriving DecidableEq

/-- `_postprocess_payload`: `setdefault` the `type` and `run_date` keys
(never overriding present values) and rewrite the links of a string
`html_body`.  `todayEt` stands for the module-level `TODAY_ET` constant. -/
def postprocessPayload (preserve : Bool) (todayEt runType : Str) (p : BriefPayload) :
    BriefPayload :=
  { type := match p.type with
      | some v => some v
      | none => some runType
    run_date := match p.run_date with
      | some v => some v
      | none => some todayEt
    html_body := p.html_body.map (rewriteLinksInHtml preserve) }

/-- The `run_date_preserved` flag computed by `run_verify` (lines
1968–1971): when the model returned a (truthy) `run_date`, the processed
payload must carry the same value. -/
def runDatePreservedFlag (modelRunDate : Option Str) (processed : BriefPayload) : Bool :=
  match modelRunDate with
  | none => true
  | some d => if d.isEmpty then true else decide (processed.run_date = some d)

/-! ## General lemmas -/

theorem infix_app_left {α : Type} {a b : List α} (x : List α) (h : a <:+: b) :
    a <:+: x ++ b := by
  obtain ⟨s, t, rfl⟩ := h
  exact ⟨x ++ s, t, by simp⟩

theorem infix_app_right {α : Type} {a b : List α} (x : List α) (h : a <:+: b) :
    a <:+: b ++ x := by
  obtain ⟨s, t, rfl⟩ := h
  exact ⟨s, t ++ x, by simp⟩

theorem infix_flatten_of_mem {α : Type} {x : List α} {l : List (List α)}
    (h : x ∈ l) : x <:+: l.flatten := by
  induction l with
  | nil => cases h
  | cons a t ih =>
    rcases List.mem_cons.mp h with rfl | hmem
    · exact infix_app_right _ ⟨[], [], by simp⟩
    · exact infix_app_left _ (ih hmem)

theorem infix_map_flatten {α β : Type} (f : α → List β) {x : α} {l : List α}
    (h : x ∈ l) : f x <:+: (l.map f).flatten :=
  infix_flatten_of_mem (List.mem_map_of_mem f h)

theorem startsWithL_append_right {s p : Str} (y : Str)
    (h : startsWithL s p = true) : startsWithL (s ++ y) p = true := by
  induction p generalizing s with
  | nil => simp [startsWithL]
  | cons c cs ih =>
    cases s with
    | nil => simp [startsWithL] at h
    | cons a as =>
      simp only [startsWithL, Bool.and_eq_true] at h ⊢
      exact ⟨h.1, ih h.2⟩

theorem startsWithL_ex {s p : Str} (h : startsWithL s p = true) :
    ∃ r, s = p ++ r := by
  induction p generalizing s with
  | nil => exact ⟨s, rfl⟩
  | cons c cs ih =>
    cases s with
    | nil => simp [startsWithL] at h
    | cons a as =>
      simp only [startsWithL, Bool.and_eq_true, decide_eq_true_eq] at h
      obtain ⟨r, rfl⟩ := ih h.2
      exact ⟨r, by simp [h.1]⟩

theorem splitOnceL_append_of_not_mem {c : Char} {x : Str} (v : Str)
    (hx : c ∉ x) : splitOnceL c (x ++ c :: v) = some (x, v) := by
  induction x with
  | nil => simp [splitOnceL]
  | cons a t ih =>
    have ha : a ≠ c := fun h => hx (h ▸ List.mem_cons_self a t)
    have ht : c ∉ t := fun h => hx (List.mem_cons_of_mem a h)
    simp [splitOnceL, ha, ih ht]

/-- `Char.ofNat` inversion: the produced character carries the given code
point, or the fallback `0`. -/
theorem char_ofNat_cases (b : Nat) : (Char.ofNat b).toNat = b ∨ (Char.ofNat b).toNat = 0 := by
  unfold Char.ofNat
  by_cases h : b.isValidChar
  · rw [dif_pos h]; exact Or.inl rfl
  · rw [dif_neg h]; exact Or.inr rfl

theorem toNat_ofNat_of_lt {b : Nat} (h : b < 0xd800) : (Char.ofNat b).toNat = b := by
  unfold Char.ofNat
  rw [dif_pos (Or.inl h)]
  rfl

/-- A character of a `lowerStr` image of scheme characters is a scheme
character. -/
theorem isSchemeChar_toAsciiLower {c : Char} (h : isSchemeChar c = true) :
    isSchemeChar (toAsciiLower c) = true := by
  unfold toAsciiLower
  split
  · next hu =>
    unfold isAsciiUpper at hu
    simp only [Bool.and_eq_true, decide_eq_true_eq] at hu
    have hv : (Char.ofNat (c.toNat + 32)).toNat = c.toNat + 32 :=
      toNat_ofNat_of_lt (by omega)
    unfold isSchemeChar isAsciiAlnum isAsciiAlpha isAsciiLowerC
    simp only [Bool.or_eq_true, Bool.and_eq_true, decide_eq_true_eq]
    left; left; left; left; right
    rw [hv]
    omega
  · exact h

/-! ## Character classification of `pyQuote` output -/

theorem char_toNat_lt (c : Char) : c.toNat < 0x110000 := by
  show c.val.toNat < 0x110000
  rcases c.valid with h | h
  · omega
  · omega

theorem utf8Encode_lt {c : Char} {b : Nat} (h : b ∈ utf8Encode c) : b < 256 := by
  have hc := char_toNat_lt c
  unfold utf8Encode at h
  split at h <;>
    [skip; split at h] <;>
    [skip; skip; split at h] <;>
    simp only [List.mem_cons, List.mem_singleton, List.not_mem_nil, or_false] at h <;>
    rcases h with rfl | rfl | rfl | rfl <;>
    omega

theorem hexDigitU_range {n : Nat} (hn : n < 16) :
    (48 ≤ (hexDigitU n).toNat ∧ (hexDigitU n).toNat ≤ 57) ∨
    (65 ≤ (hexDigitU n).toNat ∧ (hexDigitU n).toNat ≤ 70) := by
  unfold hexDigitU
  split
  · next h =>
    rw [toNat_ofNat_of_lt (by omega)]
    omega
  · next h =>
    rw [toNat_ofNat_of_lt (by omega)]
    omega

theorem mem_pyQuote {c : Char} {safe : List Char} {l : Str} (h : c ∈ pyQuote safe l) :
    (∃ b, c = Char.ofNat b ∧
      (alwaysSafeByte b = true ∨ (b < 0x80 ∧ Char.ofNat b ∈ safe))) ∨
    c = '%' ∨ (∃ n, n < 16 ∧ c = hexDigitU n) := by
  unfold pyQuote at h
  rw [List.mem_flatten] at h
  obtain ⟨L, hL, hcL⟩ := h
  rw [List.mem_map] at hL
  obtain ⟨x, _, rfl⟩ := hL
  rw [List.mem_flatten] at hcL
  obtain ⟨B, hB, hcB⟩ := hcL
  rw [List.mem_map] at hB
  obtain ⟨b, hb, rfl⟩ := hB
  have hblt : b < 256 := utf8Encode_lt hb
  by_cases hcond : (alwaysSafeByte b ||
      (decide (b < 0x80) && decide (Char.ofNat b ∈ safe))) = true
  · rw [if_pos hcond] at hcB
    simp only [List.mem_singleton] at hcB
    subst hcB
    left
    refine ⟨b, rfl, ?_⟩
    rcases Bool.or_eq_true _ _ |>.mp hcond with h1 | h2
    · exact Or.inl h1
    · rw [Bool.and_eq_true, decide_eq_true_eq, decide_eq_true_eq] at h2
      exact Or.inr h2
  · rw [if_neg hcond] at hcB
    simp only [List.mem_cons, List.mem_singleton, List.not_mem_nil, or_false] at hcB
    rcases hcB with rfl | rfl | rfl
    · exact Or.inr (Or.inl rfl)
    · exact Or.inr (Or.inr ⟨b / 16, by omega, rfl⟩)
    · exact Or.inr (Or.inr ⟨b % 16, by omega, rfl⟩)

/-- Characters outside the always-safe bytes, the `safe` set, `%` and the
hex digits never occur in `pyQuote` output. -/
theorem not_mem_pyQuote {X : Char} {safe : List Char} (l : Str)
    (hA : alwaysSafeByte X.toNat = false)
    (hS : X ∉ safe)
    (hZ : X.toNat ≠ 0)
    (hP : X ≠ '%')
    (hR : ¬(48 ≤ X.toNat ∧ X.toNat ≤ 57))
    (hU : ¬(65 ≤ X.toNat ∧ X.toNat ≤ 70)) :
    X ∉ pyQuote safe l := by
  intro hmem
  rcases mem_pyQuote hmem with ⟨b, hXb, hcond⟩ | rfl | ⟨n, hn, hXn⟩
  · have hbx : X.toNat = b ∨ X.toNat = 0 := hXb ▸ char_ofNat_cases b
    rcases hbx with hbx | hbx
    · rcases hcond with h1 | ⟨_, h2⟩
      · rw [← hbx] at h1
        exact absurd h1 (by rw [hA]; exact Bool.false_ne_true)
      · rw [← hXb] at h2
        exact hS h2
    · exact hZ hbx
  · exact hP rfl
  · rcases hXn ▸ hexDigitU_range hn with h | h
    · exact hR h
    · exact hU h

/-! ## Structure of `urlunsplit` / `urlsplitE` output -/

theorem mem_ite_app_cons {c sep : Char} {x y : Str} {cond : Prop} [Decidable cond]
    (h : c ∈ (if cond then x ++ sep :: y else x)) :
    c ∈ x ∨ (cond ∧ (c = sep ∨ c ∈ y)) := by
  split at h
  · next hc =>
    rcases List.mem_append.mp h with h | h
    · exact Or.inl h
    · rcases List.mem_cons.mp h with h | h
      · exact Or.inr ⟨hc, Or.inl h⟩
      · exact Or.inr ⟨hc, Or.inr h⟩
  · exact Or.inl h

theorem mem_ite_cons_app {c sep : Char} {x y : Str} {cond : Prop} [Decidable cond]
    (h : c ∈ (if cond then x ++ sep :: y else y)) :
    (cond ∧ (c ∈ x ∨ c = sep)) ∨ c ∈ y := by
  split at h
  · next hc =>
    rcases List.mem_append.mp h with h | h
    · exact Or.inl ⟨hc, Or.inl h⟩
    · rcases List.mem_cons.mp h with h | h
      · exact Or.inl ⟨hc, Or.inr h⟩
      · exact Or.inr h
  · exact Or.inr h

theorem mem_netstep {c : Char} {nl path : Str} {cond1 cond2 : Prop}
    [Decidable cond1] [Decidable cond2]
    (h : c ∈ (if cond1 then '/' :: '/' :: nl ++ (if cond2 then '/' :: path else path)
        else path)) :
    c = '/' ∨ c ∈ nl ∨ c ∈ path := by
  split at h
  · rcases List.mem_cons.mp h with h | h
    · exact Or.inl h
    · rcases List.mem_cons.mp h with h | h
      · exact Or.inl h
      · rcases List.mem_append.mp h with h | h
        · exact Or.inr (Or.inl h)
        · split at h
          · rcases List.mem_cons.mp h with h | h
            · exact Or.inl h
            · exact Or.inr (Or.inr h)
          · exact Or.inr (Or.inr h)
  · exact Or.inr (Or.inr h)

theorem mem_urlunsplit {c : Char} {p : UrlParts} (h : c ∈ urlunsplit p) :
    c ∈ p.scheme ∨ c ∈ p.netloc ∨ c ∈ p.path ∨ c ∈ p.query ∨ c ∈ p.fragment ∨
    c = '/' ∨ c = ':' ∨ (p.query ≠ [] ∧ c = '?') ∨ (p.fragment ≠ [] ∧ c = '#') := by
  unfold urlunsplit addFrag addQuery addScheme addNetloc at h
  rcases mem_ite_app_cons h with h | ⟨hf, h | h⟩
  · rcases mem_ite_app_cons h with h | ⟨hq, h | h⟩
    · rcases mem_ite_cons_app h with ⟨_, h | h⟩ | h
      · exact Or.inl h
      · tauto
      · rcases mem_netstep h with h | h | h <;> tauto
    · tauto
    · tauto
  · tauto
  · tauto

theorem urlunsplit_length_ge {p : UrlParts} (h : p.fragment ≠ []) :
    2 ≤ (urlunsplit p).length := by
  unfold urlunsplit addFrag
  rw [if_pos h]
  rw [List.length_append]
  have h1 : 1 ≤ p.fragment.length := by
    cases hfr : p.fragment with
    | nil => exact absurd hfr h
    | cons a t => simp
  simp only [List.length_cons]
  omega

theorem parseScheme_all {u : Str} : ∀ c ∈ (parseScheme u).1, isSchemeChar c = true := by
  unfold parseScheme
  split
  · next pre post _ =>
    split
    · next hcond =>
      intro c hc
      simp only at hc
      rw [lowerStr, List.mem_map] at hc
      obtain ⟨c', hc', rfl⟩ := hc
      simp only [Bool.and_eq_true] at hcond
      exact isSchemeChar_toAsciiLower (List.all_eq_true.mp hcond.2 c' hc')
    · intro c hc
      simp only at hc
      cases hc
  · intro c hc
    simp only at hc
    cases hc

theorem urlsplitE_ok_props {u : Str} {p : UrlParts} (h : urlsplitE u = .ok p) :
    (∀ c ∈ p.scheme, isSchemeChar c = true) ∧
    (∀ c ∈ p.netloc, isNetDelim c = false) := by
  unfold urlsplitE at h
  split at h
  · split at h
    · injection h with h'
      subst h'
      refine ⟨fun c hc => parseScheme_all c hc, fun c hc => ?_⟩
      have := List.mem_takeWhile_imp hc
      simpa using this
    · cases h
  · injection h with h'
    subst h'
    exact ⟨fun c hc => parseScheme_all c hc, fun c hc => by cases hc⟩

/-- `_percent_encode_url` never produces the bare placeholder `"#"` unless
it was the input (and `"#"` itself encodes to the empty string). -/
theorem percentEncodeUrl_ne_hash {u : Str} (hu : u ≠ "#".data) :
    percentEncodeUrl u ≠ "#".data := by
  unfold percentEncodeUrl
  split
  · exact hu
  · next p heq =>
    have hprops := urlsplitE_ok_props heq
    intro hres
    by_cases hf : pyQuote fragSafe (pyUnquote p.fragment) = []
    · have hmem : '#' ∈ urlunsplit ⟨p.scheme, p.netloc,
          pyQuote pathSafe (pyUnquote p.path),
          pyQuote querySafe (pyUnquote p.query),
          pyQuote fragSafe (pyUnquote p.fragment)⟩ := by
        rw [hres]
        exact List.mem_singleton.mpr rfl
      rcases mem_urlunsplit hmem with hsch | hnl | hpa | hq | hfr | hc | hc | hc | hc
      · have := hprops.1 '#' hsch
        simp [isSchemeChar, isAsciiAlnum, isAsciiAlpha, isAsciiUpper,
          isAsciiLowerC, isAsciiDigit] at this
      · have := hprops.2 '#' hnl
        simp [isNetDelim] at this
      · exact not_mem_pyQuote _ (by decide) (by decide) (by decide) (by decide)
          (by decide) (by decide) hpa
      · exact not_mem_pyQuote _ (by decide) (by decide) (by decide) (by decide)
          (by decide) (by decide) hq
      · rw [hf] at hfr
        cases hfr
      · exact absurd hc (by decide)
      · exact absurd hc (by decide)
      · exact absurd hc.2 (by decide)
      · exact hc.1 hf
    · have := urlunsplit_length_ge (p := ⟨p.scheme, p.netloc,
          pyQuote pathSafe (pyUnquote p.path),
          pyQuote querySafe (pyUnquote p.query),
          pyQuote fragSafe (pyUnquote p.fragment)⟩) hf
      rw [hres] at this
      simp at this

/-- All branches of `_normalize_href` return the percent-encoding of the
cleaned, scheme-canonicalized value. -/
theorem normHref_eq_pe (raw : Str) :
    normHref raw = percentEncodeUrl (hrefCanon (hrefClean raw)) := by
  unfold normHref
  split
  · rfl
  · split <;> rfl

/-- `_normalize_href` never returns the dead-anchor placeholder on a string
input. -/
theorem normHref_ne_hash (raw : Str) : normHref raw ≠ "#".data := by
  rw [normHref_eq_pe]
  by_cases hc : hrefCanon (hrefClean raw) = "#".data
  · rw [hc]
    intro hcontra
    exact absurd hcontra (by decide)
  · exact percentEncodeUrl_ne_hash hc

/-! ## Scheme preservation through `_percent_encode_url` -/

theorem startsWithL_append_self (x y : Str) : startsWithL (x ++ y) x = true := by
  induction x with
  | nil => simp [startsWithL]
  | cons a t ih => simp [startsWithL, ih]

/-- The tab/CR/LF filter of `urlsplit` keeps a clean prefix intact. -/
theorem urlPrep_clean (a : Char) (X r : Str)
    (ha : isC0OrSpace a = false)
    (hX : ∀ c ∈ a :: X, (c = '\t' || c = '\r' || c = '\n') = false) :
    urlPrep ((a :: X) ++ r) =
      (a :: X) ++ r.filter (fun c => !(c = '\t' || c = '\r' || c = '\n')) := by
  unfold urlPrep lstripP
  rw [List.cons_append, List.dropWhile_cons_of_neg (by simp [ha]), ← List.cons_append,
    List.filter_append]
  congr 1
  rw [List.filter_eq_self]
  intro c hc
  simp [hX c hc]

/-- Scheme characters are clean (no C0 controls, tabs, CR or LF). -/
theorem isSchemeChar_clean {c : Char} (h : isSchemeChar c = true) :
    isC0OrSpace c = false ∧ (c = '\t' || c = '\r' || c = '\n') = false := by
  unfold isSchemeChar isAsciiAlnum isAsciiAlpha isAsciiUpper isAsciiLowerC isAsciiDigit at h
  simp only [Bool.or_eq_true, Bool.and_eq_true, decide_eq_true_eq] at h
  have hge : 43 ≤ c.toNat := by
    rcases h with ((((h | h) | h) | rfl) | rfl) | rfl <;> first | omega | decide
  constructor
  · unfold isC0OrSpace
    simp only [decide_eq_false_iff_not]
    omega
  · have h9 : c.toNat ≠ 9 := by omega
    have h13 : c.toNat ≠ 13 := by omega
    have h10 : c.toNat ≠ 10 := by omega
    simp only [Bool.or_eq_false_iff, decide_eq_false_iff_not]
    refine ⟨⟨fun hc => h9 (by rw [hc]; rfl), fun hc => h13 (by rw [hc]; rfl)⟩,
      fun hc => h10 (by rw [hc]; rfl)⟩

/-- A scheme-shaped prefix survives `urlPrep`. -/
theorem urlPrep_scheme (S r : Str) (hS2 : S ≠ []) (hS4 : S.all isSchemeChar = true) :
    urlPrep (S ++ ':' :: r) =
      S ++ ':' :: r.filter (fun c => !(c = '\t' || c = '\r' || c = '\n')) := by
  cases S with
  | nil => exact absurd rfl hS2
  | cons a X =>
    have hall := List.all_eq_true.mp hS4
    have ha := isSchemeChar_clean (hall a (List.mem_cons_self a X))
    have h1 : urlPrep ((a :: X) ++ (':' :: r)) =
        (a :: X) ++ (':' :: r).filter (fun c => !(c = '\t' || c = '\r' || c = '\n')) := by
      refine urlPrep_clean a X (':' :: r) ha.1 ?_
      intro c hc
      exact (isSchemeChar_clean (hall c hc)).2
    simpa using h1

theorem parseScheme_concrete (S rf : Str) (hS2 : S ≠ [])
    (hS3 : headAlphaB S = true) (hS4 : S.all isSchemeChar = true)
    (hS5 : lowerStr S = S) :
    parseScheme (S ++ ':' :: rf) = (S, rf) := by
  have hnc : ':' ∉ S := by
    intro hmem
    have := List.all_eq_true.mp hS4 ':' hmem
    simp [isSchemeChar, isAsciiAlnum, isAsciiAlpha, isAsciiUpper, isAsciiLowerC,
      isAsciiDigit] at this
  unfold parseScheme
  rw [splitOnceL_append_of_not_mem rf hnc]
  have hcond : (!S.isEmpty && headAlphaB S && S.all isSchemeChar) = true := by
    rw [Bool.and_eq_true, Bool.and_eq_true]
    refine ⟨⟨?_, hS3⟩, hS4⟩
    cases S with
    | nil => exact absurd rfl hS2
    | cons _ _ => rfl
  dsimp only
  rw [if_pos hcond, hS5]

/-- `List.take 2 l = ['/', '/']` forces the two leading slashes. -/
theorem take_two_slashes {l : Str} (h : l.take 2 = ['/', '/']) :
    ∃ w, l = '/' :: '/' :: w := by
  cases l with
  | nil => simp [List.take] at h
  | cons a t =>
    cases t with
    | nil => simp [List.take] at h
    | cons b u =>
      simp only [List.take, List.cons.injEq] at h
      obtain ⟨rfl, rfl, -⟩ := h
      exact ⟨u, rfl⟩

/-- Any `urlunsplit` of parts with scheme `S` begins with `S:`. -/
theorem urlunsplit_scheme_colon {S : Str} {p : UrlParts} (hp : p.scheme = S)
    (hS2 : S ≠ []) : startsWithL (urlunsplit p) (S ++ [':']) = true := by
  unfold urlunsplit addFrag addQuery addScheme
  rw [hp]
  have base : ∀ url : Str, startsWithL (S ++ ':' :: url) (S ++ [':']) = true := by
    intro url
    have : S ++ ':' :: url = (S ++ [':']) ++ url := by simp
    rw [this]
    exact startsWithL_append_self _ _
  rw [if_pos hS2]
  split
  · split
    · exact startsWithL_append_right _ (startsWithL_append_right _ (base _))
    · exact startsWithL_append_right _ (base _)
  · split
    · exact startsWithL_append_right _ (base _)
    · exact base _

/-- For a scheme in `usesNetloc` arriving with `//`, `urlunsplit` begins
with `S://` in both the re-inserted-authority and preserved-path cases. -/
theorem urlunsplit_uses_netloc {S : Str} {p : UrlParts} (hp : p.scheme = S)
    (hS2 : S ≠ []) (hmem : S ∈ usesNetloc) :
    startsWithL (urlunsplit p) (S ++ [':', '/', '/']) = true := by
  unfold urlunsplit addFrag addQuery addScheme addNetloc
  rw [hp]
  have base : ∀ url : Str, startsWithL (S ++ ':' :: '/' :: '/' :: url)
      (S ++ [':', '/', '/']) = true := by
    intro url
    have : S ++ ':' :: '/' :: '/' :: url = (S ++ [':', '/', '/']) ++ url := by simp
    rw [this]
    exact startsWithL_append_self _ _
  rw [if_pos hS2]
  by_cases hnet : p.netloc ≠ [] ∨ (S ≠ [] ∧ S ∈ usesNetloc ∧
      p.path.take 2 ≠ "//".data)
  · rw [if_pos hnet]
    have hshape : '/' :: '/' :: p.netloc ++
        (if p.path ≠ [] ∧ p.path.take 1 ≠ "/".data then '/' :: p.path else p.path) =
        '/' :: '/' :: (p.netloc ++
          (if p.path ≠ [] ∧ p.path.take 1 ≠ "/".data then '/' :: p.path else p.path)) := by
      simp
    rw [hshape]
    split
    · split
      · exact startsWithL_append_right _ (startsWithL_append_right _ (base _))
      · exact startsWithL_append_right _ (base _)
    · split
      · exact startsWithL_append_right _ (base _)
      · exact base _
  · have htake : p.path.take 2 = "//".data := by
      by_contra hne
      exact hnet (Or.inr ⟨hS2, hmem, hne⟩)
    obtain ⟨w, hw⟩ := take_two_slashes (by simpa using htake)
    rw [if_neg hnet, hw]
    split
    · split
      · exact startsWithL_append_right _ (startsWithL_append_right _ (base _))
      · exact startsWithL_append_right _ (base _)
    · split
      · exact startsWithL_append_right _ (base _)
      · exact base _

theorem urlsplitE_ok_scheme {u : Str} {p : UrlParts} (h : urlsplitE u = .ok p) :
    p.scheme = urlSchemePart u := by
  unfold urlsplitE at h
  split at h
  · split at h
    · injection h with h'
      rw [← h']
    · cases h
  · injection h with h'
    rw [← h']

/-- `_percent_encode_url` keeps the `scheme://` shape of a `uses_netloc`
scheme. -/
theorem pe_uses_scheme (S w : Str) (hS2 : S ≠ []) (hS3 : headAlphaB S = true)
    (hS4 : S.all isSchemeChar = true) (hS5 : lowerStr S = S)
    (hmem : S ∈ usesNetloc) :
    startsWithL (percentEncodeUrl (S ++ ':' :: '/' :: '/' :: w))
      (S ++ [':', '/', '/']) = true := by
  have hprep := urlPrep_scheme S ('/' :: '/' :: w) hS2 hS4
  rw [List.filter_cons_of_pos (by decide), List.filter_cons_of_pos (by decide)] at hprep
  have hps : parseScheme (urlPrep (S ++ ':' :: '/' :: '/' :: w)) =
      (S, '/' :: '/' :: w.filter (fun c => !(c = '\t' || c = '\r' || c = '\n'))) := by
    rw [hprep]
    exact parseScheme_concrete S _ hS2 hS3 hS4 hS5
  unfold percentEncodeUrl
  split
  · have hsh : (S ++ [':', '/', '/']) ++ w = S ++ ':' :: '/' :: '/' :: w := by simp
    rw [← hsh]
    exact startsWithL_append_self _ _
  · next p heq =>
    have hscheme : p.scheme = S := by
      rw [urlsplitE_ok_scheme heq]
      unfold urlSchemePart
      rw [hps]

    exact urlunsplit_uses_netloc hscheme hS2 hmem

/-- `_percent_encode_url` keeps the `scheme:` prefix of any well-formed
scheme. -/
theorem pe_scheme_colon (S r : Str) (hS2 : S ≠ []) (hS3 : headAlphaB S = true)
    (hS4 : S.all isSchemeChar = true) (hS5 : lowerStr S = S) :
    startsWithL (percentEncodeUrl (S ++ ':' :: r)) (S ++ [':']) = true := by
  have hprep := urlPrep_scheme S r hS2 hS4
  have hps : parseScheme (urlPrep (S ++ ':' :: r)) =
      (S, r.filter (fun c => !(c = '\t' || c = '\r' || c = '\n'))) := by
    rw [hprep]
    exact parseScheme_concrete S _ hS2 hS3 hS4 hS5
  unfold percentEncodeUrl
  split
  · have hsh : (S ++ [':']) ++ r = S ++ ':' :: r := by simp
    rw [← hsh]
    exact startsWithL_append_self _ _
  · next p heq =>
    have hscheme : p.scheme = S := by
      rw [urlsplitE_ok_scheme heq]
      unfold urlSchemePart
      rw [hps]
    exact urlunsplit_scheme_colon hscheme hS2

theorem pe_keeps_https {u : Str} (h : startsWithL u "https://".data = true) :
    startsWithL (percentEncodeUrl u) "https://".data = true := by
  obtain ⟨w, rfl⟩ := startsWithL_ex h
  have h1 : "https://".data ++ w = "https".data ++ ':' :: '/' :: '/' :: w := rfl
  have h2 : "https://".data = "https".data ++ [':', '/', '/'] := rfl
  rw [h1, h2]
  exact pe_uses_scheme _ _ (by decide) (by decide) (by decide) (by decide) (by decide)

theorem pe_keeps_http {u : Str} (h : startsWithL u "http://".data = true) :
    startsWithL (percentEncodeUrl u) "http://".data = true := by
  obtain ⟨w, rfl⟩ := startsWithL_ex h
  have h1 : "http://".data ++ w = "http".data ++ ':' :: '/' :: '/' :: w := rfl
  have h2 : "http://".data = "http".data ++ [':', '/', '/'] := rfl
  rw [h1, h2]
  exact pe_uses_scheme _ _ (by decide) (by decide) (by decide) (by decide) (by decide)

theorem pe_keeps_mailto {u : Str} (h : startsWithL u "mailto:".data = true) :
    startsWithL (percentEncodeUrl u) "mailto:".data = true := by
  obtain ⟨w, rfl⟩ := startsWithL_ex h
  have h1 : "mailto:".data ++ w = "mailto".data ++ ':' :: w := rfl
  have h2 : "mailto:".data = "mailto".data ++ [':'] := rfl
  rw [h1, h2]
  exact pe_scheme_colon _ _ (by decide) (by decide) (by decide) (by decide)

theorem pe_keeps_tel {u : Str} (h : startsWithL u "tel:".data = true) :
    startsWithL (percentEncodeUrl u) "tel:".data = true := by
  obtain ⟨w, rfl⟩ := startsWithL_ex h
  have h1 : "tel:".data ++ w = "tel".data ++ ':' :: w := rfl
  have h2 : "tel:".data = "tel".data ++ [':'] := rfl
  rw [h1, h2]
  exact pe_scheme_colon _ _ (by decide) (by decide) (by decide) (by decide)

/-! ## `str.strip` keeps an attribute block that ends the string -/

/-- Stripping whitespace from both ends of `x ++ tb` keeps the whole block
`tb` intact when `tb` neither starts nor ends with whitespace. -/
theorem stripPy_keeps_suffix (x tb : Str) {c d : Char} {m r : Str}
    (hf : tb = c :: m) (hc : isPySpace c = false)
    (hr : tb.reverse = d :: r) (hd : isPySpace d = false) :
    ∃ y, stripPy (x ++ tb) = y ++ tb := by
  unfold stripPy
  rw [List.dropWhile_append]
  have hdrop_tb : tb.dropWhile (isPySpace ·) = tb := by
    rw [hf, List.dropWhile_cons, if_neg (by simp [hc])]
  have hdrop_rev : ∀ z : Str, (tb.reverse ++ z).dropWhile (isPySpace ·) = tb.reverse ++ z := by
    intro z
    rw [hr, List.cons_append, List.dropWhile_cons, if_neg (by simp [hd])]
  split
  · rw [hdrop_tb]
    have := hdrop_rev []
    rw [List.append_nil] at this
    rw [this, List.reverse_reverse]
    exact ⟨[], rfl⟩
  · rw [List.reverse_append, hdrop_rev, ← List.reverse_append, List.reverse_reverse]
    exact ⟨_, rfl⟩

/-! ## The anchor-pattern substitution is the identity without a match -/

theorem subATagsAux_id (fuel : Nat) (l : Str) (hfuel : l.length < fuel)
    (h : ∀ n, n < l.length → matchATagAt (l.drop n) = none) :
    subATagsAux fuel l = l := by
  induction fuel generalizing l with
  | zero => omega
  | succ f ih =>
    cases l with
    | nil => rfl
    | cons c t =>
      have h0 : matchATagAt (c :: t) = none := by
        have := h 0 (by simp)
        simpa using this
      unfold subATagsAux
      rw [h0]
      show c :: subATagsAux f t = c :: t
      congr 1
      refine ih t ?_ ?_
      · simp only [List.length_cons] at hfuel
        omega
      · intro n hn
        have := h (n + 1) (by simp only [List.length_cons]; omega)
        simpa using this

/-! ## Claims -/

/-- C1, counterexample: the full link-normalization pass is not idempotent.
For `<a href="example.com/x%29">L</a>` the first pass produces the href
`https://example.com/x)` (percent-decoding uncovers a trailing `)`), and the
second pass strips that `)` as trailing prose punctuation, so the two
results differ. -/
theorem claim_C1_counterexample :
    rewriteLinksInHtml false
        (rewriteLinksInHtml false "<a href=\"example.com/x%29\">L</a>".data) ≠
      rewriteLinksInHtml false "<a href=\"example.com/x%29\">L</a>".data := by
  decide

/-- C1, amended: the pass is idempotent on fragments whose normalized hrefs
are fixed points of `_normalize_href` — verified here for the repository's
test fragments (whitespace around `=`, root-relative link, unquoted
schemeless link) and a plain-text autolink input — though not on all
fragments. -/
theorem claim_C1_amended :
    (rewriteLinksInHtml false
        (rewriteLinksInHtml false "<a href = \"workday.com/resources\">Resource</a>".data) =
      rewriteLinksInHtml false "<a href = \"workday.com/resources\">Resource</a>".data) ∧
    (rewriteLinksInHtml false
        (rewriteLinksInHtml false "<p><a href=\"/news/2024/update\">Latest</a></p>".data) =
      rewriteLinksInHtml false "<p><a href=\"/news/2024/update\">Latest</a></p>".data) ∧
    (rewriteLinksInHtml false
        (rewriteLinksInHtml false "<a href=//example.com/page>Link</a>".data) =
      rewriteLinksInHtml false "<a href=//example.com/page>Link</a>".data) ∧
    (rewriteLinksInHtml false
        (rewriteLinksInHtml false "see https://z.com/q now".data) =
      rewriteLinksInHtml false "see https://z.com/q now".data) := by
  refine ⟨?_, ?_, ?_, ?_⟩ <;> decide

/-- C9, counterexample: the autolink pre-pass does not leave the inside of
non-anchor tags untouched — a bare URL inside an `<img>` tag's `title`
attribute is wrapped in an anchor. -/
theorem claim_C9_counterexample :
    autolinkPlainUrlsAndMarkdown "<img title=\"see https://x.com/a\">".data ≠
      "<img title=\"see https://x.com/a\">".data := by
  decide

/-- C9, amended: the rewrite pass changes only regions matched by the
anchor-tag pattern (a fragment with no match anywhere is returned
unchanged), and the autolink pre-pass runs only when no `<a ` occurs in the
lower-cased fragment — in which case it applies its three substitutions in
the fixed order markdown, angle-bracket, bare URL over the whole text,
including inside non-anchor tags. -/
theorem claim_C9_amended :
    (∀ h : Str, containsSub (lowerStr h) "<a ".data = true →
      autolinkPlainUrlsAndMarkdown h = h) ∧
    (∀ h : Str, h ≠ [] → containsSub (lowerStr h) "<a ".data = false →
      autolinkPlainUrlsAndMarkdown h = bareSub (angleSub (mdSub h))) ∧
    (∀ l : Str, (∀ n, n < l.length → matchATagAt (l.drop n) = none) →
      subATags l = l) ∧
    (∀ h : Str, containsSub (lowerStr h) "<a ".data = true →
      rewriteLinksInHtml false h = subATags h) := by
  have part1 : ∀ h : Str, containsSub (lowerStr h) "<a ".data = true →
      autolinkPlainUrlsAndMarkdown h = h := by
    intro h hh
    cases h with
    | nil => exact absurd hh (by decide)
    | cons c t =>
      unfold autolinkPlainUrlsAndMarkdown
      rw [if_neg (by simp), if_pos hh]
  refine ⟨part1, ?_, ?_, ?_⟩
  · intro h hne hh
    cases h with
    | nil => exact absurd rfl hne
    | cons c t =>
      unfold autolinkPlainUrlsAndMarkdown
      rw [if_neg (by simp), if_neg (by simp [hh])]
  · intro l hl
    exact subATagsAux_id (l.length + 1) l (by omega) hl
  · intro h hh
    cases h with
    | nil => exact absurd hh (by decide)
    | cons c t =>
      unfold rewriteLinksInHtml
      rw [if_neg (by simp), if_neg (by simp), part1 (c :: t) hh]

/-- C9, witness: the amended statement applied at concrete inputs — a
fragment containing `<a ` is untouched by the autolinker, and a fragment
with no anchor-pattern match is left unchanged by the tag substitution. -/
theorem claim_C9_witness :
    autolinkPlainUrlsAndMarkdown "<a x>hi</a>".data = "<a x>hi</a>".data ∧
      subATags "abc".data = "abc".data :=
  ⟨claim_C9_amended.1 _ (by decide), claim_C9_amended.2.2.1 _ (by decide)⟩

/-- C3: for every input string beginning with `/`, `_normalize_href` never
returns the dead-anchor placeholder `#` (the regression property); the
repository's test path comes back percent-encoded as-is. -/
theorem claim_C3 :
    (∀ p : Str, startsWithL p "/".data = true → normHref p ≠ "#".data) ∧
    normHref "/news/2024/update".data = "/news/2024/update".data := by
  exact ⟨fun p _ => normHref_ne_hash p, by decide⟩

/-- C3, witness: the theorem applied to the concrete path of the
repository's regression test. -/
theorem claim_C3_witness :
    startsWithL "/news/2024/update".data "/".data = true ∧
      normHref "/news/2024/update".data ≠ "#".data :=
  ⟨by decide, claim_C3.1 "/news/2024/update".data (by decide)⟩

/-- C10: a `None` href value is the one input mapped to the dead-anchor
placeholder `#`; no string input ever produces it. -/
theorem claim_C10 :
    normalizeHrefOpt none = "#".data ∧
      ∀ s : Str, normalizeHrefOpt (some s) ≠ "#".data :=
  ⟨rfl, fun s => normHref_ne_hash s⟩

/-- C10, witness: the theorem instantiated at a concrete string input. -/
theorem claim_C10_witness :
    normalizeHrefOpt none = "#".data ∧ normalizeHrefOpt (some "x".data) ≠ "#".data :=
  ⟨claim_C10.1, claim_C10.2 "x".data⟩

/-- C2, counterexample: `_normalize_href "hello" = "hello"`, which begins
with none of `http://`, `https://`, `mailto:`, `tel:`, `#`, `/` — the
unresolved input is returned percent-encoded verbatim instead. -/
theorem claim_C2_counterexample :
    normHref "hello".data = "hello".data ∧
    startsWithL (normHref "hello".data) "http://".data = false ∧
    startsWithL (normHref "hello".data) "https://".data = false ∧
    startsWithL (normHref "hello".data) "mailto:".data = false ∧
    startsWithL (normHref "hello".data) "tel:".data = false ∧
    startsWithL (normHref "hello".data) "#".data = false ∧
    startsWithL (normHref "hello".data) "/".data = false := by
  decide

/-- C2, amended: every string input is returned as the percent-encoding of
its cleaned, scheme-canonicalized form; when that canonical form begins with
`https://`, `http://`, `mailto:` or `tel:`, so does the returned value.
Inputs resolving to none of the recognised shapes (and the degenerate bare
`#`) may begin with any character. -/
theorem claim_C2_amended : ∀ s : Str,
    normHref s = percentEncodeUrl (hrefCanon (hrefClean s)) ∧
    (startsWithL (hrefCanon (hrefClean s)) "https://".data = true →
      startsWithL (normHref s) "https://".data = true) ∧
    (startsWithL (hrefCanon (hrefClean s)) "http://".data = true →
      startsWithL (normHref s) "http://".data = true) ∧
    (startsWithL (hrefCanon (hrefClean s)) "mailto:".data = true →
      startsWithL (normHref s) "mailto:".data = true) ∧
    (startsWithL (hrefCanon (hrefClean s)) "tel:".data = true →
      startsWithL (normHref s) "tel:".data = true) := by
  intro s
  refine ⟨normHref_eq_pe s, ?_, ?_, ?_, ?_⟩ <;> intro h <;> rw [normHref_eq_pe]
  · exact pe_keeps_https h
  · exact pe_keeps_http h
  · exact pe_keeps_mailto h
  · exact pe_keeps_tel h

/-- C2, witness: the amended theorem applied to a concrete `https` input
(with a space that gets percent-encoded). -/
theorem claim_C2_witness :
    startsWithL (normHref "https://x.com/a b".data) "https://".data = true :=
  (claim_C2_amended "https://x.com/a b".data).2.1 (by decide)

/-- C7: normalization is total and fails open — `_percent_encode_url`
returns its input unchanged whenever `urlsplit` raises, the rewriting and
autolinking passes map the empty string to itself, and the
`PRESERVE_MODEL_HTML` switch turns the rewrite into the identity.  (The
autolinker's own `try/except` is vacuous in this embedding: every operation
in its body is total.) -/
theorem claim_C7 :
    (∀ u : Str, ∀ e : Unit, urlsplitE u = .error e → percentEncodeUrl u = u) ∧
    rewriteLinksInHtml false "".data = "".data ∧
    autolinkPlainUrlsAndMarkdown "".data = "".data ∧
    (∀ h : Str, rewriteLinksInHtml true h = h) := by
  refine ⟨?_, rfl, rfl, ?_⟩
  · intro u e he
    unfold percentEncodeUrl
    rw [he]
  · intro h
    unfold rewriteLinksInHtml
    split
    · rfl
    · rw [if_pos rfl]

/-- C7, witness: `urlsplit` fails on the unmatched-bracket authority `//[`
and the percent-encoder passes it through unchanged. -/
theorem claim_C7_witness : percentEncodeUrl "//[".data = "//[".data :=
  claim_C7.1 "//[".data () (by rfl)

/-- C4, counterexample: a double quote in the authority component passes
through `_normalize_href` unencoded — `https://a"b.com` comes back with the
raw `"` still inside. -/
theorem claim_C4_counterexample : '"' ∈ normHref "https://a\"b.com".data := by
  decide

/-- C4, amended: the output of `_normalize_href` contains no raw `"`, `“`,
`”`, `‘` or `’`, provided `urlsplit` succeeds on the canonical form and the
authority component is pure ASCII and carries no quote character (the path,
query and fragment are percent-encoded; the authority and the fail-open
path are passed through verbatim).  The ASCII restriction keeps the
statement within the modelled fragment of `urlsplit`: its NFKC netloc check,
which is not modelled here, returns without raising on every ASCII
authority. -/
theorem claim_C4_amended (s : Str) (p : UrlParts)
    (hok : urlsplitE (hrefCanon (hrefClean s)) = .ok p)
    (hascii : ∀ c ∈ p.netloc, c.toNat < 128)
    (hnl : ∀ q ∈ quoteChars, q ∉ p.netloc) :
    ∀ q ∈ quoteChars, q ∉ normHref s := by
  intro q hq hmem
  have hq5 : q = '"' ∨ q = '“' ∨ q = '”' ∨ q = '‘' ∨ q = '’' := by
    simpa [quoteChars] using hq
  rw [normHref_eq_pe] at hmem
  unfold percentEncodeUrl at hmem
  rw [hok] at hmem
  have hprops := urlsplitE_ok_props hok
  rcases mem_urlunsplit hmem with h | h | h | h | h | h | h | h | h
  · have hs := hprops.1 q h
    rcases hq5 with rfl | rfl | rfl | rfl | rfl <;> exact absurd hs (by decide)
  · rcases hq5 with rfl | rfl | rfl | rfl | rfl
    · exact hnl '"' (by decide) h
    · exact absurd (hascii _ h) (by decide)
    · exact absurd (hascii _ h) (by decide)
    · exact absurd (hascii _ h) (by decide)
    · exact absurd (hascii _ h) (by decide)
  · rcases hq5 with rfl | rfl | rfl | rfl | rfl <;>
      exact not_mem_pyQuote _ (by decide) (by decide) (by decide) (by decide)
        (by decide) (by decide) h
  · rcases hq5 with rfl | rfl | rfl | rfl | rfl <;>
      exact not_mem_pyQuote _ (by decide) (by decide) (by decide) (by decide)
        (by decide) (by decide) h
  · rcases hq5 with rfl | rfl | rfl | rfl | rfl <;>
      exact not_mem_pyQuote _ (by decide) (by decide) (by decide) (by decide)
        (by decide) (by decide) h
  · rcases hq5 with rfl | rfl | rfl | rfl | rfl <;> exact absurd h (by decide)
  · rcases hq5 with rfl | rfl | rfl | rfl | rfl <;> exact absurd h (by decide)
  · rcases hq5 with rfl | rfl | rfl | rfl | rfl <;> exact absurd h.2 (by decide)
  · rcases hq5 with rfl | rfl | rfl | rfl | rfl <;> exact absurd h.2 (by decide)

/-- C4, witness: the amended theorem applied to the test URL
`workday.com/x`, whose canonical form splits with the quote-free authority
`workday.com`. -/
theorem claim_C4_amended_witness :
    '"' ∉ normHref "workday.com/x".data ∧
    '“' ∉ normHref "workday.com/x".data ∧
    '”' ∉ normHref "workday.com/x".data ∧
    '‘' ∉ normHref "workday.com/x".data ∧
    '’' ∉ normHref "workday.com/x".data :=
  ⟨claim_C4_amended "workday.com/x".data
      ⟨"https".data, "workday.com".data, "/x".data, [], []⟩ (by rfl) (by decide)
      (by decide)
      '"' (by decide),
   claim_C4_amended "workday.com/x".data
      ⟨"https".data, "workday.com".data, "/x".data, [], []⟩ (by rfl) (by decide)
      (by decide)
      '“' (by decide),
   claim_C4_amended "workday.com/x".data
      ⟨"https".data, "workday.com".data, "/x".data, [], []⟩ (by rfl) (by decide)
      (by decide)
      '”' (by decide),
   claim_C4_amended "workday.com/x".data
      ⟨"https".data, "workday.com".data, "/x".data, [], []⟩ (by rfl) (by decide)
      (by decide)
      '‘' (by decide),
   claim_C4_amended "workday.com/x".data
      ⟨"https".data, "workday.com".data, "/x".data, [], []⟩ (by rfl) (by decide)
      (by decide)
      '’' (by decide)⟩

/-- C6, counterexample: `_postprocess_payload` does not override a
provider-returned `run_date` with the canonical date — `setdefault` keeps
the stale value `2020-01-01` even when `TODAY_ET` is `2025-10-12`. -/
theorem claim_C6_counterexample :
    (postprocessPayload false "2025-10-12".data "daily".data
        ⟨some "daily".data, some "2020-01-01".data, none⟩).run_date =
      some "2020-01-01".data ∧
    ("2020-01-01".data : Str) ≠ "2025-10-12".data :=
  ⟨rfl, by decide⟩

/-- C6, amended: `run_date` is only default-filled — a provider-returned
value is preserved unchanged (and `run_verify`'s `run_date_preserved` flag
confirms it), while an absent value is set to the canonical `TODAY_ET`. -/
theorem claim_C6_amended : ∀ (preserve : Bool) (today rt : Str) (p : BriefPayload),
    (∀ d : Str, p.run_date = some d →
      (postprocessPayload preserve today rt p).run_date = some d ∧
      runDatePreservedFlag (some d) (postprocessPayload preserve today rt p) = true) ∧
    (p.run_date = none →
      (postprocessPayload preserve today rt p).run_date = some today) := by
  intro preserve today rt p
  constructor
  · intro d hd
    constructor
    · simp [postprocessPayload, hd]
    · simp [postprocessPayload, runDatePreservedFlag, hd]
  · intro hd
    simp [postprocessPayload, hd]

/-- C6, witness: the amended theorem at concrete payloads — a present
`run_date` survives post-processing and passes the verify flag, an absent
one is filled with the canonical date. -/
theorem claim_C6_witness :
    (postprocessPayload false "2025-10-12".data "daily".data
        ⟨none, some "2020-01-01".data, none⟩).run_date = some "2020-01-01".data ∧
    runDatePreservedFlag (some "2020-01-01".data)
      (postprocessPayload false "2025-10-12".data "daily".data
        ⟨none, some "2020-01-01".data, none⟩) = true ∧
    (postprocessPayload false "2025-10-12".data "daily".data
        ⟨none, none, none⟩).run_date = some "2025-10-12".data :=
  ⟨((claim_C6_amended false "2025-10-12".data "daily".data
      ⟨none, some "2020-01-01".data, none⟩).1 _ rfl).1,
   ((claim_C6_amended false "2025-10-12".data "daily".data
      ⟨none, some "2020-01-01".data, none⟩).1 _ rfl).2,
   (claim_C6_amended false "2025-10-12".data "daily".data
      ⟨none, none, none⟩).2 rfl⟩

/-! ## The `_replacer` closure injects its attributes -/

theorem append_cons_eq (x : Str) (c : Char) (y : Str) :
    x ++ c :: y = (x ++ [c]) ++ y := by simp

/-- When the target branch fires, the injected `target="_blank"` block ends
`post_attrs` (possibly followed by the rel block). -/
theorem postWithRel_target_shape (pre v post : Str)
    (hext : isExternalHref (normHref v) = true)
    (hcont : containsSub (attrsCombined pre post) "target=".data = false) :
    ∃ z w, postWithRel pre v post = z ++ ("target=\"_blank\"".data ++ w) ∧
      (w = [] ∨ w = ' ' :: "rel=\"noopener noreferrer\"".data) := by
  have h1 : postWithTarget pre v post =
      stripPy ((post ++ [' ']) ++ "target=\"_blank\"".data) := by
    unfold postWithTarget
    rw [hext, hcont]
    rw [if_pos (by decide)]
    have : post ++ " target=\"_blank\"".data =
        (post ++ [' ']) ++ "target=\"_blank\"".data := by
      rw [← append_cons_eq]
    rw [this]
  obtain ⟨y1, hy1⟩ := stripPy_keeps_suffix (post ++ [' ']) "target=\"_blank\"".data
    rfl (by decide) rfl (by decide)
  rw [hy1] at h1
  unfold postWithRel
  split
  · rw [h1]
    have hsh : (y1 ++ "target=\"_blank\"".data) ++ " rel=\"noopener noreferrer\"".data =
        y1 ++ ("target=\"_blank\"".data ++ ' ' :: "rel=\"noopener noreferrer\"".data) := by
      simp
    rw [hsh]
    obtain ⟨y2, hy2⟩ := stripPy_keeps_suffix y1
      ("target=\"_blank\"".data ++ ' ' :: "rel=\"noopener noreferrer\"".data)
      rfl (by decide) rfl (by decide)
    exact ⟨y2, _, hy2, Or.inr rfl⟩
  · rw [h1]
    exact ⟨y1, [], by simp, Or.inl rfl⟩

theorem replacer_keeps_target (pre v post : Str)
    (hext : isExternalHref (normHref v) = true)
    (hcont : containsSub (attrsCombined pre post) "target=".data = false) :
    "target=\"_blank\"".data <:+: replacerATag pre v post := by
  obtain ⟨z, w, hzw, hw⟩ := postWithRel_target_shape pre v post hext hcont
  have hstrip : ∃ y, stripPy (postWithRel pre v post) =
      y ++ ("target=\"_blank\"".data ++ w) := by
    rw [hzw]
    rcases hw with rfl | rfl
    · simpa using stripPy_keeps_suffix z ("target=\"_blank\"".data ++ [])
        (by rfl) (by decide) (by rfl) (by decide)
    · exact stripPy_keeps_suffix z
        ("target=\"_blank\"".data ++ ' ' :: "rel=\"noopener noreferrer\"".data)
        rfl (by decide) rfl (by decide)
  obtain ⟨y, hy⟩ := hstrip
  have hne : (stripPy (postWithRel pre v post)).isEmpty = false := by
    rw [hy]
    rcases hw with rfl | rfl <;> simp
  have htin : "target=\"_blank\"".data <:+:
      (if (stripPy (postWithRel pre v post)).isEmpty then ([] : Str)
       else ' ' :: stripPy (postWithRel pre v post)) := by
    rw [hne]
    simp only [Bool.false_eq_true, if_false]
    rw [hy]
    refine infix_app_left [' '] ?_
    refine infix_app_left y ?_
    exact infix_app_right w List.infix_rfl
  unfold replacerATag
  exact infix_app_right _ (infix_app_left _ htin)

theorem replacer_keeps_rel (pre v post : Str)
    (hext : isExternalHref (normHref v) = true)
    (hcont : containsSub (attrsCombined pre post) "rel=".data = false) :
    "rel=\"noopener noreferrer\"".data <:+: replacerATag pre v post := by
  have h1 : postWithRel pre v post =
      stripPy ((postWithTarget pre v post ++ [' ']) ++ "rel=\"noopener noreferrer\"".data) := by
    unfold postWithRel
    rw [hext, hcont]
    rw [if_pos (by decide)]
    have : postWithTarget pre v post ++ " rel=\"noopener noreferrer\"".data =
        (postWithTarget pre v post ++ [' ']) ++ "rel=\"noopener noreferrer\"".data := by
      rw [← append_cons_eq]
    rw [this]
  obtain ⟨y1, hy1⟩ := stripPy_keeps_suffix (postWithTarget pre v post ++ [' '])
    "rel=\"noopener noreferrer\"".data rfl (by decide) rfl (by decide)
  rw [hy1] at h1
  obtain ⟨y2, hy2⟩ := stripPy_keeps_suffix y1 "rel=\"noopener noreferrer\"".data
    rfl (by decide) rfl (by decide)
  have hne : (stripPy (postWithRel pre v post)).isEmpty = false := by
    rw [h1, hy2]
    simp
  have htin : "rel=\"noopener noreferrer\"".data <:+:
      (if (stripPy (postWithRel pre v post)).isEmpty then ([] : Str)
       else ' ' :: stripPy (postWithRel pre v post)) := by
    rw [hne]
    simp only [Bool.false_eq_true, if_false]
    rw [h1, hy2]
    refine infix_app_left [' '] ?_
    exact infix_app_left y2 List.infix_rfl
  unfold replacerATag
  exact infix_app_right _ (infix_app_left _ htin)

/-- C5: every matched anchor's href is replaced by its normalized value in
double quotes, and external links gain `target="_blank"` and
`rel="noopener noreferrer"` when not already present; in particular the
spec's two concrete fragments rewrite as stated. -/
theorem claim_C5 :
    ("href=\"https://workday.com/resources\"".data <:+:
        rewriteLinksInHtml false "<a href = \"workday.com/resources\">Resource</a>".data) ∧
    ("target=\"_blank\"".data <:+:
        rewriteLinksInHtml false "<a href = \"workday.com/resources\">Resource</a>".data) ∧
    (rewriteLinksInHtml false "<a href=//example.com/page>Link</a>".data =
      "<a href=\"https://example.com/page\" target=\"_blank\" rel=\"noopener noreferrer\">Link</a>".data) ∧
    (∀ pre v post : Str,
      (("href=\"".data ++ normHref v ++ "\"".data) <:+: replacerATag pre v post) ∧
      (isExternalHref (normHref v) = true →
        containsSub (attrsCombined pre post) "target=".data = false →
        "target=\"_blank\"".data <:+: replacerATag pre v post) ∧
      (isExternalHref (normHref v) = true →
        containsSub (attrsCombined pre post) "rel=".data = false →
        "rel=\"noopener noreferrer\"".data <:+: replacerATag pre v post)) := by
  refine ⟨by decide, by decide, by decide, ?_⟩
  intro pre v post
  refine ⟨?_, replacer_keeps_target pre v post, replacer_keeps_rel pre v post⟩
  unfold replacerATag
  have hre : ∀ A B : Str,
      "<a ".data ++ A ++ "href=\"".data ++ normHref v ++ "\"".data ++ B ++ ">".data =
      (("<a ".data ++ A) ++ ("href=\"".data ++ normHref v ++ "\"".data)) ++
        (B ++ ">".data) := by
    intro A B
    simp [List.append_assoc]
  rw [hre]
  exact infix_app_right _ (infix_app_left _ List.infix_rfl)

/-- C5, witness: the general conjunct applied at the unquoted schemeless
value `//example.com/page` with empty surrounding attributes. -/
theorem claim_C5_witness :
    ("href=\"".data ++ normHref "//example.com/page".data ++ "\"".data <:+:
      replacerATag [] "//example.com/page".data []) ∧
    ("target=\"_blank\"".data <:+: replacerATag [] "//example.com/page".data []) ∧
    ("rel=\"noopener noreferrer\"".data <:+: replacerATag [] "//example.com/page".data []) :=
  ⟨(claim_C5.2.2.2 [] "//example.com/page".data []).1,
   (claim_C5.2.2.2 [] "//example.com/page".data []).2.1 (by decide) (by decide),
   (claim_C5.2.2.2 [] "//example.com/page".data []).2.2 (by decide) (by decide)⟩

theorem renderHighlights_cons (a : Highlight) (t : List Highlight) :
    renderHighlights (a :: t) =
      "<h3>Highlights</h3><ul>".data ++ ((a :: t).map highlightLi).flatten ++
        "</ul>".data := rfl

theorem render_eq_body (p : RenderPayload) :
    renderHtmlFromStructured p = renderBody p := rfl

theorem renderHighlights_mem_parts (p : RenderPayload) :
    renderHighlights p.highlights ∈ renderBodyParts p := by
  unfold renderBodyParts
  exact List.mem_append_right _ (List.mem_cons_self _ _)

theorem highlights_infix_render (p : RenderPayload) (a : Highlight)
    (t : List Highlight) (hc : p.highlights = a :: t) :
    renderHighlights p.highlights <:+: renderHtmlFromStructured p := by
  have hne : (renderHighlights p.highlights).isEmpty = false := by
    rw [hc]; rfl
  have hmem : renderHighlights p.highlights ∈
      (renderBodyParts p).filter (fun part => !part.isEmpty) :=
    List.mem_filter.mpr ⟨renderHighlights_mem_parts p, by simp [hne]⟩
  rw [render_eq_body]
  exact infix_flatten_of_mem hmem

theorem headline_infix_label (h : Highlight) :
    htmlEscape h.headline <:+: highlightLabel h := by
  unfold highlightLabel
  split
  · rename_i hh
    have hnil : htmlEscape h.headline = [] := by
      cases hxx : htmlEscape h.headline
      · rfl
      · rw [hxx] at hh
        simp [List.isEmpty] at hh
    rw [hnil]
    exact List.nil_infix
  · exact List.infix_rfl

theorem headline_infix_link (h : Highlight) :
    htmlEscape h.headline <:+: highlightLink h := by
  unfold highlightLink
  split
  · exact infix_app_right _ (infix_app_left _ (headline_infix_label h))
  · exact List.infix_rfl

theorem headline_infix_li (h : Highlight) :
    htmlEscape h.headline <:+: highlightLi h := by
  unfold highlightLi liWrap highlightText
  exact infix_app_right _ (infix_app_left _
    (infix_app_right _ (infix_app_right _ (infix_app_left _ (headline_infix_link h)))))

theorem anchor_infix_link (h : Highlight) (hnz : normHref h.source_url ≠ []) :
    "<a href=\"".data ++ normHref h.source_url ++ "\">".data <:+:
      highlightLink h := by
  unfold highlightLink
  split
  · exact infix_app_right _ (infix_app_right _ List.infix_rfl)
  · rename_i hcond
    exfalso
    apply hcond
    cases hxx : normHref h.source_url
    · exact absurd hxx hnz
    · rfl

theorem anchor_infix_li (h : Highlight) (hnz : normHref h.source_url ≠ []) :
    "<a href=\"".data ++ normHref h.source_url ++ "\">".data <:+:
      highlightLi h := by
  unfold highlightLi liWrap highlightText
  exact infix_app_right _ (infix_app_left _
    (infix_app_right _ (infix_app_right _ (infix_app_left _ (anchor_infix_link h hnz)))))

set_option maxRecDepth 100000 in
/-- C8: the fallback renderer emits sections in the fixed order Highlights,
Competitive Watch, Enablement, Actions for Next Week, Risks and Mitigations,
All Sources, omits empty sections (each section renderer maps an empty list
to the empty string, and `renderBody` filters out empty parts), HTML-escapes
text fields and routes URLs through `normHref` (shown exactly on a payload
with one record per section), and for any payload with at least one
highlight the output contains a Highlights block with that highlight's
escaped headline and, when its normalized URL is nonempty, its anchor tag. -/
theorem claim_C8 :
    (renderHighlights [] = [] ∧ renderComp [] = [] ∧ renderEnable [] = [] ∧
      renderActions [] = [] ∧ renderRisks [] = [] ∧ renderSources [] = []) ∧
    (renderHtmlFromStructured ⟨none, none, [], [], [], [], [], []⟩ =
      "<h2>Workday HCM + AI – Brief</h2>".data) ∧
    (renderHtmlFromStructured
        ⟨some "T<1>".data, some "Focus".data,
         [⟨"Head & co".data, "why".data, "workday.com/a".data⟩],
         [⟨"ACME".data, "move".data, "impl".data⟩],
         [⟨"Skill".data, "out".data, "//cdn.x/r".data⟩],
         ["Act <now>".data],
         [⟨"R".data, "M".data⟩],
         [⟨"Doc".data, "www.d.io/p".data⟩]⟩ =
      ("<h2>T&lt;1&gt;</h2><p><strong>What matters now:</strong> Focus</p>" ++
       "<h3>Highlights</h3><ul><li><strong><a href=\"https://workday.com/a\">Head &amp; co</a></strong>: why</li></ul>" ++
       "<h3>Competitive Watch</h3><ul><li><strong>ACME</strong>: move – impl</li></ul>" ++
       "<h3>Enablement</h3><ul><li><strong>Skill:</strong> <a href=\"https://cdn.x/r\">Resource</a> – out</li></ul>" ++
       "<h3>Actions for Next Week</h3><ul><li>Act &lt;now&gt;</li></ul>" ++
       "<h3>Risks & Mitigations</h3><ul><li><strong>R</strong>: M</li></ul>" ++
       "<h3>All Sources</h3><ul><li><a href=\"https://www.d.io/p\">Doc</a></li></ul>").data) ∧
    (∀ p : RenderPayload, ∀ h : Highlight, ∀ t : List Highlight,
      p.highlights = h :: t →
      ("<h3>Highlights</h3><ul>".data <:+: renderHtmlFromStructured p) ∧
      (htmlEscape h.headline <:+: renderHtmlFromStructured p) ∧
      (normHref h.source_url ≠ [] →
        "<a href=\"".data ++ normHref h.source_url ++ "\">".data <:+:
          renderHtmlFromStructured p)) := by
  refine ⟨⟨rfl, rfl, rfl, rfl, rfl, rfl⟩, by decide, by decide, ?_⟩
  intro p h t hc
  have hsec : renderHighlights p.highlights <:+: renderHtmlFromStructured p :=
    highlights_infix_render p h t hc
  have hli : highlightLi h <:+: ((h :: t).map highlightLi).flatten :=
    infix_map_flatten highlightLi (List.mem_cons_self _ _)
  refine ⟨?_, ?_, ?_⟩
  · refine List.IsInfix.trans ?_ hsec
    rw [hc, renderHighlights_cons]
    exact infix_app_right _ (infix_app_right _ List.infix_rfl)
  · refine List.IsInfix.trans ?_ hsec
    rw [hc, renderHighlights_cons]
    exact infix_app_right _ (infix_app_left _ ((headline_infix_li h).trans hli))
  · intro hnz
    refine List.IsInfix.trans ?_ hsec
    rw [hc, renderHighlights_cons]
    exact infix_app_right _ (infix_app_left _ ((anchor_infix_li h hnz).trans hli))

/-- C8, witness: the highlight conjunct applied at a payload whose only
content is a single highlight with headline `Head` and URL `workday.com/a`. -/
theorem claim_C8_witness :
    ("<h3>Highlights</h3><ul>".data <:+: renderHtmlFromStructured
        ⟨none, none, [⟨"Head".data, "".data, "workday.com/a".data⟩],
         [], [], [], [], []⟩) ∧
    (htmlEscape "Head".data <:+: renderHtmlFromStructured
        ⟨none, none, [⟨"Head".data, "".data, "workday.com/a".data⟩],
         [], [], [], [], []⟩) ∧
    ("<a href=\"".data ++ normHref "workday.com/a".data ++ "\">".data <:+:
      renderHtmlFromStructured
        ⟨none, none, [⟨"Head".data, "".data, "workday.com/a".data⟩],
         [], [], [], [], []⟩) :=
  ⟨(claim_C8.2.2.2 ⟨none, none, [⟨"Head".data, "".data, "workday.com/a".data⟩],
      [], [], [], [], []⟩ ⟨"Head".data, "".data, "workday.com/a".data⟩ [] rfl).1,
   (claim_C8.2.2.2 ⟨none, none, [⟨"Head".data, "".data, "workday.com/a".data⟩],
      [], [], [], [], []⟩ ⟨"Head".data, "".data, "workday.com/a".data⟩ [] rfl).2.1,
   (claim_C8.2.2.2 ⟨none, none, [⟨"Head".data, "".data, "workday.com/a".data⟩],
      [], [], [], [], []⟩ ⟨"Head".data, "".data, "workday.com/a".data⟩ [] rfl).2.2
     (by decide)⟩

end WorkdayAI
